import Mathlib

/-!
Verification development for the travel-planning worker
(`src/worker/src/index.ts`).  The request-handler module is embedded
shallowly: request bodies become association lists of JSON values, the
field coercions become functions into `Except`, the libsql store becomes
an explicit record of table rows threaded through a state-passing monad,
and the pieces of the JavaScript platform the handler leans on
(`Date` parsing of `YYYY-MM-DDT00:00:00.000Z` strings, `toISOString`,
`parseInt`) are modelled arithmetically on a proleptic Gregorian
calendar.  Day numbers count days since 0000-01-01 (a pure shift of the
JS epoch, which preserves ordering, day-stepping and rendering).
-/

namespace Travel

/-- JSON values as delivered by `request.json()`.  JavaScript numbers are
split into integral numbers (carried exactly) and non-integral numbers
(whose exact value the handler never uses: `Number.isInteger` fails on
them and they are not strings, so every coercion rejects them). -/
inductive JsVal : Type where
  | nullV : JsVal
  | boolV : Bool → JsVal
  | str : String → JsVal
  | int : Int → JsVal
  | numNonInt : JsVal
  | arr : List JsVal → JsVal
  | obj : List (String × JsVal) → JsVal

/-- A parsed JSON object body: key/value pairs (`JsonBody` in the source). -/
abbrev JsBody := List (String × JsVal)

/-- Property lookup `hasOwn(body, key)`. -/
def hasOwn (body : JsBody) (key : String) : Bool :=
  body.any (fun kv => kv.1 = key)

/-- Lookup of `body[key]`; `none` models `undefined`. -/
def getKey (body : JsBody) (key : String) : Option JsVal :=
  (body.find? (fun kv => kv.1 = key)).map (·.2)

/-- Source `valueOf`: first present value under any accepted key spelling. -/
def valueOf (body : JsBody) : List String → Option JsVal
  | [] => none
  | k :: ks => if hasOwn body k then getKey body k else valueOf body ks

/-- Source `hasAnyKey`: whether any accepted spelling is present. -/
def hasAnyKey (body : JsBody) (keys : List String) : Bool :=
  keys.any (fun k => hasOwn body k)

/-- Whitespace stripped by `String.prototype.trim` (the ASCII subset of
the ECMAScript WhiteSpace and LineTerminator productions; the handler
never meets the exotic Unicode spaces). -/
def isTrimSpace (c : Char) : Bool :=
  c = ' ' || c = '\t' || c = '\n' || c = '\r' || c = '\x0b' || c = '\x0c'

/-- Model of `value.trim()`: strip trim-whitespace from both ends. -/
def jsTrim (s : String) : String :=
  ⟨((s.data.dropWhile isTrimSpace).reverse.dropWhile isTrimSpace).reverse⟩

/-- Model of `value.toUpperCase()` on the ASCII range. -/
def jsToUpper (s : String) : String := ⟨s.data.map Char.toUpper⟩

/-- Typed errors: `HttpError` instances thrown by the handler. -/
structure HttpError : Type where
  status : Nat
  message : String
deriving Repr, DecidableEq

/-- Anything thrown while serving a request: an `HttpError`, or some other
JavaScript exception carrying a message (e.g. the `RangeError` with
message "Invalid time value" raised by `toISOString` on an invalid
`Date`, or a storage-engine error). -/
inductive JsError : Type where
  | http : HttpError → JsError
  | thrown : String → JsError
deriving Repr, DecidableEq

/-- Shorthand for throwing `new HttpError(400, msg)`. -/
def err400 (msg : String) : JsError := .http ⟨400, msg⟩

/-- Substring test used by the error mapper (`message.includes(...)`). -/
def containsSubstr (s pat : String) : Bool :=
  s.data.tails.any (fun t => pat.data.isPrefixOf t)

/-- Source `mapDbError`: `HttpError`s pass through; other thrown errors are
classified by substring matching on their message, defaulting to 500. -/
def mapDbError (e : JsError) : HttpError :=
  match e with
  | .http he => he
  | .thrown msg =>
      if containsSubstr msg "UNIQUE constraint failed" then ⟨409, msg⟩
      else if containsSubstr msg "FOREIGN KEY constraint failed" then ⟨400, msg⟩
      else ⟨500, "Internal server error"⟩

/-- Source `asRequiredString`: value must be a string that is non-empty
after trimming; returns the trimmed string. -/
def asRequiredString (value : Option JsVal) (label : String) : Except JsError String :=
  match value with
  | some (.str s) =>
      let trimmed := jsTrim s
      if trimmed = "" then .error (err400 (label ++ " is required"))
      else .ok trimmed
  | _ => .error (err400 (label ++ " is required"))

/-- Source `asOptionalString`: absent/null become `none`; non-strings are
rejected; empty-after-trim becomes `none`. -/
def asOptionalString (value : Option JsVal) (label : String) : Except JsError (Option String) :=
  match value with
  | none => .ok none
  | some .nullV => .ok none
  | some (.str s) =>
      let trimmed := jsTrim s
      if trimmed = "" then .ok none else .ok (some trimmed)
  | some _ => .error (err400 (label ++ " must be a string"))

/-- Digit characters, as produced when rendering numbers. -/
def digitChar (d : Nat) : Char :=
  match d with
  | 0 => '0' | 1 => '1' | 2 => '2' | 3 => '3' | 4 => '4'
  | 5 => '5' | 6 => '6' | 7 => '7' | 8 => '8' | _ => '9'

/-- Partial inverse of `digitChar`: the value of a decimal digit character. -/
def charDigit (c : Char) : Option Nat :=
  match c with
  | '9' => some 9 | '8' => some 8 | '7' => some 7 | '6' => some 6 | '5' => some 5
  | '4' => some 4 | '3' => some 3 | '2' => some 2 | '1' => some 1 | '0' => some 0
  | _ => none

/-- Whitespace skipped by `parseInt` (the common ASCII subset of the
ECMAScript WhiteSpace / LineTerminator productions). -/
def isJsSpace (c : Char) : Bool :=
  c = ' ' || c = '\t' || c = '\n' || c = '\r' || c = '\x0b' || c = '\x0c'

/-- Value of a list of decimal digit characters (most significant first). -/
def digitsVal (ds : List Char) : Nat :=
  ds.foldl (fun acc c => 10 * acc + ((charDigit c).getD 0)) 0

/-- Model of `Number.parseInt(s, 10)`: skip leading whitespace, read an
optional sign, then the longest prefix of decimal digits; `none` models
the `NaN` result when no digit is found.  JavaScript would round results
beyond 2^53 to doubles; the model carries them exactly (the handler only
meets small amounts, minutes and order numbers). -/
def jsParseInt (s : String) : Option Int :=
  let cs := s.data.dropWhile isJsSpace
  let signAndRest : Int × List Char :=
    match cs with
    | '+' :: r => (1, r)
    | '-' :: r => (-1, r)
    | _ => (1, cs)
  let digits := signAndRest.2.takeWhile (fun c => (charDigit c).isSome)
  if digits.isEmpty then none
  else some (signAndRest.1 * (digitsVal digits : Int))

/-- Source `asRequiredInteger`: a native integral number passes through; a
string with non-empty trim is fed to `parseInt`; everything else is a
field-labelled 400. -/
def asRequiredInteger (value : Option JsVal) (label : String) : Except JsError Int :=
  match value with
  | some (.int n) => .ok n
  | some (.str s) =>
      if jsTrim s ≠ "" then
        match jsParseInt s with
        | some n => .ok n
        | none => .error (err400 (label ++ " must be an integer"))
      else .error (err400 (label ++ " must be an integer"))
  | _ => .error (err400 (label ++ " must be an integer"))

/-- Source `asOptionalInteger`: absent, null or the literal empty string
give `none`; anything else follows the required-integer rule. -/
def asOptionalInteger (value : Option JsVal) (label : String) : Except JsError (Option Int) :=
  match value with
  | none => .ok none
  | some .nullV => .ok none
  | some (.str "") => .ok none
  | some v => (asRequiredInteger (some v) label).map some

/-- Source `asObjectArray`: absent/null give `[]`; a non-array is rejected;
every element must be a (non-array, non-null) object. -/
def asObjectArray (value : Option JsVal) (label : String) : Except JsError (List JsBody) :=
  match value with
  | none => .ok []
  | some .nullV => .ok []
  | some (.arr items) =>
      let rec go (idx : Nat) : List JsVal → Except JsError (List JsBody)
        | [] => .ok []
        | .obj fields :: rest => (go (idx + 1) rest).map (fun tl => fields :: tl)
        | _ :: _ =>
            .error (err400 (label ++ "[" ++ toString idx ++ "] must be an object"))
      go 0 items
  | some _ => .error (err400 (label ++ " must be an array"))

/-! ## Calendar model (JavaScript `Date` on the proleptic Gregorian calendar)

Day numbers count days since 0000-01-01.  This is the JS epoch-day shifted
by 719528 (the day count of 1970-01-01), which keeps all comparisons,
one-day steps and renderings of the source faithful while staying in `Nat`
for the 4-digit years the date regex admits. -/

/-- Gregorian leap-year test. -/
def isLeap (y : Nat) : Bool :=
  (y % 4 = 0 && y % 100 ≠ 0) || y % 400 = 0

/-- Length of a year with the given leap flag. -/
def daysInYearB (leap : Bool) : Nat := if leap then 366 else 365

/-- Length of a year. -/
def daysInYear (y : Nat) : Nat := daysInYearB (isLeap y)

/-- Length of month `m` (1-12) with the given leap flag. -/
def daysInMonthB (leap : Bool) (m : Nat) : Nat :=
  if m = 2 then (if leap then 29 else 28)
  else if m = 4 ∨ m = 6 ∨ m = 9 ∨ m = 11 then 30
  else 31

/-- Length of month `m` (1-12) of year `y`. -/
def daysInMonth (y : Nat) (m : Nat) : Nat := daysInMonthB (isLeap y) m

/-- Cumulative days before month `m` (1-12) in a non-leap year. -/
def monthOffset (m : Nat) : Nat :=
  if m ≤ 1 then 0 else if m = 2 then 31 else if m = 3 then 59 else if m = 4 then 90
  else if m = 5 then 120 else if m = 6 then 151 else if m = 7 then 181
  else if m = 8 then 212 else if m = 9 then 243 else if m = 10 then 273
  else if m = 11 then 304 else 334

/-- Days of a year with the given leap flag strictly before month `m`. -/
def daysBeforeMonthB (leap : Bool) (m : Nat) : Nat :=
  monthOffset m + (if leap ∧ 3 ≤ m then 1 else 0)

/-- Days of year `y` strictly before month `m` (1-12). -/
def daysBeforeMonth (y : Nat) (m : Nat) : Nat :=
  daysBeforeMonthB (isLeap y) m

/-- Number of leap years in `[0, y)`. -/
def leapsBefore (y : Nat) : Nat := (y + 3) / 4 - (y + 99) / 100 + (y + 399) / 400

/-- Day number of January 1 of year `y` (days since 0000-01-01). -/
def dayOfYearStart (y : Nat) : Nat := 365 * y + leapsBefore y

/-- ECMAScript `MakeDay` (shifted epoch): day number of year `y`, month
`m` (1-12, as validated by the ISO date parser) and day-of-month `d`
(1-31 structurally; values past the month end roll over arithmetically,
exactly as `MakeDay` does). -/
def makeDay (y m d : Nat) : Nat := dayOfYearStart y + daysBeforeMonth y m + (d - 1)

/-- Bounded upward scan for the year containing a day number. -/
def yearFromDayGo (n : Nat) : Nat → Nat → Nat
  | y, 0 => y
  | y, fuel + 1 => if dayOfYearStart (y + 1) ≤ n then yearFromDayGo n (y + 1) fuel else y

/-- Year containing day number `n`: 400-year eras are peeled off
arithmetically (an era spans exactly 146097 days), then at most 400
single-year steps locate the year inside the era. -/
def yearFromDay (n : Nat) : Nat := yearFromDayGo n (400 * (n / 146097)) 400

/-- Month and day-of-month (1-based) from a 0-based day-of-year, following
the month boundaries `toISOString` uses. -/
def monthDayFromDoy (leap : Bool) (doy : Nat) : Nat × Nat :=
  let f : Nat := if leap then 1 else 0
  if doy < 31 then (1, doy + 1)
  else if doy < 59 + f then (2, doy - 31 + 1)
  else if doy < 90 + f then (3, doy - (59 + f) + 1)
  else if doy < 120 + f then (4, doy - (90 + f) + 1)
  else if doy < 151 + f then (5, doy - (120 + f) + 1)
  else if doy < 181 + f then (6, doy - (151 + f) + 1)
  else if doy < 212 + f then (7, doy - (181 + f) + 1)
  else if doy < 243 + f then (8, doy - (212 + f) + 1)
  else if doy < 273 + f then (9, doy - (243 + f) + 1)
  else if doy < 304 + f then (10, doy - (273 + f) + 1)
  else if doy < 334 + f then (11, doy - (304 + f) + 1)
  else (12, doy - (334 + f) + 1)

/-- Calendar date `(year, month, day)` of a day number (the inverse used
by `toISOString`). -/
def civilFromDays (n : Nat) : Nat × Nat × Nat :=
  let y := yearFromDay n
  let md := monthDayFromDoy (isLeap y) (n - dayOfYearStart y)
  (y, md.1, md.2)

/-- Two decimal digits with zero padding. -/
def pad2 (n : Nat) : List Char := [digitChar (n / 10 % 10), digitChar (n % 10)]

/-- Three decimal digits with zero padding. -/
def pad3 (n : Nat) : List Char :=
  [digitChar (n / 100 % 10), digitChar (n / 10 % 10), digitChar (n % 10)]

/-- Four decimal digits with zero padding. -/
def pad4 (n : Nat) : List Char :=
  [digitChar (n / 1000 % 10), digitChar (n / 100 % 10), digitChar (n / 10 % 10),
   digitChar (n % 10)]

/-- Canonical `YYYY-MM-DD` rendering of a calendar date. -/
def formatDate (y m d : Nat) : String :=
  ⟨pad4 y ++ '-' :: pad2 m ++ '-' :: pad2 d⟩

/-- Model of `date.toISOString().slice(0, 10)` on a midnight-UTC date. -/
def renderDate (n : Nat) : String :=
  formatDate (civilFromDays n).1 (civilFromDays n).2.1 (civilFromDays n).2.2

/-- Structural parse of a `YYYY-MM-DD` string: succeeds exactly on the
strings matched by the source regex `^\d{4}-\d{2}-\d{2}$`, yielding the
three numeric fields. -/
def parseDateFields (s : String) : Option (Nat × Nat × Nat) :=
  match s.data with
  | [a, b, c, d, h1, e, f, h2, g, i] =>
      match charDigit a, charDigit b, charDigit c, charDigit d,
            charDigit e, charDigit f, charDigit g, charDigit i with
      | some va, some vb, some vc, some vd, some ve, some vf, some vg, some vi =>
          if h1 = '-' ∧ h2 = '-' then
            some (1000 * va + 100 * vb + 10 * vc + vd, 10 * ve + vf, 10 * vg + vi)
          else none
      | _, _, _, _, _, _, _, _ => none
  | _ => none

/-- Test of the source regex `^\d{4}-\d{2}-\d{2}$`. -/
def matchesDatePattern (s : String) : Bool := (parseDateFields s).isSome

/-- Model of `new Date(s + "T00:00:00.000Z").getTime()` (as a day number)
for regex-shaped date strings, following V8: the ISO parser accepts the
fields only when month lies in 01-12 and day in 01-31 (out-of-range
fields make the string fail the Date Time String Format and yield an
Invalid Date), and in-range fields go through `MakeDay`, which rolls a
day past the month end over into the following month. -/
def jsParseIsoDate (s : String) : Option Nat :=
  match parseDateFields s with
  | some (y, m, d) =>
      if 1 ≤ m ∧ m ≤ 12 ∧ 1 ≤ d ∧ d ≤ 31 then some (makeDay y m d) else none
  | none => none

/-- Source `asDateOnly`: regex check, then parse as a UTC date and compare
the canonical rendering with the input.  An Invalid Date (structurally
out-of-range month or day) makes `toISOString` throw its `RangeError`,
which escapes as a non-`HttpError`. -/
def asDateOnly (value : String) (label : String) : Except JsError String :=
  if matchesDatePattern value then
    match jsParseIsoDate value with
    | none => .error (.thrown "Invalid time value")
    | some n =>
        if renderDate n = value then .ok value
        else .error (err400 (label ++ " is invalid"))
  else .error (err400 (label ++ " must be YYYY-MM-DD"))

/-- Milliseconds per day. -/
def msPerDay : Int := 86400000

/-- Day count of 1970-01-01 (the JS epoch) in this model. -/
def epochDay : Int := 719528

/-- Model of `new Date(ms).toISOString()` for instants whose year has four
digits (the only range the handler meets; JS would switch to the
extended ±YYYYYY year format outside it). -/
def toIsoDateTimeString (ms : Int) : String :=
  let day := ms.fdiv msPerDay
  let msod := (ms - day * msPerDay).toNat
  let n := (day + epochDay).toNat
  renderDate n ++
    ⟨'T' :: pad2 (msod / 3600000) ++ ':' :: pad2 (msod / 60000 % 60) ++
      ':' :: pad2 (msod / 1000 % 60) ++ '.' :: pad3 (msod % 1000) ++ ['Z']⟩

/-- Source `asIsoDateTime`, parameterized by the platform `Date.parse`
(whose accepted formats are implementation-defined): `NaN` (`none`) is a
field-labelled 400, otherwise the instant is re-rendered canonically. -/
def asIsoDateTime (parseMs : String → Option Int) (value : String) (label : String) :
    Except JsError String :=
  match parseMs value with
  | none => .error (err400 (label ++ " must be a valid datetime"))
  | some ms => .ok (toIsoDateTimeString ms)

/-- Loop body of `buildDateRange`: push the cursor date, step one day,
abort past 120 entries.  The loop runs `endN + 1 - cursor` times; the
fuel argument carries exactly that count so the recursion is
structural. -/
def buildDateRangeGo (endN : Nat) : Nat → Nat → List String → Except JsError (List String)
  | 0, _, acc => .ok acc
  | fuel + 1, cursor, acc =>
      if cursor ≤ endN then
        let acc' := acc ++ [renderDate cursor]
        if acc'.length > 120 then
          .error (err400 "Trip length is limited to 120 days")
        else buildDateRangeGo endN fuel (cursor + 1) acc'
      else .ok acc

/-- Source `buildDateRange`: reject inverted ranges, then walk the days
inclusively.  If either bound re-parses as an Invalid Date every `NaN`
comparison is false, so the source silently returns an empty list. -/
def buildDateRange (startDate endDate : String) : Except JsError (List String) :=
  match jsParseIsoDate startDate, jsParseIsoDate endDate with
  | some s, some e =>
      if s > e then .error (err400 "startDate must be before or equal to endDate")
      else buildDateRangeGo e (e + 1 - s) s []
  | _, _ => .ok []

/-! ## Store model

Each table is a list of rows; an insert appends.  The store's own
constraints (uniqueness, foreign keys) are not modelled: the claims under
study are about handler-level behaviour, and the handlers see constraint
violations only as thrown storage errors. -/

/-- Row of the `trips` table. -/
structure TripRow : Type where
  id : String
  title : String
  destination : String
  start_date : String
  end_date : String
  currency : String
  memo : Option String
  status : String
  created_at : String
  updated_at : String
deriving Repr, DecidableEq

/-- Row of the `days` table. -/
structure DayRow : Type where
  id : String
  trip_id : String
  day_no : Int
  date : String
  title : Option String
  note : Option String
  created_at : String
  updated_at : String
deriving Repr, DecidableEq

/-- Row of the `plans` table. -/
structure PlanRow : Type where
  id : String
  trip_id : String
  day_id : String
  start_min : Option Int
  end_min : Option Int
  place : String
  detail : Option String
  map_url : Option String
  food : Option String
  transport : Option String
  cost_estimate : Option Int
  sort_order : Int
  created_at : String
  updated_at : String
deriving Repr, DecidableEq

/-- Row of the `expenses` table. -/
structure ExpenseRow : Type where
  id : String
  trip_id : String
  day_id : Option String
  item : String
  amount : Int
  currency : String
  category : Option String
  spent_at : String
  note : Option String
  created_at : String
  updated_at : String
deriving Repr, DecidableEq

/-- Row of the `flights` table. -/
structure FlightRow : Type where
  id : String
  trip_id : String
  leg_type : String
  leg_order : Int
  from_code : String
  from_airport : Option String
  to_code : String
  to_airport : Option String
  depart_at : String
  arrive_at : String
  airline : String
  flight_no : String
  price : Option Int
  currency : String
  note : Option String
  created_at : String
  updated_at : String
deriving Repr, DecidableEq

/-- Row of the `hotels` table. -/
structure HotelRow : Type where
  id : String
  trip_id : String
  name : String
  city : String
  check_in_date : String
  check_out_date : String
  confirmation_no : Option String
  total_price : Option Int
  currency : String
  note : Option String
  created_at : String
  updated_at : String
deriving Repr, DecidableEq

/-- The relational store. -/
structure DB : Type where
  trips : List TripRow
  days : List DayRow
  plans : List PlanRow
  expenses : List ExpenseRow
  flights : List FlightRow
  hotels : List HotelRow
deriving Repr, DecidableEq

/-- The five trip-scoped resource kinds (`ResourceName` in the source). -/
inductive ResourceName : Type where
  | days | plans | expenses | flights | hotels
deriving Repr, DecidableEq

/-- Table name of a resource, for error messages. -/
def resourceTable : ResourceName → String
  | .days => "days" | .plans => "plans" | .expenses => "expenses"
  | .flights => "flights" | .hotels => "hotels"

/-- Request computation: explicit state passing over the store, with
thrown errors.  Errors carry the store state reached so far, so that
"no write happened before the throw" is a statement to prove rather than
a property baked into the monad. -/
def M (α : Type) : Type := DB → Except JsError α × DB

/-- Return for `M`. -/
def M.pure (a : α) : M α := fun db => (.ok a, db)

/-- Sequencing for `M`. -/
def M.bind (x : M α) (f : α → M β) : M β := fun db =>
  match x db with
  | (.ok a, db') => f a db'
  | (.error e, db') => (.error e, db')

instance : Monad M where
  pure := M.pure
  bind := M.bind

/-- Lift a pure `Except` computation (no store access). -/
def M.liftE (x : Except JsError α) : M α := fun db => (x, db)

/-- Throw inside `M`. -/
def M.throw (e : JsError) : M α := fun db => (.error e, db)

/-- Read the store. -/
def M.get : M DB := fun db => (.ok db, db)

/-- Replace the store. -/
def M.set (db : DB) : M Unit := fun _ => (.ok (), db)

/-- Source `mustTripExist`. -/
def mustTripExist (tripId : String) : M Unit := do
  let db ← M.get
  if db.trips.any (fun r => r.id = tripId) then M.pure ()
  else M.throw (.http ⟨404, "Trip not found"⟩)

/-- Source `getNextDayNo`: `COALESCE(MAX(day_no), 0) + 1` over the trip's
days. -/
def getNextDayNo (tripId : String) : M Int := do
  let db ← M.get
  match ((db.days.filter (fun r => r.trip_id = tripId)).map (fun r => r.day_no)).max? with
  | some v => M.pure (v + 1)
  | none => M.pure 1

/-- Source `ensureDayBelongsToTrip`. -/
def ensureDayBelongsToTrip (dayId tripId : String) : M Unit := do
  let db ← M.get
  if db.days.any (fun r => r.id = dayId ∧ r.trip_id = tripId) then M.pure ()
  else M.throw (err400 "dayId does not belong to trip")

/-- Item payload returned by `fetchById` (`{ ok: true, item: row }`). -/
inductive ItemRow : Type where
  | day : DayRow → ItemRow
  | plan : PlanRow → ItemRow
  | expense : ExpenseRow → ItemRow
  | flight : FlightRow → ItemRow
  | hotel : HotelRow → ItemRow
deriving Repr, DecidableEq

/-- Source `fetchById`: `SELECT * FROM table WHERE id = ?`, 404 when no
row matches, else the first matching row. -/
def fetchById (resource : ResourceName) (id : String) : M ItemRow := do
  let db ← M.get
  let notFound : M ItemRow :=
    M.throw (.http ⟨404, resourceTable resource ++ " item not found"⟩)
  match resource with
  | .days =>
      match db.days.filter (fun r => r.id = id) with
      | r :: _ => M.pure (.day r)
      | [] => notFound
  | .plans =>
      match db.plans.filter (fun r => r.id = id) with
      | r :: _ => M.pure (.plan r)
      | [] => notFound
  | .expenses =>
      match db.expenses.filter (fun r => r.id = id) with
      | r :: _ => M.pure (.expense r)
      | [] => notFound
  | .flights =>
      match db.flights.filter (fun r => r.id = id) with
      | r :: _ => M.pure (.flight r)
      | [] => notFound
  | .hotels =>
      match db.hotels.filter (fun r => r.id = id) with
      | r :: _ => M.pure (.hotel r)
      | [] => notFound

/-- Source `createTripCollectionItem`, one branch per resource kind.
`newId` stands for the fresh `makeId(prefix)` value and `now` for the
`nowIso()` timestamp; `parseMs` is the platform `Date.parse`. -/
def createTripCollectionItem (parseMs : String → Option Int) (tripId : String)
    (resource : ResourceName) (body : JsBody) (newId now : String) : M ItemRow := do
  mustTripExist tripId
  match resource with
  | .days => do
      let date ← M.liftE (do
        let s ← asRequiredString (valueOf body ["date"]) "date"
        asDateOnly s "date")
      let dayNo ←
        match valueOf body ["dayNo", "day_no"] with
        | none => getNextDayNo tripId
        | some .nullV => getNextDayNo tripId
        | some v => M.liftE (asRequiredInteger (some v) "dayNo")
      let title ← M.liftE (asOptionalString (valueOf body ["title"]) "title")
      let note ← M.liftE (asOptionalString (valueOf body ["note"]) "note")
      let db ← M.get
      M.set { db with days := db.days ++
        [⟨newId, tripId, dayNo, date, title, note, now, now⟩] }
      fetchById .days newId
  | .plans => do
      let dayId ← M.liftE (asRequiredString (valueOf body ["dayId", "day_id"]) "dayId")
      let place ← M.liftE (asRequiredString (valueOf body ["place"]) "place")
      ensureDayBelongsToTrip dayId tripId
      let startMin ← M.liftE (asOptionalInteger (valueOf body ["startMin", "start_min"]) "startMin")
      let endMin ← M.liftE (asOptionalInteger (valueOf body ["endMin", "end_min"]) "endMin")
      let detail ← M.liftE (asOptionalString (valueOf body ["detail"]) "detail")
      let mapUrl ← M.liftE (asOptionalString (valueOf body ["mapUrl", "map_url"]) "mapUrl")
      let food ← M.liftE (asOptionalString (valueOf body ["food"]) "food")
      let transport ← M.liftE (asOptionalString (valueOf body ["transport"]) "transport")
      let costEstimate ← M.liftE
        (asOptionalInteger (valueOf body ["costEstimate", "cost_estimate"]) "costEstimate")
      let sortOrder ← M.liftE
        (asOptionalInteger (valueOf body ["sortOrder", "sort_order"]) "sortOrder")
      let db ← M.get
      M.set { db with plans := db.plans ++
        [⟨newId, tripId, dayId, startMin, endMin, place, detail, mapUrl, food,
          transport, costEstimate, sortOrder.getD 0, now, now⟩] }
      fetchById .plans newId
  | .expenses => do
      let item ← M.liftE (asRequiredString (valueOf body ["item"]) "item")
      let amount ← M.liftE (asRequiredInteger (valueOf body ["amount"]) "amount")
      let spentAtRaw ← M.liftE (asOptionalString (valueOf body ["spentAt", "spent_at"]) "spentAt")
      let dayId ← M.liftE (asOptionalString (valueOf body ["dayId", "day_id"]) "dayId")
      match dayId with
      | some d => ensureDayBelongsToTrip d tripId
      | none => M.pure ()
      let currency ← M.liftE (asOptionalString (valueOf body ["currency"]) "currency")
      let category ← M.liftE (asOptionalString (valueOf body ["category"]) "category")
      let spentAt ←
        match spentAtRaw with
        | some raw => M.liftE (asIsoDateTime parseMs raw "spentAt")
        | none => M.pure now
      let note ← M.liftE (asOptionalString (valueOf body ["note"]) "note")
      let db ← M.get
      M.set { db with expenses := db.expenses ++
        [⟨newId, tripId, dayId, item, amount, currency.getD "JPY", category,
          spentAt, note, now, now⟩] }
      fetchById .expenses newId
  | .flights => do
      let legType ← M.liftE (asOptionalString (valueOf body ["legType", "leg_type"]) "legType")
      let legOrder ← M.liftE (asOptionalInteger (valueOf body ["legOrder", "leg_order"]) "legOrder")
      let fromCode ← M.liftE (asRequiredString (valueOf body ["fromCode", "from_code"]) "fromCode")
      let fromAirport ← M.liftE
        (asOptionalString (valueOf body ["fromAirport", "from_airport"]) "fromAirport")
      let toCode ← M.liftE (asRequiredString (valueOf body ["toCode", "to_code"]) "toCode")
      let toAirport ← M.liftE
        (asOptionalString (valueOf body ["toAirport", "to_airport"]) "toAirport")
      let departAt ← M.liftE (do
        let s ← asRequiredString (valueOf body ["departAt", "depart_at"]) "departAt"
        asIsoDateTime parseMs s "departAt")
      let arriveAt ← M.liftE (do
        let s ← asRequiredString (valueOf body ["arriveAt", "arrive_at"]) "arriveAt"
        asIsoDateTime parseMs s "arriveAt")
      let airline ← M.liftE (asRequiredString (valueOf body ["airline"]) "airline")
      let flightNo ← M.liftE (asRequiredString (valueOf body ["flightNo", "flight_no"]) "flightNo")
      let price ← M.liftE (asOptionalInteger (valueOf body ["price"]) "price")
      let currency ← M.liftE (asOptionalString (valueOf body ["currency"]) "currency")
      let note ← M.liftE (asOptionalString (valueOf body ["note"]) "note")
      let db ← M.get
      M.set { db with flights := db.flights ++
        [⟨newId, tripId, legType.getD "multi", legOrder.getD 1, fromCode, fromAirport,
          toCode, toAirport, departAt, arriveAt, airline, flightNo, price,
          currency.getD "KRW", note, now, now⟩] }
      fetchById .flights newId
  | .hotels => do
      let name ← M.liftE (asRequiredString (valueOf body ["name"]) "name")
      let city ← M.liftE (asRequiredString (valueOf body ["city"]) "city")
      let checkInDate ← M.liftE (do
        let s ← asRequiredString (valueOf body ["checkInDate", "check_in_date"]) "checkInDate"
        asDateOnly s "checkInDate")
      let checkOutDate ← M.liftE (do
        let s ← asRequiredString (valueOf body ["checkOutDate", "check_out_date"]) "checkOutDate"
        asDateOnly s "checkOutDate")
      let confirmationNo ← M.liftE
        (asOptionalString (valueOf body ["confirmationNo", "confirmation_no"]) "confirmationNo")
      let totalPrice ← M.liftE
        (asOptionalInteger (valueOf body ["totalPrice", "total_price"]) "totalPrice")
      let currency ← M.liftE (asOptionalString (valueOf body ["currency"]) "currency")
      let note ← M.liftE (asOptionalString (valueOf body ["note"]) "note")
      let db ← M.get
      M.set { db with hotels := db.hotels ++
        [⟨newId, tripId, name, city, checkInDate, checkOutDate, confirmationNo,
          totalPrice, currency.getD "JPY", note, now, now⟩] }
      fetchById .hotels newId

/-! ## Trip creation (the aggregate batch) -/

/-- One parameterized INSERT of the trip-creation batch. -/
inductive Statement : Type where
  | insTrip : TripRow → Statement
  | insDay : DayRow → Statement
  | insFlight : FlightRow → Statement
  | insHotel : HotelRow → Statement
deriving Repr, DecidableEq

/-- Effect of one batch statement on the store. -/
def applyStatement (db : DB) : Statement → DB
  | .insTrip r => { db with trips := db.trips ++ [r] }
  | .insDay r => { db with days := db.days ++ [r] }
  | .insFlight r => { db with flights := db.flights ++ [r] }
  | .insHotel r => { db with hotels := db.hotels ++ [r] }

/-- Atomic application of a batch (`client.batch(statements, "write")`). -/
def applyBatch (db : DB) (stmts : List Statement) : DB :=
  stmts.foldl applyStatement db

/-- Allowed trip status values (`STATUS_VALUES`). -/
def statusValues : List String := ["draft", "active", "done"]

/-- Trip-level fields of a creation request after coercion. -/
structure TripFields : Type where
  title : String
  destination : String
  startDate : String
  endDate : String
  currency : String
  memo : Option String
  status : String
  flightsInput : List JsBody
  hotelsInput : List JsBody

/-- Trip-level validation of `handleTripCreate`, in source order (all of it
runs before any statement is built or executed). -/
def validateTripCreate (body : JsBody) : Except JsError TripFields := do
  let title ← asRequiredString (valueOf body ["title"]) "title"
  let destination ← asRequiredString (valueOf body ["destination"]) "destination"
  let startDate ← do
    let s ← asRequiredString (valueOf body ["startDate", "start_date"]) "startDate"
    asDateOnly s "startDate"
  let endDate ← do
    let s ← asRequiredString (valueOf body ["endDate", "end_date"]) "endDate"
    asDateOnly s "endDate"
  let currency ← (asOptionalString (valueOf body ["currency"]) "currency").map (·.getD "JPY")
  let memo ← asOptionalString (valueOf body ["memo"]) "memo"
  let rawStatus ← (asOptionalString (valueOf body ["status"]) "status").map (·.getD "draft")
  let flightsInput ← asObjectArray (valueOf body ["flights"]) "flights"
  let hotelsInput ← asObjectArray (valueOf body ["hotels"]) "hotels"
  if statusValues.contains rawStatus then
    .ok ⟨title, destination, startDate, endDate, currency, memo, rawStatus,
      flightsInput, hotelsInput⟩
  else .error (err400 "status must be one of draft, active, done")

/-- Day INSERT statements of the batch: `day_no` is one plus the 0-based
position of the date in the generated range. -/
def dayStatements (tripId now : String) (dayIdGen : Nat → String) :
    Nat → List String → List Statement
  | _, [] => []
  | i, date :: rest =>
      .insDay ⟨dayIdGen i, tripId, (i : Int) + 1, date, none, none, now, now⟩ ::
        dayStatements tripId now dayIdGen (i + 1) rest

/-- Nested-flight validation and INSERT construction of `handleTripCreate`
(`flightsInput.forEach`), in source order; `currency` is the trip-level
currency used as the nested default. -/
def buildFlightRows (parseMs : String → Option Int) (currency tripId : String)
    (flightIdGen : Nat → String) (now : String) :
    Nat → List JsBody → Except JsError (List FlightRow)
  | _, [] => .ok []
  | index, flight :: rest => do
      let lab := fun (f : String) => "flights[" ++ toString index ++ "]." ++ f
      let legType ← (asOptionalString (valueOf flight ["legType", "leg_type"])
        (lab "legType")).map (·.getD "multi")
      let legOrder ← (asOptionalInteger (valueOf flight ["legOrder", "leg_order"])
        (lab "legOrder")).map (·.getD ((index : Int) + 1))
      let fromCode ← asRequiredString (valueOf flight ["fromCode", "from_code"]) (lab "fromCode")
      let fromAirport ← asOptionalString (valueOf flight ["fromAirport", "from_airport"])
        (lab "fromAirport")
      let toCode ← asRequiredString (valueOf flight ["toCode", "to_code"]) (lab "toCode")
      let toAirport ← asOptionalString (valueOf flight ["toAirport", "to_airport"])
        (lab "toAirport")
      let departAt ← do
        let s ← asRequiredString (valueOf flight ["departAt", "depart_at"]) (lab "departAt")
        asIsoDateTime parseMs s (lab "departAt")
      let arriveAt ← do
        let s ← asRequiredString (valueOf flight ["arriveAt", "arrive_at"]) (lab "arriveAt")
        asIsoDateTime parseMs s (lab "arriveAt")
      let airline ← asRequiredString (valueOf flight ["airline"]) (lab "airline")
      let flightNo ← asRequiredString (valueOf flight ["flightNo", "flight_no"]) (lab "flightNo")
      let price ← asOptionalInteger (valueOf flight ["price"]) (lab "price")
      let flightCurrency ← (asOptionalString (valueOf flight ["currency"])
        (lab "currency")).map (·.getD currency)
      let note ← asOptionalString (valueOf flight ["note"]) (lab "note")
      let tl ← buildFlightRows parseMs currency tripId flightIdGen now (index + 1) rest
      .ok (⟨flightIdGen index, tripId, legType, legOrder, fromCode, fromAirport,
        toCode, toAirport, departAt, arriveAt, airline, flightNo, price, flightCurrency,
        note, now, now⟩ :: tl)

/-- Nested-flight INSERT statements: one per validated row. -/
def buildFlightStmts (parseMs : String → Option Int) (currency tripId : String)
    (flightIdGen : Nat → String) (now : String) (index : Nat) (inputs : List JsBody) :
    Except JsError (List Statement) :=
  (buildFlightRows parseMs currency tripId flightIdGen now index inputs).map
    (fun rows => rows.map Statement.insFlight)

/-- Nested-hotel validation and INSERT construction of `handleTripCreate`
(`hotelsInput.forEach`), in source order. -/
def buildHotelRows (currency tripId : String) (hotelIdGen : Nat → String) (now : String) :
    Nat → List JsBody → Except JsError (List HotelRow)
  | _, [] => .ok []
  | index, hotel :: rest => do
      let lab := fun (f : String) => "hotels[" ++ toString index ++ "]." ++ f
      let name ← asRequiredString (valueOf hotel ["name"]) (lab "name")
      let city ← asRequiredString (valueOf hotel ["city"]) (lab "city")
      let checkInDate ← do
        let s ← asRequiredString (valueOf hotel ["checkInDate", "check_in_date"])
          (lab "checkInDate")
        asDateOnly s (lab "checkInDate")
      let checkOutDate ← do
        let s ← asRequiredString (valueOf hotel ["checkOutDate", "check_out_date"])
          (lab "checkOutDate")
        asDateOnly s (lab "checkOutDate")
      let confirmationNo ← asOptionalString
        (valueOf hotel ["confirmationNo", "confirmation_no"]) (lab "confirmationNo")
      let totalPrice ← asOptionalInteger (valueOf hotel ["totalPrice", "total_price"])
        (lab "totalPrice")
      let hotelCurrency ← (asOptionalString (valueOf hotel ["currency"])
        (lab "currency")).map (·.getD currency)
      let note ← asOptionalString (valueOf hotel ["note"]) (lab "note")
      let tl ← buildHotelRows currency tripId hotelIdGen now (index + 1) rest
      .ok (⟨hotelIdGen index, tripId, name, city, checkInDate, checkOutDate,
        confirmationNo, totalPrice, hotelCurrency, note, now, now⟩ :: tl)

/-- Nested-hotel INSERT statements: one per validated row. -/
def buildHotelStmts (currency tripId : String) (hotelIdGen : Nat → String) (now : String)
    (index : Nat) (inputs : List JsBody) : Except JsError (List Statement) :=
  (buildHotelRows currency tripId hotelIdGen now index inputs).map
    (fun rows => rows.map Statement.insHotel)

/-- Insertion into a list sorted by `le`. -/
def insertLe (le : α → α → Bool) (x : α) : List α → List α
  | [] => [x]
  | y :: rest => if le x y then x :: y :: rest else y :: insertLe le x rest

/-- Insertion sort, modelling a SQL `ORDER BY` (ties resolved
deterministically where SQL leaves them open). -/
def sortLe (le : α → α → Bool) (l : List α) : List α :=
  l.foldr (insertLe le) []

/-- The `ORDER BY day_no ASC` re-read ordering. -/
def dayLeByNo (a b : DayRow) : Bool := a.day_no ≤ b.day_no

/-- The `ORDER BY leg_order ASC, depart_at ASC, id ASC` ordering. -/
def flightLe (a b : FlightRow) : Bool :=
  a.leg_order < b.leg_order ||
    (a.leg_order = b.leg_order &&
      (a.depart_at < b.depart_at ||
        (a.depart_at = b.depart_at && (a.id < b.id || a.id = b.id))))

/-- The `ORDER BY check_in_date ASC, id ASC` ordering. -/
def hotelLe (a b : HotelRow) : Bool :=
  a.check_in_date < b.check_in_date ||
    (a.check_in_date = b.check_in_date && (a.id < b.id || a.id = b.id))

/-- Aggregate payload returned by `handleTripCreate`. -/
structure TripCreatePayload : Type where
  trip : Option TripRow
  days : List DayRow
  flights : List FlightRow
  hotels : List HotelRow
deriving Repr, DecidableEq

/-- Source `handleTripCreate`: validate everything, build the batch, apply
it atomically, then re-read the aggregate.  `tripId` and the three id
generators stand for the `makeId` calls; `now` for the single
`nowIso()` used as created and updated time of every row. -/
def handleTripCreate (parseMs : String → Option Int) (body : JsBody) (tripId : String)
    (dayIdGen flightIdGen hotelIdGen : Nat → String) (now : String) :
    M TripCreatePayload := do
  let f ← M.liftE (validateTripCreate body)
  let dates ← M.liftE (buildDateRange f.startDate f.endDate)
  let flightStmts ← M.liftE
    (buildFlightStmts parseMs f.currency tripId flightIdGen now 0 f.flightsInput)
  let hotelStmts ← M.liftE (buildHotelStmts f.currency tripId hotelIdGen now 0 f.hotelsInput)
  let tripStmt : Statement := .insTrip ⟨tripId, f.title, f.destination, f.startDate,
    f.endDate, f.currency, f.memo, f.status, now, now⟩
  let db ← M.get
  M.set (applyBatch db (tripStmt :: dayStatements tripId now dayIdGen 0 dates
    ++ flightStmts ++ hotelStmts))
  let db' ← M.get
  M.pure
    { trip := (db'.trips.filter (fun r => r.id = tripId)).head?
      days := sortLe dayLeByNo (db'.days.filter (fun r => r.trip_id = tripId))
      flights := sortLe flightLe (db'.flights.filter (fun r => r.trip_id = tripId))
      hotels := sortLe hotelLe (db'.hotels.filter (fun r => r.trip_id = tripId)) }

/-! ## Patch handlers -/

/-- Application of a dynamic `SET` list, in push order. -/
def applySets (us : List (α → α)) (r : α) : α :=
  us.foldl (fun acc u => u acc) r

/-- Dynamic `SET` list of `handleTripPatch`, in source order. -/
def tripPatchSets (body : JsBody) : Except JsError (List (TripRow → TripRow)) := do
  let a1 ← if hasAnyKey body ["title"] then
      (asRequiredString (valueOf body ["title"]) "title").map
        (fun v => [fun r => { r with title := v }])
    else .ok []
  let a2 ← if hasAnyKey body ["destination"] then
      (asRequiredString (valueOf body ["destination"]) "destination").map
        (fun v => [fun r => { r with destination := v }])
    else .ok []
  let a3 ← if hasAnyKey body ["startDate", "start_date"] then do
      let s ← asRequiredString (valueOf body ["startDate", "start_date"]) "startDate"
      (asDateOnly s "startDate").map (fun v => [fun r => { r with start_date := v }])
    else .ok []
  let a4 ← if hasAnyKey body ["endDate", "end_date"] then do
      let s ← asRequiredString (valueOf body ["endDate", "end_date"]) "endDate"
      (asDateOnly s "endDate").map (fun v => [fun r => { r with end_date := v }])
    else .ok []
  let a5 ← if hasAnyKey body ["currency"] then
      (asRequiredString (valueOf body ["currency"]) "currency").map
        (fun v => [fun r => { r with currency := v }])
    else .ok []
  let a6 ← if hasAnyKey body ["memo"] then
      (asOptionalString (valueOf body ["memo"]) "memo").map
        (fun v => [fun r => { r with memo := v }])
    else .ok []
  let a7 ← if hasAnyKey body ["status"] then do
      let status ← asRequiredString (valueOf body ["status"]) "status"
      if statusValues.contains status then
        .ok [fun r => { r with status := status }]
      else .error (err400 "status must be one of draft, active, done")
    else .ok []
  .ok (a1 ++ a2 ++ a3 ++ a4 ++ a5 ++ a6 ++ a7)

/-- Source `handleTripPatch`: existence check, dynamic SET construction,
empty-set rejection, update with refreshed `updated_at`, re-read. -/
def handleTripPatch (tripId : String) (body : JsBody) (now : String) : M (Option TripRow) := do
  mustTripExist tripId
  let sets ← M.liftE (tripPatchSets body)
  if sets.isEmpty then M.throw (err400 "No fields to update")
  else do
    let db ← M.get
    M.set { db with trips := db.trips.map (fun r =>
      if r.id = tripId then { applySets sets r with updated_at := now } else r) }
    let db' ← M.get
    M.pure ((db'.trips.filter (fun r => r.id = tripId)).head?)

/-- Dynamic `SET` list of `handleResourcePatch` for `days`. -/
def daySets (body : JsBody) : Except JsError (List (DayRow → DayRow)) := do
  let a1 ← if hasAnyKey body ["dayNo", "day_no"] then
      (asRequiredInteger (valueOf body ["dayNo", "day_no"]) "dayNo").map
        (fun v => [fun r => { r with day_no := v }])
    else .ok []
  let a2 ← if hasAnyKey body ["date"] then do
      let s ← asRequiredString (valueOf body ["date"]) "date"
      (asDateOnly s "date").map (fun v => [fun r => { r with date := v }])
    else .ok []
  let a3 ← if hasAnyKey body ["title"] then
      (asOptionalString (valueOf body ["title"]) "title").map
        (fun v => [fun r => { r with title := v }])
    else .ok []
  let a4 ← if hasAnyKey body ["note"] then
      (asOptionalString (valueOf body ["note"]) "note").map
        (fun v => [fun r => { r with note := v }])
    else .ok []
  .ok (a1 ++ a2 ++ a3 ++ a4)

/-- Dynamic `SET` list of `handleResourcePatch` for `plans`.  Note the
`day_id` assignment is pushed with no ownership or existence check. -/
def planSets (body : JsBody) : Except JsError (List (PlanRow → PlanRow)) :=
  (if hasAnyKey body ["dayId", "day_id"] then
      (asRequiredString (valueOf body ["dayId", "day_id"]) "dayId").map
        (fun v => [fun r => { r with day_id := v }])
    else .ok []) >>= fun (a1 : List (PlanRow → PlanRow)) =>
  (if hasAnyKey body ["startMin", "start_min"] then
      (asOptionalInteger (valueOf body ["startMin", "start_min"]) "startMin").map
        (fun v => [fun r => { r with start_min := v }])
    else .ok []) >>= fun (a2 : List (PlanRow → PlanRow)) =>
  (if hasAnyKey body ["endMin", "end_min"] then
      (asOptionalInteger (valueOf body ["endMin", "end_min"]) "endMin").map
        (fun v => [fun r => { r with end_min := v }])
    else .ok []) >>= fun (a3 : List (PlanRow → PlanRow)) =>
  (if hasAnyKey body ["place"] then
      (asRequiredString (valueOf body ["place"]) "place").map
        (fun v => [fun r => { r with place := v }])
    else .ok []) >>= fun (a4 : List (PlanRow → PlanRow)) =>
  (if hasAnyKey body ["detail"] then
      (asOptionalString (valueOf body ["detail"]) "detail").map
        (fun v => [fun r => { r with detail := v }])
    else .ok []) >>= fun (a5 : List (PlanRow → PlanRow)) =>
  (if hasAnyKey body ["mapUrl", "map_url"] then
      (asOptionalString (valueOf body ["mapUrl", "map_url"]) "mapUrl").map
        (fun v => [fun r => { r with map_url := v }])
    else .ok []) >>= fun (a6 : List (PlanRow → PlanRow)) =>
  (if hasAnyKey body ["food"] then
      (asOptionalString (valueOf body ["food"]) "food").map
        (fun v => [fun r => { r with food := v }])
    else .ok []) >>= fun (a7 : List (PlanRow → PlanRow)) =>
  (if hasAnyKey body ["transport"] then
      (asOptionalString (valueOf body ["transport"]) "transport").map
        (fun v => [fun r => { r with transport := v }])
    else .ok []) >>= fun (a8 : List (PlanRow → PlanRow)) =>
  (if hasAnyKey body ["costEstimate", "cost_estimate"] then
      (asOptionalInteger (valueOf body ["costEstimate", "cost_estimate"]) "costEstimate").map
        (fun v => [fun r => { r with cost_estimate := v }])
    else .ok []) >>= fun (a9 : List (PlanRow → PlanRow)) =>
  (if hasAnyKey body ["sortOrder", "sort_order"] then
      (asRequiredInteger (valueOf body ["sortOrder", "sort_order"]) "sortOrder").map
        (fun v => [fun r => { r with sort_order := v }])
    else .ok []) >>= fun (a10 : List (PlanRow → PlanRow)) =>
  .ok (a1 ++ a2 ++ a3 ++ a4 ++ a5 ++ a6 ++ a7 ++ a8 ++ a9 ++ a10)
/-- Dynamic `SET` list of `handleResourcePatch` for `expenses`.  As for
plans, a supplied `day_id` is written with no ownership check. -/
def expenseSets (parseMs : String → Option Int) (body : JsBody) :
    Except JsError (List (ExpenseRow → ExpenseRow)) :=
  (if hasAnyKey body ["dayId", "day_id"] then
      (asOptionalString (valueOf body ["dayId", "day_id"]) "dayId").map
        (fun v => [fun r => { r with day_id := v }])
    else .ok []) >>= fun (a1 : List (ExpenseRow → ExpenseRow)) =>
  (if hasAnyKey body ["item"] then
      (asRequiredString (valueOf body ["item"]) "item").map
        (fun v => [fun r => { r with item := v }])
    else .ok []) >>= fun (a2 : List (ExpenseRow → ExpenseRow)) =>
  (if hasAnyKey body ["amount"] then
      (asRequiredInteger (valueOf body ["amount"]) "amount").map
        (fun v => [fun r => { r with amount := v }])
    else .ok []) >>= fun (a3 : List (ExpenseRow → ExpenseRow)) =>
  (if hasAnyKey body ["currency"] then
      (asRequiredString (valueOf body ["currency"]) "currency").map
        (fun v => [fun r => { r with currency := v }])
    else .ok []) >>= fun (a4 : List (ExpenseRow → ExpenseRow)) =>
  (if hasAnyKey body ["category"] then
      (asOptionalString (valueOf body ["category"]) "category").map
        (fun v => [fun r => { r with category := v }])
    else .ok []) >>= fun (a5 : List (ExpenseRow → ExpenseRow)) =>
  (if hasAnyKey body ["spentAt", "spent_at"] then
      asRequiredString (valueOf body ["spentAt", "spent_at"]) "spentAt" >>= fun raw =>
      (asIsoDateTime parseMs raw "spentAt").map
        (fun v => [fun r => { r with spent_at := v }])
    else .ok []) >>= fun (a6 : List (ExpenseRow → ExpenseRow)) =>
  (if hasAnyKey body ["note"] then
      (asOptionalString (valueOf body ["note"]) "note").map
        (fun v => [fun r => { r with note := v }])
    else .ok []) >>= fun (a7 : List (ExpenseRow → ExpenseRow)) =>
  .ok (a1 ++ a2 ++ a3 ++ a4 ++ a5 ++ a6 ++ a7)

/-- Dynamic `SET` list of `handleResourcePatch` for `flights`. -/
def flightSets (parseMs : String → Option Int) (body : JsBody) :
    Except JsError (List (FlightRow → FlightRow)) := do
  let a1 ← if hasAnyKey body ["legType", "leg_type"] then
      (asRequiredString (valueOf body ["legType", "leg_type"]) "legType").map
        (fun v => [fun r => { r with leg_type := v }])
    else .ok []
  let a2 ← if hasAnyKey body ["legOrder", "leg_order"] then
      (asRequiredInteger (valueOf body ["legOrder", "leg_order"]) "legOrder").map
        (fun v => [fun r => { r with leg_order := v }])
    else .ok []
  let a3 ← if hasAnyKey body ["fromCode", "from_code"] then
      (asRequiredString (valueOf body ["fromCode", "from_code"]) "fromCode").map
        (fun v => [fun r => { r with from_code := v }])
    else .ok []
  let a4 ← if hasAnyKey body ["fromAirport", "from_airport"] then
      (asOptionalString (valueOf body ["fromAirport", "from_airport"]) "fromAirport").map
        (fun v => [fun r => { r with from_airport := v }])
    else .ok []
  let a5 ← if hasAnyKey body ["toCode", "to_code"] then
      (asRequiredString (valueOf body ["toCode", "to_code"]) "toCode").map
        (fun v => [fun r => { r with to_code := v }])
    else .ok []
  let a6 ← if hasAnyKey body ["toAirport", "to_airport"] then
      (asOptionalString (valueOf body ["toAirport", "to_airport"]) "toAirport").map
        (fun v => [fun r => { r with to_airport := v }])
    else .ok []
  let a7 ← if hasAnyKey body ["departAt", "depart_at"] then do
      let raw ← asRequiredString (valueOf body ["departAt", "depart_at"]) "departAt"
      (asIsoDateTime parseMs raw "departAt").map
        (fun v => [fun r => { r with depart_at := v }])
    else .ok []
  let a8 ← if hasAnyKey body ["arriveAt", "arrive_at"] then do
      let raw ← asRequiredString (valueOf body ["arriveAt", "arrive_at"]) "arriveAt"
      (asIsoDateTime parseMs raw "arriveAt").map
        (fun v => [fun r => { r with arrive_at := v }])
    else .ok []
  let a9 ← if hasAnyKey body ["airline"] then
      (asRequiredString (valueOf body ["airline"]) "airline").map
        (fun v => [fun r => { r with airline := v }])
    else .ok []
  let a10 ← if hasAnyKey body ["flightNo", "flight_no"] then
      (asRequiredString (valueOf body ["flightNo", "flight_no"]) "flightNo").map
        (fun v => [fun r => { r with flight_no := v }])
    else .ok []
  let a11 ← if hasAnyKey body ["price"] then
      (asOptionalInteger (valueOf body ["price"]) "price").map
        (fun v => [fun r => { r with price := v }])
    else .ok []
  let a12 ← if hasAnyKey body ["currency"] then
      (asOptionalString (valueOf body ["currency"]) "currency").map
        (fun v => [fun r => { r with currency := v.getD r.currency }])
    else .ok []
  let a13 ← if hasAnyKey body ["note"] then
      (asOptionalString (valueOf body ["note"]) "note").map
        (fun v => [fun r => { r with note := v }])
    else .ok []
  .ok (a1 ++ a2 ++ a3 ++ a4 ++ a5 ++ a6 ++ a7 ++ a8 ++ a9 ++ a10 ++ a11 ++ a12 ++ a13)

/-- Dynamic `SET` list of `handleResourcePatch` for `hotels`. -/
def hotelSets (body : JsBody) : Except JsError (List (HotelRow → HotelRow)) := do
  let a1 ← if hasAnyKey body ["name"] then
      (asRequiredString (valueOf body ["name"]) "name").map
        (fun v => [fun r => { r with name := v }])
    else .ok []
  let a2 ← if hasAnyKey body ["city"] then
      (asRequiredString (valueOf body ["city"]) "city").map
        (fun v => [fun r => { r with city := v }])
    else .ok []
  let a3 ← if hasAnyKey body ["checkInDate", "check_in_date"] then do
      let raw ← asRequiredString (valueOf body ["checkInDate", "check_in_date"]) "checkInDate"
      (asDateOnly raw "checkInDate").map (fun v => [fun r => { r with check_in_date := v }])
    else .ok []
  let a4 ← if hasAnyKey body ["checkOutDate", "check_out_date"] then do
      let raw ← asRequiredString (valueOf body ["checkOutDate", "check_out_date"]) "checkOutDate"
      (asDateOnly raw "checkOutDate").map (fun v => [fun r => { r with check_out_date := v }])
    else .ok []
  let a5 ← if hasAnyKey body ["confirmationNo", "confirmation_no"] then
      (asOptionalString (valueOf body ["confirmationNo", "confirmation_no"]) "confirmationNo").map
        (fun v => [fun r => { r with confirmation_no := v }])
    else .ok []
  let a6 ← if hasAnyKey body ["totalPrice", "total_price"] then
      (asOptionalInteger (valueOf body ["totalPrice", "total_price"]) "totalPrice").map
        (fun v => [fun r => { r with total_price := v }])
    else .ok []
  let a7 ← if hasAnyKey body ["currency"] then
      (asOptionalString (valueOf body ["currency"]) "currency").map
        (fun v => [fun r => { r with currency := v.getD r.currency }])
    else .ok []
  let a8 ← if hasAnyKey body ["note"] then
      (asOptionalString (valueOf body ["note"]) "note").map
        (fun v => [fun r => { r with note := v }])
    else .ok []
  .ok (a1 ++ a2 ++ a3 ++ a4 ++ a5 ++ a6 ++ a7 ++ a8)

/-- UPDATE-then-check-then-re-read tail shared by the patch branches:
the UPDATE by id executes first (refreshing `updated_at` on every
matching row), then a zero affected-row count raises 404, then the row
is re-read. -/
def patchApply (resource : ResourceName) (affected : Nat) (update : DB → DB)
    (id : String) : M ItemRow := do
  let db ← M.get
  M.set (update db)
  if affected = 0 then
    M.throw (.http ⟨404, resourceTable resource ++ " item not found"⟩)
  else fetchById resource id

/-- Source `handleResourcePatch`: per-resource dynamic SET construction,
empty-set rejection, UPDATE by id with refreshed `updated_at`, 404 when
the affected-row count is zero, then re-read by id. -/
def handleResourcePatch (parseMs : String → Option Int) (resource : ResourceName)
    (id : String) (body : JsBody) (now : String) : M ItemRow :=
  match resource with
  | .days => do
      let sets ← M.liftE (daySets body)
      if sets.isEmpty then M.throw (err400 "No fields to update")
      else do
        let db ← M.get
        patchApply .days ((db.days.filter (fun r => r.id = id)).length)
          (fun db => { db with days := db.days.map (fun r =>
            if r.id = id then { applySets sets r with updated_at := now } else r) }) id
  | .plans => do
      let sets ← M.liftE (planSets body)
      if sets.isEmpty then M.throw (err400 "No fields to update")
      else do
        let db ← M.get
        patchApply .plans ((db.plans.filter (fun r => r.id = id)).length)
          (fun db => { db with plans := db.plans.map (fun r =>
            if r.id = id then { applySets sets r with updated_at := now } else r) }) id
  | .expenses => do
      let sets ← M.liftE (expenseSets parseMs body)
      if sets.isEmpty then M.throw (err400 "No fields to update")
      else do
        let db ← M.get
        patchApply .expenses ((db.expenses.filter (fun r => r.id = id)).length)
          (fun db => { db with expenses := db.expenses.map (fun r =>
            if r.id = id then { applySets sets r with updated_at := now } else r) }) id
  | .flights => do
      let sets ← M.liftE (flightSets parseMs body)
      if sets.isEmpty then M.throw (err400 "No fields to update")
      else do
        let db ← M.get
        patchApply .flights ((db.flights.filter (fun r => r.id = id)).length)
          (fun db => { db with flights := db.flights.map (fun r =>
            if r.id = id then { applySets sets r with updated_at := now } else r) }) id
  | .hotels => do
      let sets ← M.liftE (hotelSets body)
      if sets.isEmpty then M.throw (err400 "No fields to update")
      else do
        let db ← M.get
        patchApply .hotels ((db.hotels.filter (fun r => r.id = id)).length)
          (fun db => { db with hotels := db.hotels.map (fun r =>
            if r.id = id then { applySets sets r with updated_at := now } else r) }) id

/-! ## External flight lookup -/

/-- Shape of one provider row (`AviationstackFlightItem`).  Fields typed
`string | null` in the source interface are modelled as optional
strings (absent and null collapse, exactly as the `?? null` / `?? ''`
accesses treat them); the scheduled/airport/name fields are kept as raw
JSON values because the handler runs them through `asOptionalString`,
which rejects non-strings with a 400. -/
structure AvFlightItem : Type where
  flight_date : Option String
  dep_iata : Option JsVal
  dep_airport : Option JsVal
  dep_scheduled : Option JsVal
  arr_iata : Option JsVal
  arr_airport : Option JsVal
  arr_scheduled : Option JsVal
  airline_name : Option JsVal
  airline_iata : Option JsVal
  flight_iata : Option String
  flight_number : Option JsVal

/-- Outcome of the provider fetch: the HTTP call itself failing
(non-2xx status), or a JSON payload whose `data` member may or may not
be an array. -/
inductive ProviderResponse : Type where
  | notOk : Nat → ProviderResponse
  | okPayload : Option (List AvFlightItem) → ProviderResponse

/-- Source `normalizeFlightIata`. -/
def normalizeFlightIata (value : String) : String := jsToUpper (jsTrim value)

/-- The `^[A-Z0-9]{3,8}$` test. -/
def flightIataOk (s : String) : Bool :=
  3 ≤ s.length && s.length ≤ 8 &&
    s.data.all (fun c => ('A' ≤ c && c ≤ 'Z') || (charDigit c).isSome)

/-- Reshaped item returned by the lookup endpoint. -/
structure FlightLookupItem : Type where
  flightIata : String
  date : JsVal
  fromCode : Option String
  toCode : Option String
  departAt : Option String
  arriveAt : Option String
  airline : Option String
  flightNo : String
  fromAirport : JsVal
  toAirport : JsVal

/-- Source `handleFlightLookup` as a function of the query parameters, the
configured credential and the provider response: normalizes and checks
the flight number (the date parameter is validated first and can itself
fail), then 501 without a credential, 502 on a failed provider call, 404
on an empty row set, and otherwise reshapes the best-matching row. -/
def handleFlightLookup (rawFlightIata rawDate : String) (accessKey : Option String)
    (provider : ProviderResponse) : Except JsError FlightLookupItem := do
  let flightIata := normalizeFlightIata rawFlightIata
  let date ← if rawDate ≠ "" then asDateOnly rawDate "date" else .ok ""
  if ¬ flightIataOk flightIata then
    .error (err400 "flightIata query is required (e.g. KE123)")
  else match accessKey with
  | none => .error (.http ⟨501, "AVIATIONSTACK_ACCESS_KEY is not configured"⟩)
  | some _ =>
    match provider with
    | .notOk status => .error (.http ⟨502, "Flight provider error: " ++ toString status⟩)
    | .okPayload data =>
      let rows := data.getD []
      match rows with
      | [] => .error (.http ⟨404, "No matching flight found"⟩)
      | r0 :: _ => do
        let matched := (rows.find? (fun it =>
          normalizeFlightIata (it.flight_iata.getD "") = flightIata)).getD r0
        let departAt ← asOptionalString matched.dep_scheduled "departure.scheduled"
        let arriveAt ← asOptionalString matched.arr_scheduled "arrival.scheduled"
        let fromCode ← asOptionalString matched.dep_iata "departure.iata"
        let toCode ← asOptionalString matched.arr_iata "arrival.iata"
        let airlineName ← asOptionalString matched.airline_name "airline.name"
        let airlineCode ← asOptionalString matched.airline_iata "airline.iata"
        let flightNumber ← asOptionalString matched.flight_number "flight.number"
        .ok { flightIata := flightIata
              date := if date ≠ "" then .str date
                else match matched.flight_date with
                  | some fd => if fd ≠ "" then .str fd else .nullV
                  | none => .nullV
              fromCode := fromCode
              toCode := toCode
              departAt := departAt
              arriveAt := arriveAt
              airline := airlineName.or airlineCode
              flightNo := match flightNumber with
                | some fn => jsTrim ((airlineCode.getD "") ++ fn)
                | none => flightIata
              fromAirport := matched.dep_airport.getD .nullV
              toAirport := matched.arr_airport.getD .nullV }

/-! ## Calendar correctness -/

/-- Propositional form of the leap-year test. -/
theorem isLeap_iff (y : Nat) : isLeap y = true ↔ ((y % 4 = 0 ∧ y % 100 ≠ 0) ∨ y % 400 = 0) := by
  simp [isLeap]

/-- Year length, without the leap flag. -/
theorem daysInYear_eq (y : Nat) :
    daysInYear y = if (y % 4 = 0 ∧ y % 100 ≠ 0) ∨ y % 400 = 0 then 366 else 365 := by
  unfold daysInYear daysInYearB
  by_cases h : (y % 4 = 0 ∧ y % 100 ≠ 0) ∨ y % 400 = 0
  · rw [if_pos h, if_pos ((isLeap_iff y).mpr h)]
  · rw [if_neg h, if_neg (fun hh => h ((isLeap_iff y).mp hh))]

/-- Stepping one year forward adds that year's length. -/
theorem dayOfYearStart_succ (y : Nat) :
    dayOfYearStart (y + 1) = dayOfYearStart y + daysInYear y := by
  rw [daysInYear_eq]
  unfold dayOfYearStart leapsBefore
  split
  case isTrue hc => omega
  case isFalse hc => omega

/-- Year starts are strictly increasing. -/
theorem dayOfYearStart_strictMono : StrictMono dayOfYearStart := by
  apply strictMono_nat_of_lt_succ
  intro y
  rw [dayOfYearStart_succ, daysInYear_eq]
  split <;> omega

/-- A 400-year era spans exactly 146097 days. -/
theorem dayOfYearStart_era (k y : Nat) :
    dayOfYearStart (400 * k + y) = 146097 * k + dayOfYearStart y := by
  simp only [dayOfYearStart, leapsBefore]
  omega

/-- The bounded scan lands in the year containing `n`, provided the scan
window covers it. -/
theorem yearFromDayGo_spec (n : Nat) :
    ∀ fuel y, dayOfYearStart y ≤ n → n < dayOfYearStart (y + fuel) →
      dayOfYearStart (yearFromDayGo n y fuel) ≤ n ∧
        n < dayOfYearStart (yearFromDayGo n y fuel + 1) := by
  intro fuel
  induction fuel with
  | zero =>
      intro y h1 h2
      rw [Nat.add_zero] at h2
      omega
  | succ fuel ih =>
      intro y h1 h2
      unfold yearFromDayGo
      split
      case isTrue h =>
          refine ih (y + 1) h ?_
          have heq : y + (fuel + 1) = y + 1 + fuel := by omega
          rw [heq] at h2
          exact h2
      case isFalse h => exact ⟨h1, by omega⟩

/-- January 1 of year 0 is day 0. -/
theorem dayOfYearStart_zero : dayOfYearStart 0 = 0 := by decide

/-- `yearFromDay` satisfies the defining sandwich of `YearFromTime`. -/
theorem yearFromDay_spec (n : Nat) :
    dayOfYearStart (yearFromDay n) ≤ n ∧ n < dayOfYearStart (yearFromDay n + 1) := by
  unfold yearFromDay
  have h1 : dayOfYearStart (400 * (n / 146097)) ≤ n := by
    have h := dayOfYearStart_era (n / 146097) 0
    rw [Nat.add_zero] at h
    rw [h, dayOfYearStart_zero]
    omega
  have h2 : n < dayOfYearStart (400 * (n / 146097) + 400) := by
    have heq : 400 * (n / 146097) + 400 = 400 * (n / 146097 + 1) + 0 := by ring
    rw [heq, dayOfYearStart_era, dayOfYearStart_zero]
    omega
  exact yearFromDayGo_spec n 400 (400 * (n / 146097)) h1 h2

/-- The year of a day number is unique. -/
theorem yearFromDay_eq (y n : Nat) (h1 : dayOfYearStart y ≤ n)
    (h2 : n < dayOfYearStart (y + 1)) : yearFromDay n = y := by
  obtain ⟨g1, g2⟩ := yearFromDay_spec n
  rcases Nat.lt_trichotomy (yearFromDay n) y with h | h | h
  · have : dayOfYearStart (yearFromDay n + 1) ≤ dayOfYearStart y :=
      dayOfYearStart_strictMono.le_iff_le.mpr (by omega)
    omega
  · exact h
  · have : dayOfYearStart (y + 1) ≤ dayOfYearStart (yearFromDay n) :=
      dayOfYearStart_strictMono.le_iff_le.mpr (by omega)
    omega

/-- Finite check: months are at most 31 days. -/
theorem daysInMonthB_le (leap : Bool) : ∀ m < 13, daysInMonthB leap m ≤ 31 := by
  cases leap <;> decide

/-- Finite check: a valid month/day offset stays within the year. -/
theorem daysBeforeMonthB_add_lt (leap : Bool) :
    ∀ m < 13, ∀ d < 32, (1 ≤ m ∧ 1 ≤ d ∧ d ≤ daysInMonthB leap m) →
      daysBeforeMonthB leap m + (d - 1) < daysInYearB leap := by
  cases leap <;> decide

/-- Finite check: splitting a valid day-of-year offset recovers the month
and day it encodes. -/
theorem monthDayFromDoy_correctB (leap : Bool) :
    ∀ m < 13, ∀ d < 32, (1 ≤ m ∧ 1 ≤ d ∧ d ≤ daysInMonthB leap m) →
      monthDayFromDoy leap (daysBeforeMonthB leap m + (d - 1)) = (m, d) := by
  cases leap <;> decide

set_option maxRecDepth 40000 in
/-- Finite check: any in-year day-of-year splits into valid month/day
components that re-encode it. -/
theorem monthDayFromDoy_invB (leap : Bool) :
    ∀ doy < 366, doy < daysInYearB leap →
      1 ≤ (monthDayFromDoy leap doy).1 ∧ (monthDayFromDoy leap doy).1 ≤ 12 ∧
        1 ≤ (monthDayFromDoy leap doy).2 ∧
        (monthDayFromDoy leap doy).2 ≤ daysInMonthB leap (monthDayFromDoy leap doy).1 ∧
        daysBeforeMonthB leap (monthDayFromDoy leap doy).1 +
          ((monthDayFromDoy leap doy).2 - 1) = doy := by
  cases leap <;> decide

/-- The days before a month plus a valid day offset stay within the year. -/
theorem daysBeforeMonth_add_lt (y m d : Nat) (hm1 : 1 ≤ m) (hm2 : m ≤ 12)
    (hd1 : 1 ≤ d) (hd2 : d ≤ daysInMonth y m) :
    daysBeforeMonth y m + (d - 1) < daysInYear y := by
  have hdim := daysInMonthB_le (isLeap y) m (by omega)
  exact daysBeforeMonthB_add_lt (isLeap y) m (by omega) d (by unfold daysInMonth at hd2; omega)
    ⟨hm1, hd1, hd2⟩

/-- Round trip: converting a valid calendar date to a day number and back
is the identity. -/
theorem civilFromDays_makeDay (y m d : Nat) (hm1 : 1 ≤ m) (hm2 : m ≤ 12)
    (hd1 : 1 ≤ d) (hd2 : d ≤ daysInMonth y m) :
    civilFromDays (makeDay y m d) = (y, m, d) := by
  have hin : daysBeforeMonth y m + (d - 1) < daysInYear y :=
    daysBeforeMonth_add_lt y m d hm1 hm2 hd1 hd2
  have hy : yearFromDay (makeDay y m d) = y := by
    apply yearFromDay_eq
    · unfold makeDay; omega
    · rw [dayOfYearStart_succ]; unfold makeDay; omega
  have hdim := daysInMonthB_le (isLeap y) m (by omega)
  have hmd : monthDayFromDoy (isLeap y) (daysBeforeMonth y m + (d - 1)) = (m, d) :=
    monthDayFromDoy_correctB (isLeap y) m (by omega) d
      (by unfold daysInMonth at hd2; omega) ⟨hm1, hd1, hd2⟩
  have hdoy : makeDay y m d - dayOfYearStart y = daysBeforeMonth y m + (d - 1) := by
    unfold makeDay; omega
  simp only [civilFromDays, hy, hdoy, hmd]

/-- Reverse round trip: the calendar components of any day number form a
valid date that rebuilds the day number. -/
theorem makeDay_civilFromDays (n : Nat) :
    1 ≤ (civilFromDays n).2.1 ∧ (civilFromDays n).2.1 ≤ 12 ∧
      1 ≤ (civilFromDays n).2.2 ∧
      (civilFromDays n).2.2 ≤ daysInMonth (civilFromDays n).1 (civilFromDays n).2.1 ∧
      makeDay (civilFromDays n).1 (civilFromDays n).2.1 (civilFromDays n).2.2 = n := by
  obtain ⟨h1, h2⟩ := yearFromDay_spec n
  rw [dayOfYearStart_succ] at h2
  have hy366 : daysInYear (yearFromDay n) ≤ 366 := by
    rw [daysInYear_eq]; split <;> omega
  have hdoy : n - dayOfYearStart (yearFromDay n) < daysInYear (yearFromDay n) := by omega
  have hinv := monthDayFromDoy_invB (isLeap (yearFromDay n))
    (n - dayOfYearStart (yearFromDay n)) (by unfold daysInYear at hdoy; omega)
    (by unfold daysInYear at hdoy; exact hdoy)
  simp only [civilFromDays]
  refine ⟨hinv.1, hinv.2.1, hinv.2.2.1, hinv.2.2.2.1, ?_⟩
  have hb := hinv.2.2.2.2
  unfold makeDay daysBeforeMonth
  omega

/-! ## Date-string correctness -/

theorem charDigit_digitChar (k : Nat) (h : k < 10) : charDigit (digitChar k) = some k := by
  interval_cases k <;> rfl

theorem digitChar_charDigit (c : Char) (k : Nat) (h : charDigit c = some k) :
    digitChar k = c ∧ k < 10 := by
  unfold charDigit at h
  split at h <;> simp_all <;> subst h <;> simp [digitChar]

theorem parseDateFields_format (y m d : Nat) (hy : y < 10000) (hm : m < 100) (hd : d < 100) :
    parseDateFields (formatDate y m d) = some (y, m, d) := by
  have h1 := charDigit_digitChar (y / 1000 % 10) (by omega)
  have h2 := charDigit_digitChar (y / 100 % 10) (by omega)
  have h3 := charDigit_digitChar (y / 10 % 10) (by omega)
  have h4 := charDigit_digitChar (y % 10) (by omega)
  have h5 := charDigit_digitChar (m / 10 % 10) (by omega)
  have h6 := charDigit_digitChar (m % 10) (by omega)
  have h7 := charDigit_digitChar (d / 10 % 10) (by omega)
  have h8 := charDigit_digitChar (d % 10) (by omega)
  simp only [formatDate, pad4, pad2, List.cons_append, List.nil_append, parseDateFields,
    h1, h2, h3, h4, h5, h6, h7, h8]
  simp only [and_self, if_pos, Option.some.injEq, Prod.mk.injEq]
  omega

theorem parseDateFields_inv (s : String) (y m d : Nat)
    (h : parseDateFields s = some (y, m, d)) :
    s = formatDate y m d ∧ y < 10000 ∧ m < 100 ∧ d < 100 := by
  obtain ⟨data⟩ := s
  unfold parseDateFields at h
  simp only at h
  split at h
  case h_2 => exact absurd h (by simp)
  case h_1 a b c dd h1 e f h2 g i =>
    split at h
    case h_2 => exact absurd h (by simp)
    case h_1 va vb vc vd ve vf vg vi ha hb hc hd' he hf hg hi =>
      split at h
      case isFalse => exact absurd h (by simp)
      case isTrue hdash =>
        obtain ⟨hda, hka⟩ := digitChar_charDigit a va ha
        obtain ⟨hdb, hkb⟩ := digitChar_charDigit b vb hb
        obtain ⟨hdc, hkc⟩ := digitChar_charDigit c vc hc
        obtain ⟨hdd, hkd⟩ := digitChar_charDigit dd vd hd'
        obtain ⟨hde, hke⟩ := digitChar_charDigit e ve he
        obtain ⟨hdf, hkf⟩ := digitChar_charDigit f vf hf
        obtain ⟨hdg, hkg⟩ := digitChar_charDigit g vg hg
        obtain ⟨hdi, hki⟩ := digitChar_charDigit i vi hi
        simp only [Option.some.injEq, Prod.mk.injEq] at h
        obtain ⟨hy, hm, hd2⟩ := h
        refine ⟨?_, by omega, by omega, by omega⟩
        apply String.ext
        simp only [formatDate, pad4, pad2, List.cons_append, List.nil_append]
        have e1 : y / 1000 % 10 = va := by omega
        have e2 : y / 100 % 10 = vb := by omega
        have e3 : y / 10 % 10 = vc := by omega
        have e4 : y % 10 = vd := by omega
        have e5 : m / 10 % 10 = ve := by omega
        have e6 : m % 10 = vf := by omega
        have e7 : d / 10 % 10 = vg := by omega
        have e8 : d % 10 = vi := by omega
        rw [e1, e2, e3, e4, e5, e6, e7, e8, hda, hdb, hdc, hdd, hde, hdf, hdg, hdi]
        simp [hdash.1, hdash.2]

theorem daysBeforeMonthB_add_lt31 (leap : Bool) :
    ∀ m < 13, ∀ d < 32, 1 ≤ m → daysBeforeMonthB leap m + (d - 1) < daysInYearB leap := by
  cases leap <;> decide

theorem yearFromDay_makeDay31 (y m d : Nat) (hm1 : 1 ≤ m) (hm2 : m ≤ 12) (hd2 : d ≤ 31) :
    yearFromDay (makeDay y m d) = y := by
  apply yearFromDay_eq
  · unfold makeDay; omega
  · rw [dayOfYearStart_succ]
    have h := daysBeforeMonthB_add_lt31 (isLeap y) m (by omega) d (by omega) hm1
    unfold makeDay daysBeforeMonth daysInYear
    omega

theorem renderDate_makeDay (y m d : Nat) (hm1 : 1 ≤ m) (hm2 : m ≤ 12) (hd1 : 1 ≤ d)
    (hd2 : d ≤ daysInMonth y m) : renderDate (makeDay y m d) = formatDate y m d := by
  unfold renderDate
  rw [civilFromDays_makeDay y m d hm1 hm2 hd1 hd2]

theorem renderDate_makeDay_ne (y m d : Nat) (hy : y < 10000) (hm1 : 1 ≤ m) (hm2 : m ≤ 12)
    (hd1 : 1 ≤ d) (hd2 : d ≤ 31) (hroll : daysInMonth y m < d) :
    renderDate (makeDay y m d) ≠ formatDate y m d := by
  intro hcontra
  obtain ⟨k1, k2, k3, k4, k5⟩ := makeDay_civilFromDays (makeDay y m d)
  have hyear : (civilFromDays (makeDay y m d)).1 = y := yearFromDay_makeDay31 y m d hm1 hm2 hd2
  have hdim := daysInMonthB_le (isLeap (civilFromDays (makeDay y m d)).1)
    (civilFromDays (makeDay y m d)).2.1 (by omega)
  have hparse1 : parseDateFields (renderDate (makeDay y m d)) =
      some ((civilFromDays (makeDay y m d)).1, (civilFromDays (makeDay y m d)).2.1,
        (civilFromDays (makeDay y m d)).2.2) := by
    apply parseDateFields_format
    · rw [hyear]; exact hy
    · omega
    · unfold daysInMonth at k4; omega
  have hparse2 : parseDateFields (formatDate y m d) = some (y, m, d) :=
    parseDateFields_format y m d hy (by omega) (by omega)
  rw [hcontra, hparse2] at hparse1
  simp only [Option.some.injEq, Prod.mk.injEq] at hparse1
  obtain ⟨hcy, hcm, hcd⟩ := hparse1
  rw [← hcd, ← hcm, ← hcy] at k4
  omega

/-- Canonical date strings: the `YYYY-MM-DD` renderings of real calendar
dates. -/
def isCanonicalDate (s : String) : Prop :=
  ∃ y m d, s = formatDate y m d ∧ y < 10000 ∧ 1 ≤ m ∧ m ≤ 12 ∧ 1 ≤ d ∧ d ≤ daysInMonth y m

theorem asDateOnly_spec (s label : String) :
    (matchesDatePattern s = false →
      asDateOnly s label = .error (err400 (label ++ " must be YYYY-MM-DD"))) ∧
    (∀ y m d, parseDateFields s = some (y, m, d) →
      (¬(1 ≤ m ∧ m ≤ 12 ∧ 1 ≤ d ∧ d ≤ 31) →
        asDateOnly s label = .error (.thrown "Invalid time value")) ∧
      ((1 ≤ m ∧ m ≤ 12 ∧ 1 ≤ d ∧ d ≤ 31) →
        (d ≤ daysInMonth y m → asDateOnly s label = .ok s) ∧
        (daysInMonth y m < d →
          asDateOnly s label = .error (err400 (label ++ " is invalid"))))) := by
  constructor
  · intro hfail
    unfold asDateOnly
    rw [hfail]
    simp
  · intro y m d hp
    have hmatch : matchesDatePattern s = true := by
      unfold matchesDatePattern
      rw [hp]
      rfl
    obtain ⟨hfmt, hy, hm100, hd100⟩ := parseDateFields_inv s y m d hp
    constructor
    · intro hout
      unfold asDateOnly jsParseIsoDate
      rw [hmatch, hp]
      simp only [if_neg hout, if_true]
    · intro hin
      obtain ⟨hm1, hm2, hd1, hd31⟩ := hin
      constructor
      · intro hvalid
        unfold asDateOnly jsParseIsoDate
        rw [hmatch, hp]
        simp only [if_pos (⟨hm1, hm2, hd1, hd31⟩ : 1 ≤ m ∧ m ≤ 12 ∧ 1 ≤ d ∧ d ≤ 31), if_true]
        have hr : renderDate (makeDay y m d) = s := by
          rw [renderDate_makeDay y m d hm1 hm2 hd1 hvalid, hfmt]
        rw [if_pos hr]
      · intro hroll
        unfold asDateOnly jsParseIsoDate
        rw [hmatch, hp]
        simp only [if_pos (⟨hm1, hm2, hd1, hd31⟩ : 1 ≤ m ∧ m ≤ 12 ∧ 1 ≤ d ∧ d ≤ 31), if_true]
        have hr : renderDate (makeDay y m d) ≠ s := by
          rw [hfmt]
          exact renderDate_makeDay_ne y m d hy hm1 hm2 hd1 hd31 hroll
        rw [if_neg hr]

/-! ## Date-range correctness -/

theorem buildDateRangeGo_ok (endN : Nat) :
    ∀ k cursor acc, k = endN + 1 - cursor → acc.length + k ≤ 120 →
      buildDateRangeGo endN k cursor acc =
        .ok (acc ++ (List.range k).map (fun i => renderDate (cursor + i))) := by
  intro k
  induction k with
  | zero =>
      intro cursor acc hk hlen
      unfold buildDateRangeGo
      simp
  | succ k ih =>
      intro cursor acc hk hlen
      unfold buildDateRangeGo
      rw [if_pos (by omega)]
      simp only [List.length_append, List.length_cons, List.length_nil]
      rw [if_neg (by omega)]
      rw [ih (cursor + 1) (acc ++ [renderDate cursor]) (by omega) (by simp; omega)]
      congr 1
      rw [List.range_succ_eq_map]
      simp only [List.map_cons, List.map_map, List.append_assoc, List.cons_append,
        List.nil_append, Nat.add_zero]
      congr 1
      congr 1
      apply List.map_congr_left
      intro i _
      simp only [Function.comp_apply]
      congr 1
      omega

theorem buildDateRangeGo_err (endN : Nat) :
    ∀ k cursor acc, k = endN + 1 - cursor → 120 < acc.length + k → cursor ≤ endN →
      buildDateRangeGo endN k cursor acc =
        .error (err400 "Trip length is limited to 120 days") := by
  intro k
  induction k with
  | zero => intro cursor acc hk hlen hc; omega
  | succ k ih =>
      intro cursor acc hk hlen hc
      unfold buildDateRangeGo
      rw [if_pos (by omega)]
      simp only [List.length_append, List.length_cons, List.length_nil]
      by_cases hfull : 120 < acc.length + 1
      · rw [if_pos (by omega)]
      · rw [if_neg (by omega)]
        have hnext : k ≠ 0 := by omega
        exact ih (cursor + 1) (acc ++ [renderDate cursor]) (by omega) (by simp; omega)
          (by omega)

theorem buildDateRange_spec (startDate endDate : String) (s e : Nat)
    (hs : jsParseIsoDate startDate = some s) (he : jsParseIsoDate endDate = some e)
    (hle : s ≤ e) :
    (e - s ≤ 119 → buildDateRange startDate endDate =
      .ok ((List.range (e - s + 1)).map (fun i => renderDate (s + i)))) ∧
    (119 < e - s → buildDateRange startDate endDate =
      .error (err400 "Trip length is limited to 120 days")) := by
  have hred : buildDateRange startDate endDate =
      if s > e then Except.error (err400 "startDate must be before or equal to endDate")
      else buildDateRangeGo e (e + 1 - s) s [] := by
    unfold buildDateRange
    rw [hs, he]
  constructor
  · intro hspan
    rw [hred, if_neg (by omega)]
    have hk : e + 1 - s = e - s + 1 := by omega
    rw [hk]
    have h := buildDateRangeGo_ok e (e - s + 1) s [] (by omega) (by simp; omega)
    simpa using h
  · intro hspan
    rw [hred, if_neg (by omega)]
    exact buildDateRangeGo_err e (e + 1 - s) s [] rfl (by simp; omega) (by omega)

theorem buildDateRange_inverted (startDate endDate : String) (s e : Nat)
    (hs : jsParseIsoDate startDate = some s) (he : jsParseIsoDate endDate = some e)
    (hgt : e < s) :
    buildDateRange startDate endDate =
      .error (err400 "startDate must be before or equal to endDate") := by
  have hred : buildDateRange startDate endDate =
      if s > e then Except.error (err400 "startDate must be before or equal to endDate")
      else buildDateRangeGo e (e + 1 - s) s [] := by
    unfold buildDateRange
    rw [hs, he]
  rw [hred, if_pos (by omega)]

/-! ## Handler-level lemmas and claims -/

/-! ## Monad evaluation lemmas -/

@[simp] theorem M.pure_apply (a : α) (db : DB) : (M.pure a) db = (.ok a, db) := rfl

@[simp] theorem M.throw_apply (e : JsError) (db : DB) :
    (M.throw e : M α) db = (.error e, db) := rfl

@[simp] theorem M.liftE_ok_bind (a : α) (f : α → M β) (db : DB) :
    (M.liftE (Except.ok a) >>= f) db = f a db := rfl

@[simp] theorem M.liftE_error_bind (e : JsError) (f : α → M β) (db : DB) :
    (M.liftE (Except.error e) >>= f) db = (Except.error e, db) := rfl

@[simp] theorem M.pure_bind (a : α) (f : α → M β) (db : DB) :
    (M.pure a >>= f) db = f a db := rfl

@[simp] theorem M.get_bind (f : DB → M β) (db : DB) : (M.get >>= f) db = f db db := rfl

@[simp] theorem M.set_bind (db0 : DB) (f : Unit → M β) (db : DB) :
    (M.set db0 >>= f) db = f () db0 := rfl

@[simp] theorem M.throw_bind (e : JsError) (f : α → M β) (db : DB) :
    (M.throw e >>= f) db = (.error e, db) := rfl

theorem M.bind_apply (x : M α) (f : α → M β) (db : DB) :
    (x >>= f) db = (match x db with
      | (.ok a, db') => f a db'
      | (.error e, db') => (.error e, db')) := rfl

/-- Helper: an erroring trip creation leaves the store untouched. -/
theorem handleTripCreate_error_noop
    (parseMs : String → Option Int) (body : JsBody) (tripId : String)
    (dayIdGen flightIdGen hotelIdGen : Nat → String) (now : String)
    (db db2 : DB) (e : JsError)
    (h : handleTripCreate parseMs body tripId dayIdGen flightIdGen hotelIdGen now db
          = (.error e, db2)) :
    db2 = db := by
  unfold handleTripCreate at h
  cases hv : validateTripCreate body with
  | error e1 => rw [hv] at h; simp at h; exact h.2.symm
  | ok f =>
      rw [hv] at h
      simp only [M.liftE_ok_bind] at h
      cases hd : buildDateRange f.startDate f.endDate with
      | error e2 => rw [hd] at h; simp at h; exact h.2.symm
      | ok dates =>
          rw [hd] at h
          simp only [M.liftE_ok_bind] at h
          cases hf : buildFlightStmts parseMs f.currency tripId flightIdGen now 0
              f.flightsInput with
          | error e3 => rw [hf] at h; simp at h; exact h.2.symm
          | ok fstmts =>
              rw [hf] at h
              simp only [M.liftE_ok_bind] at h
              cases hh : buildHotelStmts f.currency tripId hotelIdGen now 0 f.hotelsInput with
              | error e4 => rw [hh] at h; simp at h; exact h.2.symm
              | ok hstmts => rw [hh] at h; simp at h

/-- Empty store. -/
def emptyDB : DB := ⟨[], [], [], [], [], []⟩

/-- C1: a trip-creation request that fails validation (inverted range,
span over 120 days, or any malformed trip / nested flight / nested hotel
field) raises its error with the store exactly as it was — the batch is
the only write and it runs strictly after all validation. -/
theorem C1_tripCreate_validation_precedes_writes
    (parseMs : String → Option Int) (body : JsBody) (tripId : String)
    (dayIdGen flightIdGen hotelIdGen : Nat → String) (now : String) (db : DB) :
    (∀ e db2, handleTripCreate parseMs body tripId dayIdGen flightIdGen hotelIdGen now db
        = (.error e, db2) → db2 = db) ∧
    (∀ f s e', validateTripCreate body = .ok f →
        jsParseIsoDate f.startDate = some s → jsParseIsoDate f.endDate = some e' → e' < s →
        handleTripCreate parseMs body tripId dayIdGen flightIdGen hotelIdGen now db
          = (.error (err400 "startDate must be before or equal to endDate"), db)) ∧
    (∀ f s e', validateTripCreate body = .ok f →
        jsParseIsoDate f.startDate = some s → jsParseIsoDate f.endDate = some e' →
        s ≤ e' → 119 < e' - s →
        handleTripCreate parseMs body tripId dayIdGen flightIdGen hotelIdGen now db
          = (.error (err400 "Trip length is limited to 120 days"), db)) := by
  refine ⟨?_, ?_, ?_⟩
  · intro e db2 h
    exact handleTripCreate_error_noop parseMs body tripId dayIdGen flightIdGen hotelIdGen
      now db db2 e h
  · intro f s e' hv hs he hlt
    unfold handleTripCreate
    rw [hv]
    simp only [M.liftE_ok_bind]
    rw [buildDateRange_inverted f.startDate f.endDate s e' hs he hlt]
    simp
  · intro f s e' hv hs he hle hspan
    unfold handleTripCreate
    rw [hv]
    simp only [M.liftE_ok_bind]
    rw [(buildDateRange_spec f.startDate f.endDate s e' hs he hle).2 hspan]
    simp

/-- C1 witness: a concrete inverted-range request errors and persists
nothing. -/
theorem C1_witness :
    handleTripCreate (fun _ => none)
      [("title", .str "Kyoto"), ("destination", .str "Kyoto"),
       ("startDate", .str "2026-04-12"), ("endDate", .str "2026-04-10")]
      "trip_1" (fun i => "day_" ++ toString i) (fun i => "flt_" ++ toString i)
      (fun i => "hotel_" ++ toString i) "2026-01-01T00:00:00.000Z" emptyDB
      = (.error (err400 "startDate must be before or equal to endDate"), emptyDB) := by
  exact (C1_tripCreate_validation_precedes_writes (fun _ => none) _ "trip_1" _ _ _
      "2026-01-01T00:00:00.000Z" emptyDB).2.1
    ⟨"Kyoto", "Kyoto", "2026-04-12", "2026-04-10", "JPY", none, "draft", [], []⟩
    (makeDay 2026 4 12) (makeDay 2026 4 10) (by rfl) (by rfl) (by rfl) (by decide)


/-- Evaluation of the ISO date parse once the fields are known. -/
theorem jsParseIsoDate_eq (str : String) (y m d : Nat)
    (hp : parseDateFields str = some (y, m, d)) :
    jsParseIsoDate str =
      if 1 ≤ m ∧ m ≤ 12 ∧ 1 ≤ d ∧ d ≤ 31 then some (makeDay y m d) else none := by
  unfold jsParseIsoDate
  rw [hp]

/-- Parsed date strings denote days before year 10000. -/
theorem jsParseIsoDate_lt (str : String) (n : Nat) (h : jsParseIsoDate str = some n) :
    n < dayOfYearStart 10000 := by
  cases hp : parseDateFields str with
  | none => unfold jsParseIsoDate at h; rw [hp] at h; exact absurd h (by simp)
  | some t =>
      obtain ⟨y, m, d⟩ := t
      rw [jsParseIsoDate_eq str y m d hp] at h
      by_cases hin : 1 ≤ m ∧ m ≤ 12 ∧ 1 ≤ d ∧ d ≤ 31
      · rw [if_pos hin] at h
        simp only [Option.some.injEq] at h
        obtain ⟨hfmt, hy, hm100, hd100⟩ := parseDateFields_inv str y m d hp
        have hroom := daysBeforeMonthB_add_lt31 (isLeap y) m (by omega) d (by omega) hin.1
        have hsucc := dayOfYearStart_succ y
        have hmono : dayOfYearStart (y + 1) ≤ dayOfYearStart 10000 :=
          dayOfYearStart_strictMono.le_iff_le.mpr (by omega)
        unfold makeDay daysBeforeMonth daysInYear at *
        omega
      · rw [if_neg hin] at h
        exact absurd h (by simp)

/-- Rendering then re-parsing a day number is the identity below year
10000. -/
theorem jsParseIsoDate_renderDate (n : Nat) (hn : n < dayOfYearStart 10000) :
    jsParseIsoDate (renderDate n) = some n := by
  obtain ⟨k1, k2, k3, k4, k5⟩ := makeDay_civilFromDays n
  obtain ⟨g1, g2⟩ := yearFromDay_spec n
  have hy : (civilFromDays n).1 < 10000 := by
    by_contra hcon
    have hfst : (civilFromDays n).1 = yearFromDay n := rfl
    rw [hfst] at hcon
    have hge : dayOfYearStart 10000 ≤ dayOfYearStart (yearFromDay n) :=
      dayOfYearStart_strictMono.le_iff_le.mpr (by omega)
    omega
  have hdim := daysInMonthB_le (isLeap (civilFromDays n).1) (civilFromDays n).2.1 (by omega)
  unfold daysInMonth at k4
  have hrender : renderDate n = formatDate (civilFromDays n).1 (civilFromDays n).2.1
      (civilFromDays n).2.2 := rfl
  rw [hrender, jsParseIsoDate_eq _ _ _ _ (parseDateFields_format _ _ _ hy (by omega)
    (by omega))]
  rw [if_pos ⟨k1, k2, k3, by omega⟩, k5]

/-- The day statements built over a mapped range. -/
theorem dayStatements_range (tripId now : String) (gen : Nat → String) :
    ∀ k, ∀ (g : Nat → String), ∀ i0,
      dayStatements tripId now gen i0 ((List.range k).map g) =
        (List.range k).map (fun j => Statement.insDay
          ⟨gen (i0 + j), tripId, ((i0 + j : Nat) : Int) + 1, g j, none, none, now, now⟩) := by
  intro k
  induction k with
  | zero => intro g i0; simp [dayStatements]
  | succ k ih =>
      intro g i0
      rw [List.range_succ_eq_map]
      simp only [List.map_cons, List.map_map]
      unfold dayStatements
      rw [ih (g ∘ Nat.succ) (i0 + 1)]
      simp only [Nat.add_zero]
      congr 1
      apply List.map_congr_left
      intro j _
      simp only [Function.comp_apply]
      have h1 : i0 + 1 + j = i0 + (j + 1) := by omega
      rw [h1]

/-- The store's `days` table after a batch: the day inserts, in order. -/
theorem applyBatch_days (stmts : List Statement) :
    ∀ db : DB, (applyBatch db stmts).days = db.days ++ stmts.filterMap
      (fun st => match st with | .insDay r => some r | _ => none) := by
  induction stmts with
  | nil => intro db; simp [applyBatch]
  | cons st rest ih =>
      intro db
      unfold applyBatch at *
      simp only [List.foldl_cons]
      rw [ih (applyStatement db st)]
      cases st <;> simp [applyStatement]

/-- Day rows contributed by mapped flight statements: none. -/
theorem filterMap_day_of_flights (rows : List FlightRow) :
    (rows.map Statement.insFlight).filterMap
      (fun st => match st with | .insDay r => some r | _ => none) = [] := by
  induction rows with
  | nil => rfl
  | cons r rest ih => simp [ih]

/-- Day rows contributed by mapped hotel statements: none. -/
theorem filterMap_day_of_hotels (rows : List HotelRow) :
    (rows.map Statement.insHotel).filterMap
      (fun st => match st with | .insDay r => some r | _ => none) = [] := by
  induction rows with
  | nil => rfl
  | cons r rest ih => simp [ih]

/-- Day rows of mapped day statements: exactly the rows. -/
theorem filterMap_day_of_days (l : List Nat) (g : Nat → DayRow) :
    ((l.map (fun a => Statement.insDay (g a))).filterMap
      (fun st => match st with | .insDay r => some r | _ => none)) = l.map g := by
  induction l with
  | nil => rfl
  | cons a rest ih => simp [ih]

/-- C2: a valid trip-creation request with start on or before end spanning
at most 120 days persists exactly one day row per calendar date of the
inclusive range, with `day_no` 1..N assigned in ascending date order, and
each stored date string re-parses to the corresponding consecutive day
number. -/
theorem C2_tripCreate_generates_inclusive_days
    (parseMs : String → Option Int) (body : JsBody) (tripId : String)
    (dayIdGen flightIdGen hotelIdGen : Nat → String) (now : String) (db : DB)
    (f : TripFields) (s e' : Nat)
    (hv : validateTripCreate body = .ok f)
    (hs : jsParseIsoDate f.startDate = some s)
    (he : jsParseIsoDate f.endDate = some e')
    (hle : s ≤ e') (hspan : e' - s ≤ 119)
    (p : TripCreatePayload) (db2 : DB)
    (hrun : handleTripCreate parseMs body tripId dayIdGen flightIdGen hotelIdGen now db
      = (.ok p, db2)) :
    db2.days = db.days ++ (List.range (e' - s + 1)).map (fun j =>
      ⟨dayIdGen j, tripId, (j : Int) + 1, renderDate (s + j), none, none, now, now⟩) ∧
    (∀ j, j ≤ e' - s → jsParseIsoDate (renderDate (s + j)) = some (s + j)) := by
  constructor
  · unfold handleTripCreate at hrun
    rw [hv] at hrun
    simp only [M.liftE_ok_bind] at hrun
    rw [(buildDateRange_spec f.startDate f.endDate s e' hs he hle).1 hspan] at hrun
    simp only [M.liftE_ok_bind] at hrun
    cases hf : buildFlightRows parseMs f.currency tripId flightIdGen now 0 f.flightsInput with
    | error e1 =>
        rw [show buildFlightStmts parseMs f.currency tripId flightIdGen now 0
          f.flightsInput = .error e1 by unfold buildFlightStmts; rw [hf]; rfl] at hrun
        simp at hrun
    | ok frows =>
        rw [show buildFlightStmts parseMs f.currency tripId flightIdGen now 0
          f.flightsInput = .ok (frows.map Statement.insFlight) by
            unfold buildFlightStmts; rw [hf]; rfl] at hrun
        simp only [M.liftE_ok_bind] at hrun
        cases hh : buildHotelRows f.currency tripId hotelIdGen now 0 f.hotelsInput with
        | error e2 =>
            rw [show buildHotelStmts f.currency tripId hotelIdGen now 0
              f.hotelsInput = .error e2 by unfold buildHotelStmts; rw [hh]; rfl] at hrun
            simp at hrun
        | ok hrows =>
            rw [show buildHotelStmts f.currency tripId hotelIdGen now 0
              f.hotelsInput = .ok (hrows.map Statement.insHotel) by
                unfold buildHotelStmts; rw [hh]; rfl] at hrun
            simp only [M.liftE_ok_bind, M.get_bind, M.set_bind, M.pure_apply,
              Prod.mk.injEq] at hrun
            have hdb2 : db2 = applyBatch db (Statement.insTrip ⟨tripId, f.title,
                f.destination, f.startDate, f.endDate, f.currency, f.memo, f.status,
                now, now⟩ :: dayStatements tripId now dayIdGen 0
                  ((List.range (e' - s + 1)).map (fun i => renderDate (s + i)))
                ++ frows.map Statement.insFlight ++ hrows.map Statement.insHotel) :=
              hrun.2.symm
            rw [hdb2, applyBatch_days]
            rw [dayStatements_range tripId now dayIdGen (e' - s + 1)
              (fun i => renderDate (s + i)) 0]
            simp only [List.cons_append, List.filterMap_cons, List.filterMap_append]
            rw [filterMap_day_of_flights, filterMap_day_of_hotels]
            rw [filterMap_day_of_days (List.range (e' - s + 1)) (fun j =>
              (⟨dayIdGen (0 + j), tripId, ((0 + j : Nat) : Int) + 1, renderDate (s + j),
                none, none, now, now⟩ : DayRow))]
            simp only [List.append_nil]
            congr 1
            apply List.map_congr_left
            intro j _
            simp only [Nat.zero_add]
  · intro j hj
    apply jsParseIsoDate_renderDate
    have hend := jsParseIsoDate_lt f.endDate e' he
    omega

/-- C4 counterexample: the regex-shaped string "2021-13-01" (month 13)
makes the date coercion raise the Invalid-Date RangeError rather than a
field-labelled 400, and the error mapper turns it into a 500. -/
theorem C4_counterexample_month13_maps_to_500 :
    asDateOnly "2021-13-01" "startDate" = .error (.thrown "Invalid time value") ∧
    mapDbError (.thrown "Invalid time value") = ⟨500, "Internal server error"⟩ ∧
    (500 : Nat) ≠ 400 := by
  refine ⟨by rfl, by rfl, by decide⟩

/-- C4 (amended): the date-only coercion accepts exactly the strict
`YYYY-MM-DD` strings that round-trip through calendar-date parsing
(returning the canonical string), and rejects a real calendar-date
violation such as February 30 with a field-labelled 400; but a
regex-shaped string whose month or day field lies outside the structural
01-12 / 01-31 ranges raises the Invalid-Date error instead, which the
error mapper reports as a 500. -/
theorem C4_asDateOnly_characterization (s label : String) :
    (∀ v, asDateOnly s label = .ok v → v = s ∧ isCanonicalDate s) ∧
    (matchesDatePattern s = false →
      asDateOnly s label = .error (err400 (label ++ " must be YYYY-MM-DD"))) ∧
    (∀ y m d, parseDateFields s = some (y, m, d) → (1 ≤ m ∧ m ≤ 12 ∧ 1 ≤ d ∧ d ≤ 31) →
      (d ≤ daysInMonth y m → asDateOnly s label = .ok s) ∧
      (daysInMonth y m < d → asDateOnly s label = .error (err400 (label ++ " is invalid")))) ∧
    (∀ y m d, parseDateFields s = some (y, m, d) → ¬(1 ≤ m ∧ m ≤ 12 ∧ 1 ≤ d ∧ d ≤ 31) →
      asDateOnly s label = .error (.thrown "Invalid time value") ∧
      mapDbError (.thrown "Invalid time value") = ⟨500, "Internal server error"⟩) := by
  obtain ⟨hregex, hspec⟩ := asDateOnly_spec s label
  refine ⟨?_, hregex, ?_, ?_⟩
  · intro v hok
    cases hm : matchesDatePattern s with
    | false => rw [hregex hm] at hok; exact absurd hok (by simp)
    | true =>
        have hsome : (parseDateFields s).isSome := hm
        cases hp : parseDateFields s with
        | none => rw [hp] at hsome; exact absurd hsome (by simp)
        | some t =>
            obtain ⟨y, m, d⟩ := t
            obtain ⟨hout, hin⟩ := hspec y m d hp
            by_cases hrange : 1 ≤ m ∧ m ≤ 12 ∧ 1 ≤ d ∧ d ≤ 31
            · by_cases hvalid : d ≤ daysInMonth y m
              · rw [(hin hrange).1 hvalid] at hok
                simp only [Except.ok.injEq] at hok
                obtain ⟨hfmt, hy, hm100, hd100⟩ := parseDateFields_inv s y m d hp
                exact ⟨hok.symm, y, m, d, hfmt, hy, hrange.1, hrange.2.1, hrange.2.2.1,
                  hvalid⟩
              · rw [(hin hrange).2 (by omega)] at hok
                exact absurd hok (by simp)
            · rw [hout hrange] at hok
              exact absurd hok (by simp)
  · intro y m d hp hrange
    exact (hspec y m d hp).2 hrange
  · intro y m d hp hrange
    exact ⟨(hspec y m d hp).1 hrange, by rfl⟩

/-- C4 witness: February 30 is rejected with the field-labelled 400, and a
real date is accepted and returned canonically. -/
theorem C4_witness :
    asDateOnly "2026-02-30" "startDate" = .error (err400 "startDate is invalid") ∧
    asDateOnly "2026-04-10" "startDate" = .ok "2026-04-10" := by
  constructor
  · exact ((C4_asDateOnly_characterization "2026-02-30" "startDate").2.2.1 2026 2 30
      (by rfl) (by decide)).2 (by decide)
  · exact ((C4_asDateOnly_characterization "2026-04-10" "startDate").2.2.1 2026 4 10
      (by rfl) (by decide)).1 (by decide)

/-- C5: the required-integer coercion accepts exactly a native integral
number (returned as is) or a string that is non-blank and whose
`parseInt` result is an integer (returned parsed); every other input —
non-integral numbers, blank or unparseable strings, absent values, null,
booleans, arrays, objects — fails with the field-labelled 400. -/
theorem C5_asRequiredInteger_characterization (v : Option JsVal) (label : String) :
    (∀ n : Int, v = some (.int n) → asRequiredInteger v label = .ok n) ∧
    (∀ s n, v = some (.str s) → jsTrim s ≠ "" → jsParseInt s = some n →
      asRequiredInteger v label = .ok n) ∧
    (∀ s, v = some (.str s) → (jsTrim s = "" ∨ jsParseInt s = none) →
      asRequiredInteger v label = .error (err400 (label ++ " must be an integer"))) ∧
    ((v = none ∨ v = some .nullV ∨ v = some .numNonInt ∨ (∃ b, v = some (.boolV b)) ∨
        (∃ xs, v = some (.arr xs)) ∨ (∃ fields, v = some (.obj fields))) →
      asRequiredInteger v label = .error (err400 (label ++ " must be an integer"))) := by
  have hred : ∀ s : String, asRequiredInteger (some (.str s)) label =
      if jsTrim s ≠ "" then
        (match jsParseInt s with
          | some n => .ok n
          | none => .error (err400 (label ++ " must be an integer")))
      else .error (err400 (label ++ " must be an integer")) := fun s => rfl
  refine ⟨?_, ?_, ?_, ?_⟩
  · intro n hv; subst hv; rfl
  · intro s n hv hne hp
    subst hv
    rw [hred s, if_pos hne, hp]
  · intro s hv hcase
    subst hv
    rw [hred s]
    rcases hcase with hblank | hnone
    · rw [if_neg (by simp [hblank])]
    · by_cases hne : jsTrim s ≠ ""
      · rw [if_pos hne, hnone]
      · rw [if_neg hne]
  · intro hcase
    rcases hcase with h | h | h | ⟨b, h⟩ | ⟨xs, h⟩ | ⟨fields, h⟩ <;> subst h <;> rfl

/-- C5 witness: concrete accept and reject cases. -/
theorem C5_witness :
    asRequiredInteger (some (.int 5)) "amount" = .ok 5 ∧
    asRequiredInteger (some (.str "42")) "amount" = .ok 42 ∧
    asRequiredInteger (some (.str "3.9")) "amount" = .ok 3 ∧
    asRequiredInteger (some .numNonInt) "amount"
      = .error (err400 "amount must be an integer") ∧
    asRequiredInteger (some (.str "abc")) "amount"
      = .error (err400 "amount must be an integer") ∧
    asRequiredInteger none "amount" = .error (err400 "amount must be an integer") := by
  refine ⟨?_, ?_, ?_, ?_, ?_, ?_⟩
  · exact (C5_asRequiredInteger_characterization (some (.int 5)) "amount").1 5 rfl
  · exact (C5_asRequiredInteger_characterization (some (.str "42")) "amount").2.1 "42" 42
      rfl (by decide) (by rfl)
  · exact (C5_asRequiredInteger_characterization (some (.str "3.9")) "amount").2.1 "3.9" 3
      rfl (by decide) (by rfl)
  · exact (C5_asRequiredInteger_characterization (some .numNonInt) "amount").2.2.2
      (by simp)
  · exact (C5_asRequiredInteger_characterization (some (.str "abc")) "amount").2.2.1 "abc"
      rfl (Or.inr (by rfl))
  · exact (C5_asRequiredInteger_characterization none "amount").2.2.2 (by simp)

/-- Concrete trip-creation request from the specification scenario. -/
def kyotoBody : JsBody :=
  [("title", .str "Kyoto"), ("destination", .str "Kyoto"),
   ("startDate", .str "2026-04-10"), ("endDate", .str "2026-04-12"),
   ("currency", .str "JPY")]

/-- The trip row the scenario creates. -/
def kyotoTrip : TripRow :=
  ⟨"trip_1", "Kyoto", "Kyoto", "2026-04-10", "2026-04-12", "JPY", none, "draft",
    "2026-01-01T00:00:00.000Z", "2026-01-01T00:00:00.000Z"⟩

/-- The three day rows the scenario creates. -/
def kyotoDays : List DayRow :=
  [⟨"day_0", "trip_1", 1, "2026-04-10", none, none, "2026-01-01T00:00:00.000Z",
     "2026-01-01T00:00:00.000Z"⟩,
   ⟨"day_1", "trip_1", 2, "2026-04-11", none, none, "2026-01-01T00:00:00.000Z",
     "2026-01-01T00:00:00.000Z"⟩,
   ⟨"day_2", "trip_1", 3, "2026-04-12", none, none, "2026-01-01T00:00:00.000Z",
     "2026-01-01T00:00:00.000Z"⟩]

/-- The store after the scenario. -/
def kyotoDB : DB := ⟨[kyotoTrip], kyotoDays, [], [], [], []⟩

/-- C2 witness: the Kyoto scenario (2026-04-10 through 2026-04-12)
persists exactly three day rows dated consecutively with day numbers
1, 2, 3. -/
theorem C2_witness :
    handleTripCreate (fun _ => none) kyotoBody "trip_1" (fun i => "day_" ++ toString i)
      (fun i => "flt_" ++ toString i) (fun i => "hotel_" ++ toString i)
      "2026-01-01T00:00:00.000Z" emptyDB
      = (.ok ⟨some kyotoTrip, kyotoDays, [], []⟩, kyotoDB) ∧
    kyotoDB.days = emptyDB.days ++ (List.range 3).map (fun j =>
      ⟨"day_" ++ toString j, "trip_1", (j : Int) + 1,
        renderDate (makeDay 2026 4 10 + j), none, none, "2026-01-01T00:00:00.000Z",
        "2026-01-01T00:00:00.000Z"⟩) := by
  refine ⟨by rfl, ?_⟩
  have h := C2_tripCreate_generates_inclusive_days (fun _ => none) kyotoBody "trip_1"
    (fun i => "day_" ++ toString i) (fun i => "flt_" ++ toString i)
    (fun i => "hotel_" ++ toString i) "2026-01-01T00:00:00.000Z" emptyDB
    ⟨"Kyoto", "Kyoto", "2026-04-10", "2026-04-12", "JPY", none, "draft", [], []⟩
    (makeDay 2026 4 10) (makeDay 2026 4 12) (by rfl) (by rfl) (by rfl) (by decide)
    (by decide) ⟨some kyotoTrip, kyotoDays, [], []⟩ kyotoDB (by rfl)
  exact h.1


/-- Evaluation of a bind at a known intermediate result. -/
theorem M.bind_ok_elim (x : M α) (f : α → M β) (a : α) (db db1 : DB)
    (hx : x db = (.ok a, db1)) : (x >>= f) db = f a db1 := by
  rw [M.bind_apply, hx]

/-- Evaluation of a bind at a known intermediate error. -/
theorem M.bind_error_elim (x : M α) (f : α → M β) (e : JsError) (db db1 : DB)
    (hx : x db = (.error e, db1)) : (x >>= f) db = (.error e, db1) := by
  rw [M.bind_apply, hx]

/-- An existing trip passes the existence check without touching the
store. -/
theorem mustTripExist_ok (tripId : String) (db : DB)
    (h : db.trips.any (fun r => r.id = tripId) = true) :
    mustTripExist tripId db = (.ok (), db) := by
  unfold mustTripExist
  simp only [M.get_bind]
  rw [if_pos h]
  rfl

/-- A day id with no row under the given trip fails the ownership check. -/
theorem ensureDayBelongsToTrip_fails (dayId tripId : String) (db : DB)
    (h : db.days.any (fun r => r.id = dayId ∧ r.trip_id = tripId) = false) :
    ensureDayBelongsToTrip dayId tripId db
      = (.error (err400 "dayId does not belong to trip"), db) := by
  unfold ensureDayBelongsToTrip
  simp only [M.get_bind]
  rw [if_neg (by simpa using h)]
  rfl

/-- C7: creating a plan under a trip with a day id that has no day row
belonging to that trip — whether the day exists under another trip or
not at all — fails with the 400 ownership error before the insert, and
the store is untouched. -/
theorem C7_plan_create_checks_day_ownership
    (parseMs : String → Option Int) (tripId : String) (body : JsBody)
    (newId now : String) (db : DB)
    (htrip : db.trips.any (fun r => r.id = tripId) = true)
    (dayId place : String)
    (hday : asRequiredString (valueOf body ["dayId", "day_id"]) "dayId" = .ok dayId)
    (hplace : asRequiredString (valueOf body ["place"]) "place" = .ok place)
    (hnot : db.days.any (fun r => r.id = dayId ∧ r.trip_id = tripId) = false) :
    createTripCollectionItem parseMs tripId .plans body newId now db
      = (.error (err400 "dayId does not belong to trip"), db) := by
  unfold createTripCollectionItem
  rw [M.bind_ok_elim _ _ () db db (mustTripExist_ok tripId db htrip)]
  rw [hday]
  simp only [M.liftE_ok_bind]
  rw [hplace]
  simp only [M.liftE_ok_bind]
  rw [M.bind_error_elim _ _ _ db db (ensureDayBelongsToTrip_fails dayId tripId db hnot)]

/-- C7 witness: a day that exists but belongs to a different trip is
rejected. -/
theorem C7_witness :
    createTripCollectionItem (fun _ => none) "trip_1" .plans
      [("dayId", .str "day_9"), ("place", .str "Temple")] "plan_1"
      "2026-01-01T00:00:00.000Z"
      ⟨[⟨"trip_1", "A", "A", "2026-04-10", "2026-04-12", "JPY", none, "draft", "t", "t"⟩,
        ⟨"trip_2", "B", "B", "2026-05-10", "2026-05-12", "JPY", none, "draft", "t", "t"⟩],
       [⟨"day_9", "trip_2", 1, "2026-05-10", none, none, "t", "t"⟩], [], [], [], []⟩
      = (.error (err400 "dayId does not belong to trip"),
         ⟨[⟨"trip_1", "A", "A", "2026-04-10", "2026-04-12", "JPY", none, "draft", "t", "t"⟩,
           ⟨"trip_2", "B", "B", "2026-05-10", "2026-05-12", "JPY", none, "draft", "t", "t"⟩],
          [⟨"day_9", "trip_2", 1, "2026-05-10", none, none, "t", "t"⟩], [], [], [], []⟩) := by
  exact C7_plan_create_checks_day_ownership (fun _ => none) "trip_1" _ "plan_1"
    "2026-01-01T00:00:00.000Z" _ (by rfl) "day_9" "Temple" (by rfl) (by rfl) (by rfl)


/-- Bind evaluation in `Except`. -/
theorem except_ok_bind (a : α) (f : α → Except JsError β) :
    (Except.ok a >>= f) = f a := rfl

/-- Error propagation in `Except`. -/
theorem except_error_bind (e : JsError) (f : α → Except JsError β) :
    ((Except.error e : Except JsError α) >>= f) = .error e := rfl

/-- C8: with a well-formed flight-number query (and a date parameter that
is absent or valid, since the handler validates it first), the lookup
fails 501 when no provider credential is configured — regardless of the
provider — 502 when the provider call itself errors, and 404 when the
provider returns no rows (a missing or empty `data` array). -/
theorem C8_flightLookup_status_codes (rawFlightIata rawDate : String)
    (hiata : flightIataOk (normalizeFlightIata rawFlightIata) = true)
    (hdate : rawDate = "" ∨ ∃ v, asDateOnly rawDate "date" = .ok v) :
    (∀ provider, handleFlightLookup rawFlightIata rawDate none provider
        = .error (.http ⟨501, "AVIATIONSTACK_ACCESS_KEY is not configured"⟩)) ∧
    (∀ key status, handleFlightLookup rawFlightIata rawDate (some key) (.notOk status)
        = .error (.http ⟨502, "Flight provider error: " ++ toString status⟩)) ∧
    (∀ key, handleFlightLookup rawFlightIata rawDate (some key) (.okPayload none)
        = .error (.http ⟨404, "No matching flight found"⟩)) ∧
    (∀ key, handleFlightLookup rawFlightIata rawDate (some key) (.okPayload (some []))
        = .error (.http ⟨404, "No matching flight found"⟩)) := by
  obtain ⟨dv, hstep⟩ : ∃ dv, (if rawDate ≠ "" then asDateOnly rawDate "date" else .ok "")
      = Except.ok dv := by
    rcases hdate with hempty | ⟨v, hv⟩
    · exact ⟨"", by rw [if_neg (by simp [hempty])]⟩
    · by_cases hne : rawDate ≠ ""
      · exact ⟨v, by rw [if_pos hne]; exact hv⟩
      · exact ⟨"", by rw [if_neg hne]⟩
  refine ⟨?_, ?_, ?_, ?_⟩ <;> intro _ <;> try intro _
  all_goals simp [handleFlightLookup, hstep, except_ok_bind, hiata]
  all_goals
    intro hne
    rw [show asDateOnly rawDate "date" = Except.ok dv from by
        rw [if_pos hne] at hstep; exact hstep,
      except_ok_bind]

/-- C8 witness: the specification scenario — a valid flight-number query
with no configured credential returns 501. -/
theorem C8_witness :
    handleFlightLookup "KE123" "2026-04-13" none (.okPayload none)
      = .error (.http ⟨501, "AVIATIONSTACK_ACCESS_KEY is not configured"⟩) := by
  exact (C8_flightLookup_status_codes "KE123" "2026-04-13" (by rfl)
    (Or.inr ⟨"2026-04-13", by rfl⟩)).1 (.okPayload none)

/-- Recognized patch fields of the trip resource. -/
def tripPatchKeys : List String :=
  ["title", "destination", "startDate", "start_date", "endDate", "end_date",
   "currency", "memo", "status"]

/-- Recognized patch fields of each trip-scoped resource. -/
def resourcePatchKeys : ResourceName → List String
  | .days => ["dayNo", "day_no", "date", "title", "note"]
  | .plans => ["dayId", "day_id", "startMin", "start_min", "endMin", "end_min", "place",
      "detail", "mapUrl", "map_url", "food", "transport", "costEstimate", "cost_estimate",
      "sortOrder", "sort_order"]
  | .expenses => ["dayId", "day_id", "item", "amount", "currency", "category", "spentAt",
      "spent_at", "note"]
  | .flights => ["legType", "leg_type", "legOrder", "leg_order", "fromCode", "from_code",
      "fromAirport", "from_airport", "toCode", "to_code", "toAirport", "to_airport",
      "departAt", "depart_at", "arriveAt", "arrive_at", "airline", "flightNo",
      "flight_no", "price", "currency", "note"]
  | .hotels => ["name", "city", "checkInDate", "check_in_date", "checkOutDate",
      "check_out_date", "confirmationNo", "confirmation_no", "totalPrice", "total_price",
      "currency", "note"]

/-- A body with no recognized trip field builds an empty SET list. -/
theorem tripPatchSets_empty (body : JsBody)
    (h : ∀ k ∈ tripPatchKeys, hasOwn body k = false) :
    tripPatchSets body = .ok [] := by
  have h1 := h "title" (by decide)
  have h2 := h "destination" (by decide)
  have h3 := h "startDate" (by decide)
  have h4 := h "start_date" (by decide)
  have h5 := h "endDate" (by decide)
  have h6 := h "end_date" (by decide)
  have h7 := h "currency" (by decide)
  have h8 := h "memo" (by decide)
  have h9 := h "status" (by decide)
  simp [tripPatchSets, hasAnyKey, except_ok_bind, h1, h2, h3, h4, h5, h6, h7, h8, h9]

/-- A body with no recognized field for the resource builds an empty SET
list, for each of the five resources. -/
theorem daySets_empty (body : JsBody)
    (h : ∀ k ∈ resourcePatchKeys .days, hasOwn body k = false) :
    daySets body = .ok [] := by
  have h1 := h "dayNo" (by decide)
  have h2 := h "day_no" (by decide)
  have h3 := h "date" (by decide)
  have h4 := h "title" (by decide)
  have h5 := h "note" (by decide)
  simp [daySets, hasAnyKey, except_ok_bind, h1, h2, h3, h4, h5]

/-- Plans: empty SET list without recognized fields. -/
theorem planSets_empty (body : JsBody)
    (h : ∀ k ∈ resourcePatchKeys .plans, hasOwn body k = false) :
    planSets body = .ok [] := by
  have h1 := h "dayId" (by decide)
  have h2 := h "day_id" (by decide)
  have h3 := h "startMin" (by decide)
  have h4 := h "start_min" (by decide)
  have h5 := h "endMin" (by decide)
  have h6 := h "end_min" (by decide)
  have h7 := h "place" (by decide)
  have h8 := h "detail" (by decide)
  have h9 := h "mapUrl" (by decide)
  have h10 := h "map_url" (by decide)
  have h11 := h "food" (by decide)
  have h12 := h "transport" (by decide)
  have h13 := h "costEstimate" (by decide)
  have h14 := h "cost_estimate" (by decide)
  have h15 := h "sortOrder" (by decide)
  have h16 := h "sort_order" (by decide)
  simp [planSets, hasAnyKey, except_ok_bind, h1, h2, h3, h4, h5, h6, h7, h8, h9, h10, h11, h12, h13,
    h14, h15, h16]

/-- Expenses: empty SET list without recognized fields. -/
theorem expenseSets_empty (parseMs : String → Option Int) (body : JsBody)
    (h : ∀ k ∈ resourcePatchKeys .expenses, hasOwn body k = false) :
    expenseSets parseMs body = .ok [] := by
  have h1 := h "dayId" (by decide)
  have h2 := h "day_id" (by decide)
  have h3 := h "item" (by decide)
  have h4 := h "amount" (by decide)
  have h5 := h "currency" (by decide)
  have h6 := h "category" (by decide)
  have h7 := h "spentAt" (by decide)
  have h8 := h "spent_at" (by decide)
  have h9 := h "note" (by decide)
  simp [expenseSets, hasAnyKey, except_ok_bind, h1, h2, h3, h4, h5, h6, h7, h8, h9]

/-- Flights: empty SET list without recognized fields. -/
theorem flightSets_empty (parseMs : String → Option Int) (body : JsBody)
    (h : ∀ k ∈ resourcePatchKeys .flights, hasOwn body k = false) :
    flightSets parseMs body = .ok [] := by
  have h1 := h "legType" (by decide)
  have h2 := h "leg_type" (by decide)
  have h3 := h "legOrder" (by decide)
  have h4 := h "leg_order" (by decide)
  have h5 := h "fromCode" (by decide)
  have h6 := h "from_code" (by decide)
  have h7 := h "fromAirport" (by decide)
  have h8 := h "from_airport" (by decide)
  have h9 := h "toCode" (by decide)
  have h10 := h "to_code" (by decide)
  have h11 := h "toAirport" (by decide)
  have h12 := h "to_airport" (by decide)
  have h13 := h "departAt" (by decide)
  have h14 := h "depart_at" (by decide)
  have h15 := h "arriveAt" (by decide)
  have h16 := h "arrive_at" (by decide)
  have h17 := h "airline" (by decide)
  have h18 := h "flightNo" (by decide)
  have h19 := h "flight_no" (by decide)
  have h20 := h "price" (by decide)
  have h21 := h "currency" (by decide)
  have h22 := h "note" (by decide)
  simp [flightSets, hasAnyKey, except_ok_bind, h1, h2, h3, h4, h5, h6, h7, h8, h9, h10,
    h11, h12, h13, h14, h15, h16, h17, h18, h19, h20, h21, h22]

/-- Hotels: empty SET list without recognized fields. -/
theorem hotelSets_empty (body : JsBody)
    (h : ∀ k ∈ resourcePatchKeys .hotels, hasOwn body k = false) :
    hotelSets body = .ok [] := by
  have h1 := h "name" (by decide)
  have h2 := h "city" (by decide)
  have h3 := h "checkInDate" (by decide)
  have h4 := h "check_in_date" (by decide)
  have h5 := h "checkOutDate" (by decide)
  have h6 := h "check_out_date" (by decide)
  have h7 := h "confirmationNo" (by decide)
  have h8 := h "confirmation_no" (by decide)
  have h9 := h "totalPrice" (by decide)
  have h10 := h "total_price" (by decide)
  have h11 := h "currency" (by decide)
  have h12 := h "note" (by decide)
  simp [hotelSets, hasAnyKey, except_ok_bind, h1, h2, h3, h4, h5, h6, h7, h8, h9, h10, h11, h12]

/-- C6: a patch whose body holds no recognized field for the target —
whether empty or holding only unrecognized keys — fails with the 400
"No fields to update" error and leaves the store untouched; for a trip
this applies once the trip exists (a missing trip is a 404 first). -/
theorem C6_patch_without_recognized_fields_is_400
    (parseMs : String → Option Int) (body : JsBody) (now : String) (db : DB) :
    (∀ tripId, db.trips.any (fun r => r.id = tripId) = true →
      (∀ k ∈ tripPatchKeys, hasOwn body k = false) →
      handleTripPatch tripId body now db = (.error (err400 "No fields to update"), db)) ∧
    (∀ resource id, (∀ k ∈ resourcePatchKeys resource, hasOwn body k = false) →
      handleResourcePatch parseMs resource id body now db
        = (.error (err400 "No fields to update"), db)) := by
  constructor
  · intro tripId htrip hkeys
    unfold handleTripPatch
    rw [M.bind_ok_elim _ _ () db db (mustTripExist_ok tripId db htrip)]
    rw [tripPatchSets_empty body hkeys]
    simp
  · intro resource id hkeys
    cases resource with
    | days =>
        unfold handleResourcePatch
        rw [daySets_empty body hkeys]
        simp
    | plans =>
        unfold handleResourcePatch
        rw [planSets_empty body hkeys]
        simp
    | expenses =>
        unfold handleResourcePatch
        rw [expenseSets_empty parseMs body hkeys]
        simp
    | flights =>
        unfold handleResourcePatch
        rw [flightSets_empty parseMs body hkeys]
        simp
    | hotels =>
        unfold handleResourcePatch
        rw [hotelSets_empty body hkeys]
        simp

/-- C6 witness: a patch holding only an unrecognized key fails with 400 on
an existing trip and on a plan item. -/
theorem C6_witness :
    handleTripPatch "trip_1" [("bogus", .str "x")] "t2"
      ⟨[⟨"trip_1", "A", "A", "2026-04-10", "2026-04-12", "JPY", none, "draft", "t", "t"⟩],
       [], [], [], [], []⟩
      = (.error (err400 "No fields to update"),
        ⟨[⟨"trip_1", "A", "A", "2026-04-10", "2026-04-12", "JPY", none, "draft", "t", "t"⟩],
         [], [], [], [], []⟩) ∧
    handleResourcePatch (fun _ => none) .plans "plan_1" [("bogus", .str "x")] "t2" emptyDB
      = (.error (err400 "No fields to update"), emptyDB) := by
  constructor
  · exact (C6_patch_without_recognized_fields_is_400 (fun _ => none) [("bogus", .str "x")]
      "t2" _).1 "trip_1" (by rfl) (by decide)
  · exact (C6_patch_without_recognized_fields_is_400 (fun _ => none) [("bogus", .str "x")]
      "t2" emptyDB).2 .plans "plan_1" (by decide)


/-- Absent keys make `valueOf` undefined. -/
theorem valueOf_none (body : JsBody) :
    ∀ keys, (∀ k ∈ keys, hasOwn body k = false) → valueOf body keys = none := by
  intro keys
  induction keys with
  | nil => intro _; rfl
  | cons k rest ih =>
      intro h
      unfold valueOf
      rw [h k (by simp)]
      simp only [Bool.false_eq_true, if_false]
      exact ih (fun k2 hk2 => h k2 (by simp [hk2]))

/-- Fetch of a freshly appended flight row. -/
theorem fetchById_flights_append (db : DB) (newId : String) (row : FlightRow)
    (hfresh : ∀ r ∈ db.flights, r.id ≠ newId) (hrow : row.id = newId) :
    fetchById .flights newId { db with flights := db.flights ++ [row] }
      = (.ok (.flight row), { db with flights := db.flights ++ [row] }) := by
  unfold fetchById
  simp only [M.get_bind]
  have hfilter : (db.flights ++ [row]).filter (fun r => r.id = newId) = [row] := by
    rw [List.filter_append]
    rw [List.filter_eq_nil_iff.mpr (by intro r hr; simpa using hfresh r hr)]
    simp [hrow]
  rw [hfilter]
  rfl

/-- Evaluation of the standalone flight-creation branch at known coercion
results: the inserted row's `leg_order` is the provided value or the
constant 1, and `leg_type` the provided value or "multi". -/
theorem create_flights_eval (parseMs : String → Option Int) (tripId : String)
    (body : JsBody) (newId now : String) (db : DB)
    (htrip : db.trips.any (fun r => r.id = tripId) = true)
    (lt : Option String) (lo : Option Int) (fc : String) (fa : Option String)
    (tc : String) (ta : Option String) (dRaw aRaw da aa al fn : String)
    (pr : Option Int) (cu : Option String) (nt : Option String)
    (hlt : asOptionalString (valueOf body ["legType", "leg_type"]) "legType" = .ok lt)
    (hlo : asOptionalInteger (valueOf body ["legOrder", "leg_order"]) "legOrder" = .ok lo)
    (hfc : asRequiredString (valueOf body ["fromCode", "from_code"]) "fromCode" = .ok fc)
    (hfa : asOptionalString (valueOf body ["fromAirport", "from_airport"]) "fromAirport"
      = .ok fa)
    (htc : asRequiredString (valueOf body ["toCode", "to_code"]) "toCode" = .ok tc)
    (hta : asOptionalString (valueOf body ["toAirport", "to_airport"]) "toAirport" = .ok ta)
    (hdr : asRequiredString (valueOf body ["departAt", "depart_at"]) "departAt" = .ok dRaw)
    (hda : asIsoDateTime parseMs dRaw "departAt" = .ok da)
    (har : asRequiredString (valueOf body ["arriveAt", "arrive_at"]) "arriveAt" = .ok aRaw)
    (haa : asIsoDateTime parseMs aRaw "arriveAt" = .ok aa)
    (hal : asRequiredString (valueOf body ["airline"]) "airline" = .ok al)
    (hfn : asRequiredString (valueOf body ["flightNo", "flight_no"]) "flightNo" = .ok fn)
    (hpr : asOptionalInteger (valueOf body ["price"]) "price" = .ok pr)
    (hcu : asOptionalString (valueOf body ["currency"]) "currency" = .ok cu)
    (hnt : asOptionalString (valueOf body ["note"]) "note" = .ok nt) :
    createTripCollectionItem parseMs tripId .flights body newId now db
      = fetchById .flights newId { db with flights := db.flights ++
          [⟨newId, tripId, lt.getD "multi", lo.getD 1, fc, fa, tc, ta, da, aa, al, fn,
            pr, cu.getD "KRW", nt, now, now⟩] } := by
  unfold createTripCollectionItem
  rw [M.bind_ok_elim _ _ () db db (mustTripExist_ok tripId db htrip)]
  rw [hlt]
  simp only [M.liftE_ok_bind]
  rw [hlo]
  simp only [M.liftE_ok_bind]
  rw [hfc]
  simp only [M.liftE_ok_bind]
  rw [hfa]
  simp only [M.liftE_ok_bind]
  rw [htc]
  simp only [M.liftE_ok_bind]
  rw [hta]
  simp only [M.liftE_ok_bind]
  rw [show (do
      let s ← asRequiredString (valueOf body ["departAt", "depart_at"]) "departAt"
      asIsoDateTime parseMs s "departAt") = Except.ok da from by rw [hdr, except_ok_bind, hda]]
  simp only [M.liftE_ok_bind]
  rw [show (do
      let s ← asRequiredString (valueOf body ["arriveAt", "arrive_at"]) "arriveAt"
      asIsoDateTime parseMs s "arriveAt") = Except.ok aa from by rw [har, except_ok_bind, haa]]
  simp only [M.liftE_ok_bind]
  rw [hal]
  simp only [M.liftE_ok_bind]
  rw [hfn]
  simp only [M.liftE_ok_bind]
  rw [hpr]
  simp only [M.liftE_ok_bind]
  rw [hcu]
  simp only [M.liftE_ok_bind]
  rw [hnt]
  simp only [M.liftE_ok_bind, M.get_bind, M.set_bind]

/-- Successful required-string coercions do not depend on the label. -/
theorem asRequiredString_ok_label (v : Option JsVal) (l1 l2 w : String)
    (h : asRequiredString v l1 = .ok w) : asRequiredString v l2 = .ok w := by
  unfold asRequiredString at *
  cases v with
  | none => exact absurd h (by simp)
  | some jv =>
      cases jv with
      | str s =>
          simp only at h ⊢
          split at h <;> simp_all
      | nullV => exact absurd h (by simp)
      | boolV b => exact absurd h (by simp)
      | int n => exact absurd h (by simp)
      | numNonInt => exact absurd h (by simp)
      | arr xs => exact absurd h (by simp)
      | obj fs => exact absurd h (by simp)

/-- Successful optional-string coercions do not depend on the label. -/
theorem asOptionalString_ok_label (v : Option JsVal) (l1 l2 : String) (w : Option String)
    (h : asOptionalString v l1 = .ok w) : asOptionalString v l2 = .ok w := by
  unfold asOptionalString at *
  cases v with
  | none => exact h
  | some jv =>
      cases jv with
      | str s => simp only at h ⊢; split at h <;> simp_all
      | nullV => exact h
      | boolV b => exact absurd h (by simp)
      | int n => exact absurd h (by simp)
      | numNonInt => exact absurd h (by simp)
      | arr xs => exact absurd h (by simp)
      | obj fs => exact absurd h (by simp)

/-- Successful required-integer coercions do not depend on the label. -/
theorem asRequiredInteger_ok_label (v : Option JsVal) (l1 l2 : String) (n : Int)
    (h : asRequiredInteger v l1 = .ok n) : asRequiredInteger v l2 = .ok n := by
  unfold asRequiredInteger at *
  cases v with
  | none => exact absurd h (by simp)
  | some jv =>
      cases jv with
      | str s =>
          simp only at h ⊢
          by_cases htr : jsTrim s ≠ ""
          · rw [if_pos htr] at h ⊢
            cases hp : jsParseInt s <;> simp_all
          · rw [if_neg htr] at h
            exact absurd h (by simp)
      | int m => simpa using h
      | nullV => exact absurd h (by simp)
      | boolV b => exact absurd h (by simp)
      | numNonInt => exact absurd h (by simp)
      | arr xs => exact absurd h (by simp)
      | obj fs => exact absurd h (by simp)

/-- Successful optional-integer coercions do not depend on the label. -/
theorem asOptionalInteger_ok_label (v : Option JsVal) (l1 l2 : String) (w : Option Int)
    (h : asOptionalInteger v l1 = .ok w) : asOptionalInteger v l2 = .ok w := by
  cases v with
  | none => exact h
  | some jv =>
      cases jv with
      | nullV => exact h
      | str s =>
          by_cases hs : s = ""
          · subst hs; exact h
          · have hred : ∀ l : String, asOptionalInteger (some (.str s)) l
                = (asRequiredInteger (some (.str s)) l).map some := by
              intro l
              unfold asOptionalInteger
              split <;> simp_all
            rw [hred l1] at h
            rw [hred l2]
            cases hreq : asRequiredInteger (some (.str s)) l1 with
            | error e => rw [hreq] at h; exact absurd h (by simp [Except.map])
            | ok m =>
                rw [hreq] at h
                rw [asRequiredInteger_ok_label _ _ l2 _ hreq]
                exact h
      | int m =>
          have hred : ∀ l : String, asOptionalInteger (some (.int m)) l
              = (asRequiredInteger (some (.int m)) l).map some := fun l => rfl
          rw [hred l1] at h
          rw [hred l2]
          simpa using h
      | boolV b =>
          have hred : ∀ l : String, asOptionalInteger (some (.boolV b)) l
              = (asRequiredInteger (some (.boolV b)) l).map some := fun l => rfl
          rw [hred l1] at h
          exact absurd h (by simp [asRequiredInteger, Except.map])
      | numNonInt =>
          have hred : ∀ l : String, asOptionalInteger (some .numNonInt) l
              = (asRequiredInteger (some .numNonInt) l).map some := fun l => rfl
          rw [hred l1] at h
          exact absurd h (by simp [asRequiredInteger, Except.map])
      | arr xs =>
          have hred : ∀ l : String, asOptionalInteger (some (.arr xs)) l
              = (asRequiredInteger (some (.arr xs)) l).map some := fun l => rfl
          rw [hred l1] at h
          exact absurd h (by simp [asRequiredInteger, Except.map])
      | obj fs =>
          have hred : ∀ l : String, asOptionalInteger (some (.obj fs)) l
              = (asRequiredInteger (some (.obj fs)) l).map some := fun l => rfl
          rw [hred l1] at h
          exact absurd h (by simp [asRequiredInteger, Except.map])

/-- Successful datetime coercions do not depend on the label. -/
theorem asIsoDateTime_ok_label (parseMs : String → Option Int) (v : String)
    (l1 l2 w : String) (h : asIsoDateTime parseMs v l1 = .ok w) :
    asIsoDateTime parseMs v l2 = .ok w := by
  unfold asIsoDateTime at *
  cases hp : parseMs v with
  | none => simp_all
  | some ms => simp_all

/-- Map evaluation in `Except`. -/
theorem except_map_ok (f : α → β) (a : α) :
    Except.map f (Except.ok a : Except JsError α) = .ok (f a) := rfl

/-- Store with one trip already holding one flight at leg order 1, for
exercising the standalone leg-order default. -/
def c9db : DB :=
  ⟨[⟨"trip_1", "A", "A", "2026-04-10", "2026-04-12", "JPY", none, "draft", "t", "t"⟩],
   [], [], [],
   [⟨"flt_1", "trip_1", "multi", 1, "ICN", none, "KIX", none,
      "2026-04-10T00:00:00.000Z", "2026-04-10T02:00:00.000Z", "KE", "KE723", none,
      "KRW", none, "t", "t"⟩], []⟩

/-- A flight-creation body with no leg order and no leg type. -/
def c9body : JsBody :=
  [("fromCode", .str "KIX"), ("toCode", .str "ICN"),
   ("departAt", .str "2026-04-12T10:00:00.000Z"),
   ("arriveAt", .str "2026-04-12T12:00:00.000Z"),
   ("airline", .str "KE"), ("flightNo", .str "KE724")]

set_option maxRecDepth 8000 in
/-- C9 counterexample: on a trip that already has one flight, a standalone
flight created without an explicit leg order is stored with leg order 1 —
the constant default — not 2, the next position in the trip's flight
sequence. -/
theorem C9_counterexample_standalone_default_not_sequential :
    (∃ db2, createTripCollectionItem (fun _ => some 0) "trip_1" .flights c9body "flt_2"
        "t2" c9db
      = (.ok (.flight ⟨"flt_2", "trip_1", "multi", 1, "KIX", none, "ICN", none,
          "1970-01-01T00:00:00.000Z", "1970-01-01T00:00:00.000Z", "KE", "KE724", none,
          "KRW", none, "t2", "t2"⟩), db2)) ∧
    (c9db.flights.filter (fun r => r.trip_id = "trip_1")).length = 1 ∧
    (1 : Int) ≠ 1 + 1 := by
  refine ⟨⟨_, by rfl⟩, by decide, by decide⟩

/-- C9 (amended): a flight created without an explicit leg order defaults
`leg_type` to "multi" in both creation paths, but the leg-order default
differs: a flight nested at position `idx` of a trip-creation request
defaults to `idx + 1` (sequential), while a standalone flight created
under a trip always defaults to the constant 1, regardless of the
flights the trip already has. -/
theorem C9_flight_leg_defaults (parseMs : String → Option Int) (tripId : String)
    (body : JsBody) (newId now : String) (db : DB)
    (fc : String) (fa : Option String) (tc : String) (ta : Option String)
    (dRaw aRaw da aa al fn : String) (pr : Option Int) (cu : Option String)
    (nt : Option String)
    (hfc : asRequiredString (valueOf body ["fromCode", "from_code"]) "fromCode" = .ok fc)
    (hfa : asOptionalString (valueOf body ["fromAirport", "from_airport"]) "fromAirport"
      = .ok fa)
    (htc : asRequiredString (valueOf body ["toCode", "to_code"]) "toCode" = .ok tc)
    (hta : asOptionalString (valueOf body ["toAirport", "to_airport"]) "toAirport" = .ok ta)
    (hdr : asRequiredString (valueOf body ["departAt", "depart_at"]) "departAt" = .ok dRaw)
    (hda : asIsoDateTime parseMs dRaw "departAt" = .ok da)
    (har : asRequiredString (valueOf body ["arriveAt", "arrive_at"]) "arriveAt" = .ok aRaw)
    (haa : asIsoDateTime parseMs aRaw "arriveAt" = .ok aa)
    (hal : asRequiredString (valueOf body ["airline"]) "airline" = .ok al)
    (hfn : asRequiredString (valueOf body ["flightNo", "flight_no"]) "flightNo" = .ok fn)
    (hpr : asOptionalInteger (valueOf body ["price"]) "price" = .ok pr)
    (hcu : asOptionalString (valueOf body ["currency"]) "currency" = .ok cu)
    (hnt : asOptionalString (valueOf body ["note"]) "note" = .ok nt)
    (hnoLegOrder : ∀ k ∈ ["legOrder", "leg_order"], hasOwn body k = false)
    (hnoLegType : ∀ k ∈ ["legType", "leg_type"], hasOwn body k = false) :
    (∀ currency gen idx rest tl,
      buildFlightRows parseMs currency tripId gen now (idx + 1) rest = .ok tl →
      buildFlightRows parseMs currency tripId gen now idx (body :: rest)
        = .ok (⟨gen idx, tripId, "multi", (idx : Int) + 1, fc, fa, tc, ta, da, aa, al,
            fn, pr, cu.getD currency, nt, now, now⟩ :: tl)) ∧
    ((db.trips.any (fun r => r.id = tripId) = true) →
      (∀ r ∈ db.flights, r.id ≠ newId) →
      createTripCollectionItem parseMs tripId .flights body newId now db
        = (.ok (.flight ⟨newId, tripId, "multi", 1, fc, fa, tc, ta, da, aa, al, fn, pr,
            cu.getD "KRW", nt, now, now⟩),
           { db with flights := db.flights ++
             [⟨newId, tripId, "multi", 1, fc, fa, tc, ta, da, aa, al, fn, pr,
               cu.getD "KRW", nt, now, now⟩] })) := by
  have hloNone : valueOf body ["legOrder", "leg_order"] = none :=
    valueOf_none body ["legOrder", "leg_order"] hnoLegOrder
  have hltNone : valueOf body ["legType", "leg_type"] = none :=
    valueOf_none body ["legType", "leg_type"] hnoLegType
  constructor
  · intro currency gen idx rest tl htl
    simp only [buildFlightRows]
    rw [show (asOptionalString (valueOf body ["legType", "leg_type"])
        ("flights[" ++ toString idx ++ "]." ++ "legType")).map (fun x => x.getD "multi")
        = Except.ok "multi" from by rw [hltNone]; rfl]
    simp only [except_ok_bind]
    rw [show (asOptionalInteger (valueOf body ["legOrder", "leg_order"])
        ("flights[" ++ toString idx ++ "]." ++ "legOrder")).map
          (fun x => x.getD ((idx : Int) + 1))
        = Except.ok ((idx : Int) + 1) from by rw [hloNone]; rfl]
    simp only [except_ok_bind]
    rw [asRequiredString_ok_label _ _ _ _ hfc]
    simp only [except_ok_bind]
    rw [asOptionalString_ok_label _ _ _ _ hfa]
    simp only [except_ok_bind]
    rw [asRequiredString_ok_label _ _ _ _ htc]
    simp only [except_ok_bind]
    rw [asOptionalString_ok_label _ _ _ _ hta]
    simp only [except_ok_bind]
    rw [asRequiredString_ok_label _ _ _ _ hdr]
    simp only [except_ok_bind]
    rw [asIsoDateTime_ok_label _ _ _ _ _ hda]
    simp only [except_ok_bind]
    rw [asRequiredString_ok_label _ _ _ _ har]
    simp only [except_ok_bind]
    rw [asIsoDateTime_ok_label _ _ _ _ _ haa]
    simp only [except_ok_bind]
    rw [asRequiredString_ok_label _ _ _ _ hal]
    simp only [except_ok_bind]
    rw [asRequiredString_ok_label _ _ _ _ hfn]
    simp only [except_ok_bind]
    rw [asOptionalInteger_ok_label _ _ _ _ hpr]
    simp only [except_ok_bind]
    rw [asOptionalString_ok_label _ _ _ _ hcu]
    simp only [except_map_ok, except_ok_bind]
    rw [asOptionalString_ok_label _ _ _ _ hnt]
    simp only [except_ok_bind]
    rw [htl]
    simp only [except_ok_bind]
  · intro htrip hfresh
    have hlo : asOptionalInteger (valueOf body ["legOrder", "leg_order"]) "legOrder"
        = .ok none := by rw [hloNone]; rfl
    have hlt : asOptionalString (valueOf body ["legType", "leg_type"]) "legType"
        = .ok none := by rw [hltNone]; rfl
    rw [create_flights_eval parseMs tripId body newId now db htrip none none fc fa tc ta
      dRaw aRaw da aa al fn pr cu nt hlt hlo hfc hfa htc hta hdr hda har haa hal hfn
      hpr hcu hnt]
    exact fetchById_flights_append db newId _ hfresh rfl

set_option maxRecDepth 8000 in
/-- C9 witness: the concrete standalone creation stores leg order 1 and
leg type "multi". -/
theorem C9_witness :
    createTripCollectionItem (fun _ => some 0) "trip_1" .flights c9body "flt_2" "t2" c9db
      = (.ok (.flight ⟨"flt_2", "trip_1", "multi", 1, "KIX", none, "ICN", none,
          "1970-01-01T00:00:00.000Z", "1970-01-01T00:00:00.000Z", "KE", "KE724", none,
          "KRW", none, "t2", "t2"⟩),
         { c9db with flights := c9db.flights ++
           [⟨"flt_2", "trip_1", "multi", 1, "KIX", none, "ICN", none,
             "1970-01-01T00:00:00.000Z", "1970-01-01T00:00:00.000Z", "KE", "KE724", none,
             "KRW", none, "t2", "t2"⟩] }) := by
  exact (C9_flight_leg_defaults (fun _ => some 0) "trip_1" c9body "flt_2" "t2" c9db
    "KIX" none "ICN" none "2026-04-12T10:00:00.000Z" "2026-04-12T12:00:00.000Z"
    "1970-01-01T00:00:00.000Z" "1970-01-01T00:00:00.000Z" "KE" "KE724" none none none
    (by rfl) (by rfl) (by rfl) (by rfl) (by rfl) (by rfl) (by rfl) (by rfl) (by rfl)
    (by rfl) (by rfl) (by rfl) (by rfl) (by decide) (by decide)).2 (by rfl) (by decide)

/-- Shape of a conditional single-setter SET component. -/
theorem setComponent_shape {α F : Type} (c : Prop) [Decidable c]
    (coe : Except JsError α) (g : α → F) (l : List F)
    (h : (if c then coe.map (fun v => [g v]) else .ok []) = .ok l) :
    l = [] ∨ ∃ v, l = [g v] := by
  split at h
  · cases coe with
    | error e => exact absurd h (by simp [Except.map])
    | ok a =>
        right
        exact ⟨a, by simpa [Except.map] using h.symm⟩
  · left
    simpa using h.symm

/-- Shape of a conditional two-step single-setter SET component. -/
theorem setComponent2_shape {α β F : Type} (c : Prop) [Decidable c]
    (coe1 : Except JsError α) (k : α → Except JsError β) (g : β → F) (l : List F)
    (h : (if c then do
            let raw ← coe1
            (k raw).map (fun v => [g v])
          else .ok []) = .ok l) :
    l = [] ∨ ∃ v, l = [g v] := by
  split at h
  · cases coe1 with
    | error e => exact absurd h (by simp [except_error_bind])
    | ok a =>
        rw [except_ok_bind] at h
        cases hk : k a with
        | error e => rw [hk] at h; exact absurd h (by simp [Except.map])
        | ok b =>
            rw [hk] at h
            right
            exact ⟨b, by simpa [Except.map] using h.symm⟩
  · left
    simpa using h.symm

/-- Inversion of the plan SET construction when a day id is supplied: the
day-id assignment is first, and every other built assignment leaves both
`day_id` and `id` untouched. -/
theorem planSets_day_inversion (body : JsBody) (v : String) (us : List (PlanRow → PlanRow))
    (hk : hasAnyKey body ["dayId", "day_id"] = true)
    (hv : asRequiredString (valueOf body ["dayId", "day_id"]) "dayId" = .ok v)
    (h : planSets body = .ok us) :
    ∃ rest, us = (fun r : PlanRow => { r with day_id := v }) :: rest ∧
      ∀ u ∈ rest, ∀ r, (u r).day_id = r.day_id ∧ (u r).id = r.id := by
  unfold planSets at h
  rw [if_pos hk, hv, except_map_ok, except_ok_bind] at h
  cases h2 : (if hasAnyKey body ["startMin", "start_min"] then
      (asOptionalInteger (valueOf body ["startMin", "start_min"]) "startMin").map
        (fun v => [fun r : PlanRow => { r with start_min := v }]) else .ok []) with
  | error e => rw [h2] at h; exact absurd h (by simp [except_error_bind])
  | ok l2 =>
  rw [h2, except_ok_bind] at h
  cases h3 : (if hasAnyKey body ["endMin", "end_min"] then
      (asOptionalInteger (valueOf body ["endMin", "end_min"]) "endMin").map
        (fun v => [fun r : PlanRow => { r with end_min := v }]) else .ok []) with
  | error e => rw [h3] at h; exact absurd h (by simp [except_error_bind])
  | ok l3 =>
  rw [h3, except_ok_bind] at h
  cases h4 : (if hasAnyKey body ["place"] then
      (asRequiredString (valueOf body ["place"]) "place").map
        (fun v => [fun r : PlanRow => { r with place := v }]) else .ok []) with
  | error e => rw [h4] at h; exact absurd h (by simp [except_error_bind])
  | ok l4 =>
  rw [h4, except_ok_bind] at h
  cases h5 : (if hasAnyKey body ["detail"] then
      (asOptionalString (valueOf body ["detail"]) "detail").map
        (fun v => [fun r : PlanRow => { r with detail := v }]) else .ok []) with
  | error e => rw [h5] at h; exact absurd h (by simp [except_error_bind])
  | ok l5 =>
  rw [h5, except_ok_bind] at h
  cases h6 : (if hasAnyKey body ["mapUrl", "map_url"] then
      (asOptionalString (valueOf body ["mapUrl", "map_url"]) "mapUrl").map
        (fun v => [fun r : PlanRow => { r with map_url := v }]) else .ok []) with
  | error e => rw [h6] at h; exact absurd h (by simp [except_error_bind])
  | ok l6 =>
  rw [h6, except_ok_bind] at h
  cases h7 : (if hasAnyKey body ["food"] then
      (asOptionalString (valueOf body ["food"]) "food").map
        (fun v => [fun r : PlanRow => { r with food := v }]) else .ok []) with
  | error e => rw [h7] at h; exact absurd h (by simp [except_error_bind])
  | ok l7 =>
  rw [h7, except_ok_bind] at h
  cases h8 : (if hasAnyKey body ["transport"] then
      (asOptionalString (valueOf body ["transport"]) "transport").map
        (fun v => [fun r : PlanRow => { r with transport := v }]) else .ok []) with
  | error e => rw [h8] at h; exact absurd h (by simp [except_error_bind])
  | ok l8 =>
  rw [h8, except_ok_bind] at h
  cases h9 : (if hasAnyKey body ["costEstimate", "cost_estimate"] then
      (asOptionalInteger (valueOf body ["costEstimate", "cost_estimate"]) "costEstimate").map
        (fun v => [fun r : PlanRow => { r with cost_estimate := v }]) else .ok []) with
  | error e => rw [h9] at h; exact absurd h (by simp [except_error_bind])
  | ok l9 =>
  rw [h9, except_ok_bind] at h
  cases h10 : (if hasAnyKey body ["sortOrder", "sort_order"] then
      (asRequiredInteger (valueOf body ["sortOrder", "sort_order"]) "sortOrder").map
        (fun v => [fun r : PlanRow => { r with sort_order := v }]) else .ok []) with
  | error e => rw [h10] at h; exact absurd h (by simp [except_error_bind])
  | ok l10 =>
  rw [h10, except_ok_bind] at h
  simp only [Except.ok.injEq] at h
  have p2 : ∀ u ∈ l2, ∀ r : PlanRow, (u r).day_id = r.day_id ∧ (u r).id = r.id := by
    rcases setComponent_shape _ _ _ _ h2 with rfl | ⟨w, rfl⟩
    · intro u hu; exact absurd hu (by simp)
    · intro u hu r
      rw [List.mem_singleton] at hu
      subst hu
      exact ⟨rfl, rfl⟩
  have p3 : ∀ u ∈ l3, ∀ r : PlanRow, (u r).day_id = r.day_id ∧ (u r).id = r.id := by
    rcases setComponent_shape _ _ _ _ h3 with rfl | ⟨w, rfl⟩
    · intro u hu; exact absurd hu (by simp)
    · intro u hu r
      rw [List.mem_singleton] at hu
      subst hu
      exact ⟨rfl, rfl⟩
  have p4 : ∀ u ∈ l4, ∀ r : PlanRow, (u r).day_id = r.day_id ∧ (u r).id = r.id := by
    rcases setComponent_shape _ _ _ _ h4 with rfl | ⟨w, rfl⟩
    · intro u hu; exact absurd hu (by simp)
    · intro u hu r
      rw [List.mem_singleton] at hu
      subst hu
      exact ⟨rfl, rfl⟩
  have p5 : ∀ u ∈ l5, ∀ r : PlanRow, (u r).day_id = r.day_id ∧ (u r).id = r.id := by
    rcases setComponent_shape _ _ _ _ h5 with rfl | ⟨w, rfl⟩
    · intro u hu; exact absurd hu (by simp)
    · intro u hu r
      rw [List.mem_singleton] at hu
      subst hu
      exact ⟨rfl, rfl⟩
  have p6 : ∀ u ∈ l6, ∀ r : PlanRow, (u r).day_id = r.day_id ∧ (u r).id = r.id := by
    rcases setComponent_shape _ _ _ _ h6 with rfl | ⟨w, rfl⟩
    · intro u hu; exact absurd hu (by simp)
    · intro u hu r
      rw [List.mem_singleton] at hu
      subst hu
      exact ⟨rfl, rfl⟩
  have p7 : ∀ u ∈ l7, ∀ r : PlanRow, (u r).day_id = r.day_id ∧ (u r).id = r.id := by
    rcases setComponent_shape _ _ _ _ h7 with rfl | ⟨w, rfl⟩
    · intro u hu; exact absurd hu (by simp)
    · intro u hu r
      rw [List.mem_singleton] at hu
      subst hu
      exact ⟨rfl, rfl⟩
  have p8 : ∀ u ∈ l8, ∀ r : PlanRow, (u r).day_id = r.day_id ∧ (u r).id = r.id := by
    rcases setComponent_shape _ _ _ _ h8 with rfl | ⟨w, rfl⟩
    · intro u hu; exact absurd hu (by simp)
    · intro u hu r
      rw [List.mem_singleton] at hu
      subst hu
      exact ⟨rfl, rfl⟩
  have p9 : ∀ u ∈ l9, ∀ r : PlanRow, (u r).day_id = r.day_id ∧ (u r).id = r.id := by
    rcases setComponent_shape _ _ _ _ h9 with rfl | ⟨w, rfl⟩
    · intro u hu; exact absurd hu (by simp)
    · intro u hu r
      rw [List.mem_singleton] at hu
      subst hu
      exact ⟨rfl, rfl⟩
  have p10 : ∀ u ∈ l10, ∀ r : PlanRow, (u r).day_id = r.day_id ∧ (u r).id = r.id := by
    rcases setComponent_shape _ _ _ _ h10 with rfl | ⟨w, rfl⟩
    · intro u hu; exact absurd hu (by simp)
    · intro u hu r
      rw [List.mem_singleton] at hu
      subst hu
      exact ⟨rfl, rfl⟩
  refine ⟨l2 ++ l3 ++ l4 ++ l5 ++ l6 ++ l7 ++ l8 ++ l9 ++ l10, ?_, ?_⟩
  · rw [← h]
    simp [List.append_assoc]
  · intro u hu r
    simp only [List.mem_append] at hu
    rcases hu with ((((((((h | h) | h) | h) | h) | h) | h) | h) | h)
    · exact p2 u h r
    · exact p3 u h r
    · exact p4 u h r
    · exact p5 u h r
    · exact p6 u h r
    · exact p7 u h r
    · exact p8 u h r
    · exact p9 u h r
    · exact p10 u h r

/-- Inversion of the expense SET construction when a day id is supplied: the
day-id assignment is first, and every other built assignment leaves both
`day_id` and `id` untouched. -/
theorem expenseSets_day_inversion (parseMs : String → Option Int) (body : JsBody)
    (v : Option String) (us : List (ExpenseRow → ExpenseRow))
    (hk : hasAnyKey body ["dayId", "day_id"] = true)
    (hv : asOptionalString (valueOf body ["dayId", "day_id"]) "dayId" = .ok v)
    (h : expenseSets parseMs body = .ok us) :
    ∃ rest, us = (fun r : ExpenseRow => { r with day_id := v }) :: rest ∧
      ∀ u ∈ rest, ∀ r, (u r).day_id = r.day_id ∧ (u r).id = r.id := by
  unfold expenseSets at h
  rw [if_pos hk, hv, except_map_ok, except_ok_bind] at h
  cases h2 : (if hasAnyKey body ["item"] then
      (asRequiredString (valueOf body ["item"]) "item").map
        (fun v => [fun r : ExpenseRow => { r with item := v }]) else .ok []) with
  | error e => rw [h2] at h; exact absurd h (by simp [except_error_bind])
  | ok l2 =>
  rw [h2, except_ok_bind] at h
  cases h3 : (if hasAnyKey body ["amount"] then
      (asRequiredInteger (valueOf body ["amount"]) "amount").map
        (fun v => [fun r : ExpenseRow => { r with amount := v }]) else .ok []) with
  | error e => rw [h3] at h; exact absurd h (by simp [except_error_bind])
  | ok l3 =>
  rw [h3, except_ok_bind] at h
  cases h4 : (if hasAnyKey body ["currency"] then
      (asRequiredString (valueOf body ["currency"]) "currency").map
        (fun v => [fun r : ExpenseRow => { r with currency := v }]) else .ok []) with
  | error e => rw [h4] at h; exact absurd h (by simp [except_error_bind])
  | ok l4 =>
  rw [h4, except_ok_bind] at h
  cases h5 : (if hasAnyKey body ["category"] then
      (asOptionalString (valueOf body ["category"]) "category").map
        (fun v => [fun r : ExpenseRow => { r with category := v }]) else .ok []) with
  | error e => rw [h5] at h; exact absurd h (by simp [except_error_bind])
  | ok l5 =>
  rw [h5, except_ok_bind] at h
  cases h6 : (if hasAnyKey body ["spentAt", "spent_at"] then
      asRequiredString (valueOf body ["spentAt", "spent_at"]) "spentAt" >>= fun raw =>
      (asIsoDateTime parseMs raw "spentAt").map
        (fun v => [fun r : ExpenseRow => { r with spent_at := v }]) else .ok []) with
  | error e => rw [h6] at h; exact absurd h (by simp [except_error_bind])
  | ok l6 =>
  rw [h6, except_ok_bind] at h
  cases h7 : (if hasAnyKey body ["note"] then
      (asOptionalString (valueOf body ["note"]) "note").map
        (fun v => [fun r : ExpenseRow => { r with note := v }]) else .ok []) with
  | error e => rw [h7] at h; exact absurd h (by simp [except_error_bind])
  | ok l7 =>
  rw [h7, except_ok_bind] at h
  simp only [Except.ok.injEq] at h
  have p2 : ∀ u ∈ l2, ∀ r : ExpenseRow, (u r).day_id = r.day_id ∧ (u r).id = r.id := by
    rcases setComponent_shape _ _ _ _ h2 with rfl | ⟨w, rfl⟩
    · intro u hu; exact absurd hu (by simp)
    · intro u hu r
      rw [List.mem_singleton] at hu
      subst hu
      exact ⟨rfl, rfl⟩
  have p3 : ∀ u ∈ l3, ∀ r : ExpenseRow, (u r).day_id = r.day_id ∧ (u r).id = r.id := by
    rcases setComponent_shape _ _ _ _ h3 with rfl | ⟨w, rfl⟩
    · intro u hu; exact absurd hu (by simp)
    · intro u hu r
      rw [List.mem_singleton] at hu
      subst hu
      exact ⟨rfl, rfl⟩
  have p4 : ∀ u ∈ l4, ∀ r : ExpenseRow, (u r).day_id = r.day_id ∧ (u r).id = r.id := by
    rcases setComponent_shape _ _ _ _ h4 with rfl | ⟨w, rfl⟩
    · intro u hu; exact absurd hu (by simp)
    · intro u hu r
      rw [List.mem_singleton] at hu
      subst hu
      exact ⟨rfl, rfl⟩
  have p5 : ∀ u ∈ l5, ∀ r : ExpenseRow, (u r).day_id = r.day_id ∧ (u r).id = r.id := by
    rcases setComponent_shape _ _ _ _ h5 with rfl | ⟨w, rfl⟩
    · intro u hu; exact absurd hu (by simp)
    · intro u hu r
      rw [List.mem_singleton] at hu
      subst hu
      exact ⟨rfl, rfl⟩
  have p6 : ∀ u ∈ l6, ∀ r : ExpenseRow, (u r).day_id = r.day_id ∧ (u r).id = r.id := by
    rcases setComponent2_shape _ _ _ _ _ h6 with rfl | ⟨w, rfl⟩
    · intro u hu; exact absurd hu (by simp)
    · intro u hu r
      rw [List.mem_singleton] at hu
      subst hu
      exact ⟨rfl, rfl⟩
  have p7 : ∀ u ∈ l7, ∀ r : ExpenseRow, (u r).day_id = r.day_id ∧ (u r).id = r.id := by
    rcases setComponent_shape _ _ _ _ h7 with rfl | ⟨w, rfl⟩
    · intro u hu; exact absurd hu (by simp)
    · intro u hu r
      rw [List.mem_singleton] at hu
      subst hu
      exact ⟨rfl, rfl⟩
  refine ⟨l2 ++ l3 ++ l4 ++ l5 ++ l6 ++ l7, ?_, ?_⟩
  · rw [← h]
    simp [List.append_assoc]
  · intro u hu r
    simp only [List.mem_append] at hu
    rcases hu with (((((h | h) | h) | h) | h) | h)
    · exact p2 u h r
    · exact p3 u h r
    · exact p4 u h r
    · exact p5 u h r
    · exact p6 u h r
    · exact p7 u h r

/-- Folding a list of updaters each of which preserves a projection
preserves that projection. -/
theorem applySets_preserve {α β : Type} (p : α → β) (us : List (α → α))
    (h : ∀ u ∈ us, ∀ r, p (u r) = p r) (r : α) : p (applySets us r) = p r := by
  induction us generalizing r with
  | nil => rfl
  | cons u us ih =>
      have hstep : applySets (u :: us) r = applySets us (u r) := rfl
      rw [hstep, ih (fun u hu => h u (List.mem_cons_of_mem _ hu)),
        h u (List.mem_cons_self u us)]

/-- Updating the rows matching an id and then filtering for that id is the
same as filtering first and updating, when the update preserves the id. -/
theorem filter_map_update {α : Type} (l : List α) (p : α → String) (id : String)
    (f : α → α) (hf : ∀ r, p (f r) = p r) :
    (l.map (fun r => if p r = id then f r else r)).filter (fun r => p r = id)
      = (l.filter (fun r => p r = id)).map f := by
  induction l with
  | nil => rfl
  | cons a l ih =>
      by_cases h : p a = id
      · simp [h, hf, ih]
      · simp [h, ih]

/-- Plan row attached to day `d1` of trip `t1`, target of the C10 patch. -/
def c10plan : PlanRow :=
  { id := "x1", trip_id := "t1", day_id := "d1", start_min := none, end_min := none,
    place := "Temple", detail := none, map_url := none, food := none, transport := none,
    cost_estimate := none, sort_order := 1,
    created_at := "2025-01-01T00:00:00.000Z", updated_at := "2025-01-01T00:00:00.000Z" }

/-- Expense row attached to day `d1` of trip `t1`, target of the C10 patch. -/
def c10expense : ExpenseRow :=
  { id := "x1", trip_id := "t1", day_id := some "d1", item := "Tickets", amount := 500,
    currency := "JPY", category := none, spent_at := "2025-01-01T00:00:00.000Z",
    note := none,
    created_at := "2025-01-01T00:00:00.000Z", updated_at := "2025-01-01T00:00:00.000Z" }

/-- Store with two days on two different trips: `d1` belongs to `t1` (the
patched items' trip) while `d2` belongs to the unrelated trip `t2`. -/
def c10db : DB :=
  { trips := [],
    days := [
      { id := "d1", trip_id := "t1", day_no := 1, date := "2025-04-01", title := none,
        note := none, created_at := "2025-01-01T00:00:00.000Z",
        updated_at := "2025-01-01T00:00:00.000Z" },
      { id := "d2", trip_id := "t2", day_no := 1, date := "2025-05-01", title := none,
        note := none, created_at := "2025-01-01T00:00:00.000Z",
        updated_at := "2025-01-01T00:00:00.000Z" }],
    plans := [c10plan],
    expenses := [c10expense],
    flights := [], hotels := [] }

/-- Patch body re-pointing an item at day `d2` (a day of trip `t2`). -/
def c10body : JsBody := [("day_id", JsVal.str "d2")]

/-- C10: a PATCH on a plan or an expense that supplies a day id succeeds
and stores that day id verbatim, for an arbitrary store state: the handler
never consults the `days` table, so the referenced day may belong to a
different trip than the item, or to no trip at all.  (Creation, in
contrast, runs `ensureDayBelongsToTrip`.) -/
theorem C10_patch_day_id_unchecked (parseMs : String → Option Int)
    (body : JsBody) (id now : String) (db : DB)
    (hk : hasAnyKey body ["dayId", "day_id"] = true) :
    (∀ (v : String) (us : List (PlanRow → PlanRow)) (r0 : PlanRow) (tl : List PlanRow),
      asRequiredString (valueOf body ["dayId", "day_id"]) "dayId" = .ok v →
      planSets body = .ok us →
      db.plans.filter (fun r => r.id = id) = r0 :: tl →
      ∃ r' : PlanRow,
        (handleResourcePatch parseMs .plans id body now db).1 = .ok (.plan r') ∧
        r'.day_id = v) ∧
    (∀ (v : Option String) (us : List (ExpenseRow → ExpenseRow)) (r0 : ExpenseRow)
        (tl : List ExpenseRow),
      asOptionalString (valueOf body ["dayId", "day_id"]) "dayId" = .ok v →
      expenseSets parseMs body = .ok us →
      db.expenses.filter (fun r => r.id = id) = r0 :: tl →
      ∃ r' : ExpenseRow,
        (handleResourcePatch parseMs .expenses id body now db).1 = .ok (.expense r') ∧
        r'.day_id = v) := by
  constructor
  · intro v us r0 tl hv hs hr
    obtain ⟨rest, hus, hpres⟩ := planSets_day_inversion body v us hk hv hs
    have hid : ∀ u ∈ us, ∀ r : PlanRow, (u r).id = r.id := by
      rw [hus]
      intro u hu r
      rcases List.mem_cons.mp hu with rfl | hu
      · rfl
      · exact (hpres u hu r).2
    have hday : ∀ r : PlanRow, (applySets us r).day_id = v := by
      intro r
      rw [hus]
      have hstep : applySets ((fun r : PlanRow => { r with day_id := v }) :: rest) r
          = applySets rest { r with day_id := v } := rfl
      rw [hstep, applySets_preserve PlanRow.day_id rest (fun u hu r => (hpres u hu r).1)]
    have hf : ∀ r : PlanRow,
        ({ applySets us r with updated_at := now } : PlanRow).id = r.id := by
      intro r
      have h1 : ({ applySets us r with updated_at := now } : PlanRow).id
          = (applySets us r).id := rfl
      rw [h1, applySets_preserve PlanRow.id us hid]
    have hne : us.isEmpty = false := by rw [hus]; rfl
    have h0 : handleResourcePatch parseMs ResourceName.plans id body now
        = (M.liftE (planSets body) >>= fun sets =>
            if sets.isEmpty then M.throw (err400 "No fields to update")
            else M.get >>= fun db =>
              patchApply .plans ((db.plans.filter (fun r => r.id = id)).length)
                (fun db => { db with plans := db.plans.map (fun r =>
                  if r.id = id then { applySets sets r with updated_at := now }
                  else r) }) id) := rfl
    have hpa : ∀ (aff : Nat) (upd : DB → DB),
        patchApply ResourceName.plans aff upd id
        = (M.get >>= fun db => M.set (upd db) >>= fun _ =>
            if aff = 0 then
              M.throw (.http ⟨404, resourceTable ResourceName.plans ++ " item not found"⟩)
            else fetchById ResourceName.plans id) := fun aff upd => rfl
    have hfe : fetchById ResourceName.plans id
        = (M.get >>= fun db =>
            match db.plans.filter (fun r => r.id = id) with
            | r :: _ => M.pure (ItemRow.plan r)
            | [] => M.throw (.http ⟨404, resourceTable ResourceName.plans
                ++ " item not found"⟩)) := rfl
    have heval : handleResourcePatch parseMs ResourceName.plans id body now db
        = (.ok (.plan ({ applySets us r0 with updated_at := now })),
           { db with plans := db.plans.map (fun r =>
             if r.id = id then { applySets us r with updated_at := now } else r) }) := by
      rw [h0]
      rw [M.bind_ok_elim _ _ us db db
        (by show (planSets body, db) = (Except.ok us, db); rw [hs])]
      simp only [hne, Bool.false_eq_true, if_false, M.get_bind]
      rw [hpa, M.get_bind, M.set_bind]
      have haff : ¬ ((db.plans.filter (fun r => r.id = id)).length = 0) := by
        rw [hr]; simp
      rw [if_neg haff, hfe, M.get_bind]
      have hproj : ({ db with plans := db.plans.map (fun r =>
          if r.id = id then { applySets us r with updated_at := now } else r) } : DB).plans
          = db.plans.map (fun r =>
            if r.id = id then { applySets us r with updated_at := now } else r) := rfl
      rw [hproj, filter_map_update db.plans PlanRow.id id
        (fun r => { applySets us r with updated_at := now }) hf, hr, List.map_cons]
      rfl
    refine ⟨{ applySets us r0 with updated_at := now }, ?_, ?_⟩
    · rw [heval]
    · have h1 : ({ applySets us r0 with updated_at := now } : PlanRow).day_id
          = (applySets us r0).day_id := rfl
      rw [h1, hday]
  · intro v us r0 tl hv hs hr
    obtain ⟨rest, hus, hpres⟩ := expenseSets_day_inversion parseMs body v us hk hv hs
    have hid : ∀ u ∈ us, ∀ r : ExpenseRow, (u r).id = r.id := by
      rw [hus]
      intro u hu r
      rcases List.mem_cons.mp hu with rfl | hu
      · rfl
      · exact (hpres u hu r).2
    have hday : ∀ r : ExpenseRow, (applySets us r).day_id = v := by
      intro r
      rw [hus]
      have hstep : applySets ((fun r : ExpenseRow => { r with day_id := v }) :: rest) r
          = applySets rest { r with day_id := v } := rfl
      rw [hstep, applySets_preserve ExpenseRow.day_id rest (fun u hu r => (hpres u hu r).1)]
    have hf : ∀ r : ExpenseRow,
        ({ applySets us r with updated_at := now } : ExpenseRow).id = r.id := by
      intro r
      have h1 : ({ applySets us r with updated_at := now } : ExpenseRow).id
          = (applySets us r).id := rfl
      rw [h1, applySets_preserve ExpenseRow.id us hid]
    have hne : us.isEmpty = false := by rw [hus]; rfl
    have h0 : handleResourcePatch parseMs ResourceName.expenses id body now
        = (M.liftE (expenseSets parseMs body) >>= fun sets =>
            if sets.isEmpty then M.throw (err400 "No fields to update")
            else M.get >>= fun db =>
              patchApply .expenses ((db.expenses.filter (fun r => r.id = id)).length)
                (fun db => { db with expenses := db.expenses.map (fun r =>
                  if r.id = id then { applySets sets r with updated_at := now }
                  else r) }) id) := rfl
    have hpa : ∀ (aff : Nat) (upd : DB → DB),
        patchApply ResourceName.expenses aff upd id
        = (M.get >>= fun db => M.set (upd db) >>= fun _ =>
            if aff = 0 then
              M.throw (.http ⟨404, resourceTable ResourceName.expenses
                ++ " item not found"⟩)
            else fetchById ResourceName.expenses id) := fun aff upd => rfl
    have hfe : fetchById ResourceName.expenses id
        = (M.get >>= fun db =>
            match db.expenses.filter (fun r => r.id = id) with
            | r :: _ => M.pure (ItemRow.expense r)
            | [] => M.throw (.http ⟨404, resourceTable ResourceName.expenses
                ++ " item not found"⟩)) := rfl
    have heval : handleResourcePatch parseMs ResourceName.expenses id body now db
        = (.ok (.expense ({ applySets us r0 with updated_at := now })),
           { db with expenses := db.expenses.map (fun r =>
             if r.id = id then { applySets us r with updated_at := now } else r) }) := by
      rw [h0]
      rw [M.bind_ok_elim _ _ us db db
        (by show (expenseSets parseMs body, db) = (Except.ok us, db); rw [hs])]
      simp only [hne, Bool.false_eq_true, if_false, M.get_bind]
      rw [hpa, M.get_bind, M.set_bind]
      have haff : ¬ ((db.expenses.filter (fun r => r.id = id)).length = 0) := by
        rw [hr]; simp
      rw [if_neg haff, hfe, M.get_bind]
      have hproj : ({ db with expenses := db.expenses.map (fun r =>
          if r.id = id then { applySets us r with updated_at := now } else r) } : DB).expenses
          = db.expenses.map (fun r =>
            if r.id = id then { applySets us r with updated_at := now } else r) := rfl
      rw [hproj, filter_map_update db.expenses ExpenseRow.id id
        (fun r => { applySets us r with updated_at := now }) hf, hr, List.map_cons]
      rfl
    refine ⟨{ applySets us r0 with updated_at := now }, ?_, ?_⟩
    · rw [heval]
    · have h1 : ({ applySets us r0 with updated_at := now } : ExpenseRow).day_id
          = (applySets us r0).day_id := rfl
      rw [h1, hday]

/-- C10 at a concrete store: patching plan `x1` (of trip `t1`) and expense
`x1` (of trip `t1`) with `day_id = "d2"` succeeds even though day `d2`
belongs to trip `t2`. -/
theorem C10_witness :
    (∃ r' : PlanRow,
      (handleResourcePatch (fun _ => none) .plans "x1" c10body
        "2025-06-01T00:00:00.000Z" c10db).1 = .ok (.plan r') ∧ r'.day_id = "d2") ∧
    (∃ r' : ExpenseRow,
      (handleResourcePatch (fun _ => none) .expenses "x1" c10body
        "2025-06-01T00:00:00.000Z" c10db).1 = .ok (.expense r') ∧
        r'.day_id = some "d2") := by
  obtain ⟨hp, he⟩ := C10_patch_day_id_unchecked (fun _ => none) c10body "x1"
    "2025-06-01T00:00:00.000Z" c10db (by rfl)
  exact ⟨hp "d2" [fun r => { r with day_id := "d2" }] c10plan [] (by rfl) (by rfl) (by rfl),
    he (some "d2") [fun r => { r with day_id := some "d2" }] c10expense []
      (by rfl) (by rfl) (by rfl)⟩

/-- Inversion of a successful required-string coercion: the raw value was a
string and the result is its trim, which is nonempty. -/
theorem asRequiredString_ok_inv (ov : Option JsVal) (l v : String)
    (h : asRequiredString ov l = .ok v) :
    ∃ s, ov = some (.str s) ∧ v = jsTrim s ∧ jsTrim s ≠ "" := by
  unfold asRequiredString at h
  cases ov with
  | none => exact absurd h (by simp)
  | some jv =>
      cases jv with
      | str s =>
          refine ⟨s, rfl, ?_⟩
          simp only at h
          split at h
          · exact absurd h (by simp)
          · exact ⟨(Except.ok.injEq _ _ ▸ h).symm, by assumption⟩
      | nullV => exact absurd h (by simp)
      | boolV b => exact absurd h (by simp)
      | int n => exact absurd h (by simp)
      | numNonInt => exact absurd h (by simp)
      | arr xs => exact absurd h (by simp)
      | obj fs => exact absurd h (by simp)

/-- Inversion of an optional-string coercion that produced a value: the raw
value was a string and the result is its trim. -/
theorem asOptionalString_ok_some_inv (ov : Option JsVal) (l w : String)
    (h : asOptionalString ov l = .ok (some w)) :
    ∃ s, ov = some (.str s) ∧ w = jsTrim s := by
  unfold asOptionalString at h
  cases ov with
  | none => exact absurd h (by simp)
  | some jv =>
      cases jv with
      | str s =>
          refine ⟨s, rfl, ?_⟩
          simp only at h
          split at h
          · exact absurd h (by simp)
          · simp only [Except.ok.injEq, Option.some.injEq] at h
            exact h.symm
      | nullV => exact absurd h (by simp)
      | boolV b => exact absurd h (by simp)
      | int n => exact absurd h (by simp)
      | numNonInt => exact absurd h (by simp)
      | arr xs => exact absurd h (by simp)
      | obj fs => exact absurd h (by simp)

/-- Inversion of a successful date-only coercion: the value is returned
verbatim and is the canonical rendering of some day number. -/
theorem asDateOnly_ok_inv (s l d : String) (h : asDateOnly s l = .ok d) :
    d = s ∧ ∃ n, renderDate n = s := by
  by_cases hm : matchesDatePattern s = true
  · cases hp : jsParseIsoDate s with
    | none =>
        have hred : asDateOnly s l = .error (.thrown "Invalid time value") := by
          unfold asDateOnly; rw [if_pos hm, hp]
        rw [hred] at h
        exact absurd h (by simp)
    | some n =>
        have hred : asDateOnly s l = if renderDate n = s then .ok s
            else .error (err400 (l ++ " is invalid")) := by
          unfold asDateOnly; rw [if_pos hm, hp]
        rw [hred] at h
        by_cases hrd : renderDate n = s
        · rw [if_pos hrd] at h
          simp only [Except.ok.injEq] at h
          exact ⟨h.symm, n, hrd⟩
        · rw [if_neg hrd] at h
          exact absurd h (by simp)
  · have hred : asDateOnly s l = .error (err400 (l ++ " must be YYYY-MM-DD")) := by
      unfold asDateOnly; rw [if_neg hm]
    rw [hred] at h
    exact absurd h (by simp)

/-- Inversion of a successful datetime coercion: the stored value is the
canonical millisecond-precision UTC rendering of the parsed instant. -/
theorem asIsoDateTime_ok_inv (parseMs : String → Option Int) (raw l v : String)
    (h : asIsoDateTime parseMs raw l = .ok v) :
    ∃ ms, parseMs raw = some ms ∧ v = toIsoDateTimeString ms := by
  unfold asIsoDateTime at h
  cases hp : parseMs raw with
  | none => rw [hp] at h; exact absurd h (by simp)
  | some ms =>
      rw [hp] at h
      exact ⟨ms, rfl, (Except.ok.injEq _ _ ▸ h).symm⟩

/-- `ensureDayBelongsToTrip` succeeds without touching the store when the
day is present on the trip. -/
theorem ensureDayBelongsToTrip_ok (dayId tripId : String) (db : DB)
    (h : db.days.any (fun r => r.id = dayId ∧ r.trip_id = tripId) = true) :
    ensureDayBelongsToTrip dayId tripId db = (.ok (), db) := by
  unfold ensureDayBelongsToTrip
  simp only [M.get_bind]
  rw [if_pos (by simpa using h)]
  rfl

/-- Fetching a freshly appended day row returns exactly that row. -/
theorem fetchById_days_append (db : DB) (newId : String) (row : DayRow)
    (hfresh : ∀ r ∈ db.days, r.id ≠ newId) (hrow : row.id = newId) :
    fetchById .days newId { db with days := db.days ++ [row] }
      = (.ok (.day row), { db with days := db.days ++ [row] }) := by
  unfold fetchById
  simp only [M.get_bind]
  have hfilter : (db.days ++ [row]).filter (fun r => r.id = newId) = [row] := by
    rw [List.filter_append]
    rw [List.filter_eq_nil_iff.mpr (by intro r hr; simpa using hfresh r hr)]
    simp [hrow]
  rw [hfilter]
  rfl

/-- Fetching a freshly appended plan row returns exactly that row. -/
theorem fetchById_plans_append (db : DB) (newId : String) (row : PlanRow)
    (hfresh : ∀ r ∈ db.plans, r.id ≠ newId) (hrow : row.id = newId) :
    fetchById .plans newId { db with plans := db.plans ++ [row] }
      = (.ok (.plan row), { db with plans := db.plans ++ [row] }) := by
  unfold fetchById
  simp only [M.get_bind]
  have hfilter : (db.plans ++ [row]).filter (fun r => r.id = newId) = [row] := by
    rw [List.filter_append]
    rw [List.filter_eq_nil_iff.mpr (by intro r hr; simpa using hfresh r hr)]
    simp [hrow]
  rw [hfilter]
  rfl

/-- Fetching a freshly appended expense row returns exactly that row. -/
theorem fetchById_expenses_append (db : DB) (newId : String) (row : ExpenseRow)
    (hfresh : ∀ r ∈ db.expenses, r.id ≠ newId) (hrow : row.id = newId) :
    fetchById .expenses newId { db with expenses := db.expenses ++ [row] }
      = (.ok (.expense row), { db with expenses := db.expenses ++ [row] }) := by
  unfold fetchById
  simp only [M.get_bind]
  have hfilter : (db.expenses ++ [row]).filter (fun r => r.id = newId) = [row] := by
    rw [List.filter_append]
    rw [List.filter_eq_nil_iff.mpr (by intro r hr; simpa using hfresh r hr)]
    simp [hrow]
  rw [hfilter]
  rfl

/-- Fetching a freshly appended hotel row returns exactly that row. -/
theorem fetchById_hotels_append (db : DB) (newId : String) (row : HotelRow)
    (hfresh : ∀ r ∈ db.hotels, r.id ≠ newId) (hrow : row.id = newId) :
    fetchById .hotels newId { db with hotels := db.hotels ++ [row] }
      = (.ok (.hotel row), { db with hotels := db.hotels ++ [row] }) := by
  unfold fetchById
  simp only [M.get_bind]
  have hfilter : (db.hotels ++ [row]).filter (fun r => r.id = newId) = [row] := by
    rw [List.filter_append]
    rw [List.filter_eq_nil_iff.mpr (by intro r hr; simpa using hfresh r hr)]
    simp [hrow]
  rw [hfilter]
  rfl

/-- Evaluation of the standalone day-creation branch at known coercion
results, with the day number supplied explicitly in the body. -/
theorem create_days_eval (parseMs : String → Option Int) (tripId : String)
    (body : JsBody) (newId now : String) (db : DB)
    (htrip : db.trips.any (fun r => r.id = tripId) = true)
    (w : JsVal) (s d : String) (dn : Int) (ti nt : Option String)
    (hds : asRequiredString (valueOf body ["date"]) "date" = .ok s)
    (hdo : asDateOnly s "date" = .ok d)
    (hw : valueOf body ["dayNo", "day_no"] = some w)
    (hwn : w ≠ JsVal.nullV)
    (hdn : asRequiredInteger (some w) "dayNo" = .ok dn)
    (hti : asOptionalString (valueOf body ["title"]) "title" = .ok ti)
    (hnt : asOptionalString (valueOf body ["note"]) "note" = .ok nt) :
    createTripCollectionItem parseMs tripId .days body newId now db
      = fetchById .days newId { db with days := db.days ++
          [⟨newId, tripId, dn, d, ti, nt, now, now⟩] } := by
  unfold createTripCollectionItem
  rw [M.bind_ok_elim _ _ () db db (mustTripExist_ok tripId db htrip)]
  rw [show (do
      let s ← asRequiredString (valueOf body ["date"]) "date"
      asDateOnly s "date") = Except.ok d from by rw [hds, except_ok_bind, hdo]]
  simp only [M.liftE_ok_bind]
  rw [hw]
  cases w
  case nullV => exact absurd rfl hwn
  all_goals
    dsimp only
    rw [hdn]
    simp only [M.liftE_ok_bind]
    rw [hti]
    simp only [M.liftE_ok_bind]
    rw [hnt]
    simp only [M.liftE_ok_bind, M.get_bind, M.set_bind]

/-- Evaluation of the standalone plan-creation branch at known coercion
results; the day-ownership check is part of the success path. -/
theorem create_plans_eval (parseMs : String → Option Int) (tripId : String)
    (body : JsBody) (newId now : String) (db : DB)
    (htrip : db.trips.any (fun r => r.id = tripId) = true)
    (dayId place : String) (sm em ce so : Option Int) (dt mu fo tr : Option String)
    (hdi : asRequiredString (valueOf body ["dayId", "day_id"]) "dayId" = .ok dayId)
    (hpl : asRequiredString (valueOf body ["place"]) "place" = .ok place)
    (hown : db.days.any (fun r => r.id = dayId ∧ r.trip_id = tripId) = true)
    (hsm : asOptionalInteger (valueOf body ["startMin", "start_min"]) "startMin" = .ok sm)
    (hem : asOptionalInteger (valueOf body ["endMin", "end_min"]) "endMin" = .ok em)
    (hdt : asOptionalString (valueOf body ["detail"]) "detail" = .ok dt)
    (hmu : asOptionalString (valueOf body ["mapUrl", "map_url"]) "mapUrl" = .ok mu)
    (hfo : asOptionalString (valueOf body ["food"]) "food" = .ok fo)
    (htr : asOptionalString (valueOf body ["transport"]) "transport" = .ok tr)
    (hce : asOptionalInteger (valueOf body ["costEstimate", "cost_estimate"]) "costEstimate"
      = .ok ce)
    (hso : asOptionalInteger (valueOf body ["sortOrder", "sort_order"]) "sortOrder" = .ok so) :
    createTripCollectionItem parseMs tripId .plans body newId now db
      = fetchById .plans newId { db with plans := db.plans ++
          [⟨newId, tripId, dayId, sm, em, place, dt, mu, fo, tr, ce,
            so.getD 0, now, now⟩] } := by
  unfold createTripCollectionItem
  rw [M.bind_ok_elim _ _ () db db (mustTripExist_ok tripId db htrip)]
  rw [hdi]
  simp only [M.liftE_ok_bind]
  rw [hpl]
  simp only [M.liftE_ok_bind]
  rw [M.bind_ok_elim _ _ () db db (ensureDayBelongsToTrip_ok dayId tripId db hown)]
  rw [hsm]
  simp only [M.liftE_ok_bind]
  rw [hem]
  simp only [M.liftE_ok_bind]
  rw [hdt]
  simp only [M.liftE_ok_bind]
  rw [hmu]
  simp only [M.liftE_ok_bind]
  rw [hfo]
  simp only [M.liftE_ok_bind]
  rw [htr]
  simp only [M.liftE_ok_bind]
  rw [hce]
  simp only [M.liftE_ok_bind]
  rw [hso]
  simp only [M.liftE_ok_bind, M.get_bind, M.set_bind]

/-- Evaluation of the standalone expense-creation branch at known coercion
results, with both a day id and a spent-at value supplied. -/
theorem create_expenses_eval (parseMs : String → Option Int) (tripId : String)
    (body : JsBody) (newId now : String) (db : DB)
    (htrip : db.trips.any (fun r => r.id = tripId) = true)
    (item raw sa dayD : String) (amt : Int) (cu ca nt : Option String)
    (hit : asRequiredString (valueOf body ["item"]) "item" = .ok item)
    (ham : asRequiredInteger (valueOf body ["amount"]) "amount" = .ok amt)
    (hsr : asOptionalString (valueOf body ["spentAt", "spent_at"]) "spentAt" = .ok (some raw))
    (hdi : asOptionalString (valueOf body ["dayId", "day_id"]) "dayId" = .ok (some dayD))
    (hown : db.days.any (fun r => r.id = dayD ∧ r.trip_id = tripId) = true)
    (hcu : asOptionalString (valueOf body ["currency"]) "currency" = .ok cu)
    (hca : asOptionalString (valueOf body ["category"]) "category" = .ok ca)
    (hsa : asIsoDateTime parseMs raw "spentAt" = .ok sa)
    (hnt : asOptionalString (valueOf body ["note"]) "note" = .ok nt) :
    createTripCollectionItem parseMs tripId .expenses body newId now db
      = fetchById .expenses newId { db with expenses := db.expenses ++
          [⟨newId, tripId, some dayD, item, amt, cu.getD "JPY", ca, sa, nt, now, now⟩] } := by
  unfold createTripCollectionItem
  rw [M.bind_ok_elim _ _ () db db (mustTripExist_ok tripId db htrip)]
  rw [hit]
  simp only [M.liftE_ok_bind]
  rw [ham]
  simp only [M.liftE_ok_bind]
  rw [hsr]
  simp only [M.liftE_ok_bind]
  rw [hdi]
  simp only [M.liftE_ok_bind]
  rw [M.bind_ok_elim _ _ () db db (ensureDayBelongsToTrip_ok dayD tripId db hown)]
  rw [hcu]
  simp only [M.liftE_ok_bind]
  rw [hca]
  simp only [M.liftE_ok_bind]
  rw [hsa]
  simp only [M.liftE_ok_bind]
  rw [hnt]
  simp only [M.liftE_ok_bind, M.get_bind, M.set_bind]

/-- Evaluation of the standalone hotel-creation branch at known coercion
results. -/
theorem create_hotels_eval (parseMs : String → Option Int) (tripId : String)
    (body : JsBody) (newId now : String) (db : DB)
    (htrip : db.trips.any (fun r => r.id = tripId) = true)
    (nm ci sIn cin sOut cout : String) (cn : Option String) (tp : Option Int)
    (cu nt : Option String)
    (hnm : asRequiredString (valueOf body ["name"]) "name" = .ok nm)
    (hci : asRequiredString (valueOf body ["city"]) "city" = .ok ci)
    (hsi : asRequiredString (valueOf body ["checkInDate", "check_in_date"]) "checkInDate"
      = .ok sIn)
    (hdi : asDateOnly sIn "checkInDate" = .ok cin)
    (hso : asRequiredString (valueOf body ["checkOutDate", "check_out_date"]) "checkOutDate"
      = .ok sOut)
    (hdo : asDateOnly sOut "checkOutDate" = .ok cout)
    (hcn : asOptionalString (valueOf body ["confirmationNo", "confirmation_no"])
      "confirmationNo" = .ok cn)
    (htp : asOptionalInteger (valueOf body ["totalPrice", "total_price"]) "totalPrice"
      = .ok tp)
    (hcu : asOptionalString (valueOf body ["currency"]) "currency" = .ok cu)
    (hnt : asOptionalString (valueOf body ["note"]) "note" = .ok nt) :
    createTripCollectionItem parseMs tripId .hotels body newId now db
      = fetchById .hotels newId { db with hotels := db.hotels ++
          [⟨newId, tripId, nm, ci, cin, cout, cn, tp, cu.getD "JPY", nt, now, now⟩] } := by
  unfold createTripCollectionItem
  rw [M.bind_ok_elim _ _ () db db (mustTripExist_ok tripId db htrip)]
  rw [hnm]
  simp only [M.liftE_ok_bind]
  rw [hci]
  simp only [M.liftE_ok_bind]
  rw [show (do
      let s ← asRequiredString (valueOf body ["checkInDate", "check_in_date"]) "checkInDate"
      asDateOnly s "checkInDate") = Except.ok cin from by rw [hsi, except_ok_bind, hdi]]
  simp only [M.liftE_ok_bind]
  rw [show (do
      let s ← asRequiredString (valueOf body ["checkOutDate", "check_out_date"]) "checkOutDate"
      asDateOnly s "checkOutDate") = Except.ok cout from by rw [hso, except_ok_bind, hdo]]
  simp only [M.liftE_ok_bind]
  rw [hcn]
  simp only [M.liftE_ok_bind]
  rw [htp]
  simp only [M.liftE_ok_bind]
  rw [hcu]
  simp only [M.liftE_ok_bind]
  rw [hnt]
  simp only [M.liftE_ok_bind, M.get_bind, M.set_bind]

/-- C3: create / fetch round-trip.  For each of the five trip-scoped
resources, a successful create inserts exactly one row built from the
coerced field values and immediately returns that row, re-read by id from
the updated store; the stored values are the submitted ones normalized:
required/optional strings trimmed, date-only fields kept verbatim only
when they are the canonical `YYYY-MM-DD` rendering of a day number, and
datetime fields re-rendered as millisecond-precision UTC ISO-8601. -/
theorem C3_create_roundtrip (parseMs : String → Option Int) (tripId : String)
    (body : JsBody) (newId now : String) (db : DB)
    (htrip : db.trips.any (fun r => r.id = tripId) = true) :
    (∀ (w : JsVal) (s d : String) (dn : Int) (ti nt : Option String),
      asRequiredString (valueOf body ["date"]) "date" = .ok s →
      asDateOnly s "date" = .ok d →
      valueOf body ["dayNo", "day_no"] = some w →
      w ≠ JsVal.nullV →
      asRequiredInteger (some w) "dayNo" = .ok dn →
      asOptionalString (valueOf body ["title"]) "title" = .ok ti →
      asOptionalString (valueOf body ["note"]) "note" = .ok nt →
      (∀ r ∈ db.days, r.id ≠ newId) →
      createTripCollectionItem parseMs tripId .days body newId now db
          = (.ok (.day ⟨newId, tripId, dn, d, ti, nt, now, now⟩),
             { db with days := db.days ++ [⟨newId, tripId, dn, d, ti, nt, now, now⟩] })
        ∧ d = s ∧ (∃ n, renderDate n = d)
        ∧ (∃ s0, valueOf body ["date"] = some (.str s0) ∧ s = jsTrim s0)) ∧
    (∀ (dayId place : String) (sm em ce so : Option Int) (dt mu fo tr : Option String),
      asRequiredString (valueOf body ["dayId", "day_id"]) "dayId" = .ok dayId →
      asRequiredString (valueOf body ["place"]) "place" = .ok place →
      db.days.any (fun r => r.id = dayId ∧ r.trip_id = tripId) = true →
      asOptionalInteger (valueOf body ["startMin", "start_min"]) "startMin" = .ok sm →
      asOptionalInteger (valueOf body ["endMin", "end_min"]) "endMin" = .ok em →
      asOptionalString (valueOf body ["detail"]) "detail" = .ok dt →
      asOptionalString (valueOf body ["mapUrl", "map_url"]) "mapUrl" = .ok mu →
      asOptionalString (valueOf body ["food"]) "food" = .ok fo →
      asOptionalString (valueOf body ["transport"]) "transport" = .ok tr →
      asOptionalInteger (valueOf body ["costEstimate", "cost_estimate"]) "costEstimate"
        = .ok ce →
      asOptionalInteger (valueOf body ["sortOrder", "sort_order"]) "sortOrder" = .ok so →
      (∀ r ∈ db.plans, r.id ≠ newId) →
      createTripCollectionItem parseMs tripId .plans body newId now db
          = (.ok (.plan ⟨newId, tripId, dayId, sm, em, place, dt, mu, fo, tr, ce,
                so.getD 0, now, now⟩),
             { db with plans := db.plans ++ [⟨newId, tripId, dayId, sm, em, place,
                dt, mu, fo, tr, ce, so.getD 0, now, now⟩] })
        ∧ (∃ s0, valueOf body ["place"] = some (.str s0) ∧ place = jsTrim s0)) ∧
    (∀ (item raw sa dayD : String) (amt : Int) (cu ca nt : Option String),
      asRequiredString (valueOf body ["item"]) "item" = .ok item →
      asRequiredInteger (valueOf body ["amount"]) "amount" = .ok amt →
      asOptionalString (valueOf body ["spentAt", "spent_at"]) "spentAt" = .ok (some raw) →
      asOptionalString (valueOf body ["dayId", "day_id"]) "dayId" = .ok (some dayD) →
      db.days.any (fun r => r.id = dayD ∧ r.trip_id = tripId) = true →
      asOptionalString (valueOf body ["currency"]) "currency" = .ok cu →
      asOptionalString (valueOf body ["category"]) "category" = .ok ca →
      asIsoDateTime parseMs raw "spentAt" = .ok sa →
      asOptionalString (valueOf body ["note"]) "note" = .ok nt →
      (∀ r ∈ db.expenses, r.id ≠ newId) →
      createTripCollectionItem parseMs tripId .expenses body newId now db
          = (.ok (.expense ⟨newId, tripId, some dayD, item, amt, cu.getD "JPY", ca,
                sa, nt, now, now⟩),
             { db with expenses := db.expenses ++ [⟨newId, tripId, some dayD, item,
                amt, cu.getD "JPY", ca, sa, nt, now, now⟩] })
        ∧ (∃ ms, parseMs raw = some ms ∧ sa = toIsoDateTimeString ms)
        ∧ (∃ s0, valueOf body ["item"] = some (.str s0) ∧ item = jsTrim s0)) ∧
    (∀ (lt : Option String) (lo : Option Int) (fc : String) (fa : Option String)
        (tc : String) (ta : Option String) (dRaw aRaw da aa al fn : String)
        (pr : Option Int) (cu nt : Option String),
      asOptionalString (valueOf body ["legType", "leg_type"]) "legType" = .ok lt →
      asOptionalInteger (valueOf body ["legOrder", "leg_order"]) "legOrder" = .ok lo →
      asRequiredString (valueOf body ["fromCode", "from_code"]) "fromCode" = .ok fc →
      asOptionalString (valueOf body ["fromAirport", "from_airport"]) "fromAirport"
        = .ok fa →
      asRequiredString (valueOf body ["toCode", "to_code"]) "toCode" = .ok tc →
      asOptionalString (valueOf body ["toAirport", "to_airport"]) "toAirport" = .ok ta →
      asRequiredString (valueOf body ["departAt", "depart_at"]) "departAt" = .ok dRaw →
      asIsoDateTime parseMs dRaw "departAt" = .ok da →
      asRequiredString (valueOf body ["arriveAt", "arrive_at"]) "arriveAt" = .ok aRaw →
      asIsoDateTime parseMs aRaw "arriveAt" = .ok aa →
      asRequiredString (valueOf body ["airline"]) "airline" = .ok al →
      asRequiredString (valueOf body ["flightNo", "flight_no"]) "flightNo" = .ok fn →
      asOptionalInteger (valueOf body ["price"]) "price" = .ok pr →
      asOptionalString (valueOf body ["currency"]) "currency" = .ok cu →
      asOptionalString (valueOf body ["note"]) "note" = .ok nt →
      (∀ r ∈ db.flights, r.id ≠ newId) →
      createTripCollectionItem parseMs tripId .flights body newId now db
          = (.ok (.flight ⟨newId, tripId, lt.getD "multi", lo.getD 1, fc, fa, tc, ta,
                da, aa, al, fn, pr, cu.getD "KRW", nt, now, now⟩),
             { db with flights := db.flights ++ [⟨newId, tripId, lt.getD "multi",
                lo.getD 1, fc, fa, tc, ta, da, aa, al, fn, pr, cu.getD "KRW", nt,
                now, now⟩] })
        ∧ (∃ ms, parseMs dRaw = some ms ∧ da = toIsoDateTimeString ms)
        ∧ (∃ ms, parseMs aRaw = some ms ∧ aa = toIsoDateTimeString ms)) ∧
    (∀ (nm ci sIn cin sOut cout : String) (cn : Option String) (tp : Option Int)
        (cu nt : Option String),
      asRequiredString (valueOf body ["name"]) "name" = .ok nm →
      asRequiredString (valueOf body ["city"]) "city" = .ok ci →
      asRequiredString (valueOf body ["checkInDate", "check_in_date"]) "checkInDate"
        = .ok sIn →
      asDateOnly sIn "checkInDate" = .ok cin →
      asRequiredString (valueOf body ["checkOutDate", "check_out_date"]) "checkOutDate"
        = .ok sOut →
      asDateOnly sOut "checkOutDate" = .ok cout →
      asOptionalString (valueOf body ["confirmationNo", "confirmation_no"])
        "confirmationNo" = .ok cn →
      asOptionalInteger (valueOf body ["totalPrice", "total_price"]) "totalPrice"
        = .ok tp →
      asOptionalString (valueOf body ["currency"]) "currency" = .ok cu →
      asOptionalString (valueOf body ["note"]) "note" = .ok nt →
      (∀ r ∈ db.hotels, r.id ≠ newId) →
      createTripCollectionItem parseMs tripId .hotels body newId now db
          = (.ok (.hotel ⟨newId, tripId, nm, ci, cin, cout, cn, tp, cu.getD "JPY", nt,
                now, now⟩),
             { db with hotels := db.hotels ++ [⟨newId, tripId, nm, ci, cin, cout, cn,
                tp, cu.getD "JPY", nt, now, now⟩] })
        ∧ cin = sIn ∧ (∃ n, renderDate n = cin)
        ∧ cout = sOut ∧ (∃ n, renderDate n = cout)
        ∧ (∃ s0, valueOf body ["name"] = some (.str s0) ∧ nm = jsTrim s0)) := by
  refine ⟨?_, ?_, ?_, ?_, ?_⟩
  · intro w s d dn ti nt hds hdo hw hwn hdn hti hnt hfresh
    obtain ⟨hd1, n, hn⟩ := asDateOnly_ok_inv s "date" d hdo
    obtain ⟨s0, hs0, hTrim, _⟩ := asRequiredString_ok_inv _ _ _ hds
    exact ⟨(create_days_eval parseMs tripId body newId now db htrip w s d dn ti nt
        hds hdo hw hwn hdn hti hnt).trans
      (fetchById_days_append db newId ⟨newId, tripId, dn, d, ti, nt, now, now⟩ hfresh rfl),
      hd1, ⟨n, hd1.symm ▸ hn⟩, ⟨s0, hs0, hTrim⟩⟩
  · intro dayId place sm em ce so dt mu fo tr hdi hpl hown hsm hem hdt hmu hfo htr hce
      hso hfresh
    obtain ⟨s0, hs0, hTrim, _⟩ := asRequiredString_ok_inv _ _ _ hpl
    exact ⟨(create_plans_eval parseMs tripId body newId now db htrip dayId place sm em
        ce so dt mu fo tr hdi hpl hown hsm hem hdt hmu hfo htr hce hso).trans
      (fetchById_plans_append db newId ⟨newId, tripId, dayId, sm, em, place, dt, mu,
        fo, tr, ce, so.getD 0, now, now⟩ hfresh rfl),
      ⟨s0, hs0, hTrim⟩⟩
  · intro item raw sa dayD amt cu ca nt hit ham hsr hdi hown hcu hca hsa hnt hfresh
    obtain ⟨ms, hms, hsa1⟩ := asIsoDateTime_ok_inv parseMs raw "spentAt" sa hsa
    obtain ⟨s0, hs0, hTrim, _⟩ := asRequiredString_ok_inv _ _ _ hit
    exact ⟨(create_expenses_eval parseMs tripId body newId now db htrip item raw sa
        dayD amt cu ca nt hit ham hsr hdi hown hcu hca hsa hnt).trans
      (fetchById_expenses_append db newId ⟨newId, tripId, some dayD, item, amt,
        cu.getD "JPY", ca, sa, nt, now, now⟩ hfresh rfl),
      ⟨ms, hms, hsa1⟩, ⟨s0, hs0, hTrim⟩⟩
  · intro lt lo fc fa tc ta dRaw aRaw da aa al fn pr cu nt hlt hlo hfc hfa htc hta hdr
      hda har haa hal hfn hpr hcu hnt hfresh
    obtain ⟨msd, hmsd, hda1⟩ := asIsoDateTime_ok_inv parseMs dRaw "departAt" da hda
    obtain ⟨msa, hmsa, haa1⟩ := asIsoDateTime_ok_inv parseMs aRaw "arriveAt" aa haa
    exact ⟨(create_flights_eval parseMs tripId body newId now db htrip lt lo fc fa tc
        ta dRaw aRaw da aa al fn pr cu nt hlt hlo hfc hfa htc hta hdr hda har haa hal
        hfn hpr hcu hnt).trans
      (fetchById_flights_append db newId ⟨newId, tripId, lt.getD "multi", lo.getD 1,
        fc, fa, tc, ta, da, aa, al, fn, pr, cu.getD "KRW", nt, now, now⟩ hfresh rfl),
      ⟨msd, hmsd, hda1⟩, ⟨msa, hmsa, haa1⟩⟩
  · intro nm ci sIn cin sOut cout cn tp cu nt hnm hci hsi hdi hso hdo hcn htp hcu hnt
      hfresh
    obtain ⟨hc1, n1, hn1⟩ := asDateOnly_ok_inv sIn "checkInDate" cin hdi
    obtain ⟨hc2, n2, hn2⟩ := asDateOnly_ok_inv sOut "checkOutDate" cout hdo
    obtain ⟨s0, hs0, hTrim, _⟩ := asRequiredString_ok_inv _ _ _ hnm
    exact ⟨(create_hotels_eval parseMs tripId body newId now db htrip nm ci sIn cin
        sOut cout cn tp cu nt hnm hci hsi hdi hso hdo hcn htp hcu hnt).trans
      (fetchById_hotels_append db newId ⟨newId, tripId, nm, ci, cin, cout, cn, tp,
        cu.getD "JPY", nt, now, now⟩ hfresh rfl),
      hc1, ⟨n1, hc1.symm ▸ hn1⟩, hc2, ⟨n2, hc2.symm ▸ hn2⟩, ⟨s0, hs0, hTrim⟩⟩

/-- Platform datetime parse used in the concrete round-trip scenario:
every input parses to the epoch instant. -/
def c3parse : String → Option Int := fun _ => some 0

/-- Timestamp injected as `nowIso()` in the round-trip scenario. -/
def c3now : String := "2025-04-01T00:00:00.000Z"

/-- Store for the round-trip scenario: one trip `t1` with one day `d1`. -/
def c3db : DB :=
  { trips := [⟨"t1", "Kyoto trip", "Kyoto", "2025-04-01", "2025-04-03", "JPY",
      none, "PLANNED", c3now, c3now⟩],
    days := [⟨"d1", "t1", 1, "2025-04-01", none, none, c3now, c3now⟩],
    plans := [], expenses := [], flights := [], hotels := [] }

/-- Create body for the round-trip scenario, holding the union of the five
resources' fields; string fields carry leading/trailing whitespace to
exercise trimming. -/
def c3body : JsBody :=
  [("date", .str "2025-04-02"),
   ("dayNo", .int 2),
   ("title", .str " Arrival "),
   ("note", .nullV),
   ("dayId", .str "d1"),
   ("place", .str " Fushimi Inari "),
   ("startMin", .int 540),
   ("endMin", .nullV),
   ("detail", .nullV),
   ("mapUrl", .nullV),
   ("food", .nullV),
   ("transport", .nullV),
   ("costEstimate", .nullV),
   ("sortOrder", .int 5),
   ("item", .str " Rail pass "),
   ("amount", .int 3000),
   ("spentAt", .str "2025-04-02T10:00:00+09:00"),
   ("currency", .str "JPY"),
   ("category", .nullV),
   ("legType", .nullV),
   ("legOrder", .nullV),
   ("fromCode", .str "ICN"),
   ("fromAirport", .nullV),
   ("toCode", .str "KIX"),
   ("toAirport", .nullV),
   ("departAt", .str "2025-04-01T09:00:00+09:00"),
   ("arriveAt", .str "2025-04-01T11:00:00+09:00"),
   ("airline", .str "KE"),
   ("flightNo", .str "KE723"),
   ("price", .nullV),
   ("name", .str " Gion Inn "),
   ("city", .str "Kyoto"),
   ("checkInDate", .str "2025-04-01"),
   ("checkOutDate", .str "2025-04-03"),
   ("confirmationNo", .nullV),
   ("totalPrice", .int 40000)]

set_option maxRecDepth 8000 in
/-- C3 at concrete inputs: each of the five creates succeeds and returns
the row of trimmed / canonicalized values. -/
theorem C3_witness :
    (createTripCollectionItem c3parse "t1" .days c3body "n1" c3now c3db).1
        = .ok (.day ⟨"n1", "t1", 2, "2025-04-02", some "Arrival", none,
            c3now, c3now⟩) ∧
    (createTripCollectionItem c3parse "t1" .plans c3body "n1" c3now c3db).1
        = .ok (.plan ⟨"n1", "t1", "d1", some 540, none, "Fushimi Inari", none,
            none, none, none, none, 5, c3now, c3now⟩) ∧
    (createTripCollectionItem c3parse "t1" .expenses c3body "n1" c3now c3db).1
        = .ok (.expense ⟨"n1", "t1", some "d1", "Rail pass", 3000, "JPY", none,
            "1970-01-01T00:00:00.000Z", none, c3now, c3now⟩) ∧
    (createTripCollectionItem c3parse "t1" .flights c3body "n1" c3now c3db).1
        = .ok (.flight ⟨"n1", "t1", "multi", 1, "ICN", none, "KIX", none,
            "1970-01-01T00:00:00.000Z", "1970-01-01T00:00:00.000Z", "KE", "KE723",
            none, "JPY", none, c3now, c3now⟩) ∧
    (createTripCollectionItem c3parse "t1" .hotels c3body "n1" c3now c3db).1
        = .ok (.hotel ⟨"n1", "t1", "Gion Inn", "Kyoto", "2025-04-01", "2025-04-03",
            none, some 40000, "JPY", none, c3now, c3now⟩) := by
  obtain ⟨hd, hp, he, hf, hh⟩ := C3_create_roundtrip c3parse "t1" c3body "n1" c3now
    c3db (by rfl)
  refine ⟨?_, ?_, ?_, ?_, ?_⟩
  · obtain ⟨heval, -⟩ := hd (JsVal.int 2) "2025-04-02" "2025-04-02" 2 (some "Arrival")
      none (by rfl) (by rfl) (by rfl) (by intro hc; cases hc) (by rfl) (by rfl)
      (by rfl)
      (by intro r hr
          have h1 : c3db.days = [⟨"d1", "t1", 1, "2025-04-01", none, none,
            c3now, c3now⟩] := rfl
          rw [h1, List.mem_singleton] at hr
          subst hr
          decide)
    rw [heval]
  · obtain ⟨heval, -⟩ := hp "d1" "Fushimi Inari" (some 540) none none (some 5) none
      none none none (by rfl) (by rfl) (by rfl) (by rfl) (by rfl) (by rfl) (by rfl)
      (by rfl) (by rfl) (by rfl) (by rfl)
      (by intro r hr; exact absurd hr (List.not_mem_nil r))
    rw [heval]
    rfl
  · obtain ⟨heval, -⟩ := he "Rail pass" "2025-04-02T10:00:00+09:00"
      "1970-01-01T00:00:00.000Z" "d1" 3000 (some "JPY") none none (by rfl) (by rfl)
      (by rfl) (by rfl) (by rfl) (by rfl) (by rfl) (by rfl) (by rfl)
      (by intro r hr; exact absurd hr (List.not_mem_nil r))
    rw [heval]
    rfl
  · obtain ⟨heval, -⟩ := hf none none "ICN" none "KIX" none
      "2025-04-01T09:00:00+09:00" "2025-04-01T11:00:00+09:00"
      "1970-01-01T00:00:00.000Z" "1970-01-01T00:00:00.000Z" "KE" "KE723" none
      (some "JPY") none (by rfl) (by rfl) (by rfl) (by rfl) (by rfl) (by rfl)
      (by rfl) (by rfl) (by rfl) (by rfl) (by rfl) (by rfl) (by rfl) (by rfl)
      (by rfl) (by intro r hr; exact absurd hr (List.not_mem_nil r))
    rw [heval]
    rfl
  · obtain ⟨heval, -⟩ := hh "Gion Inn" "Kyoto" "2025-04-01" "2025-04-01"
      "2025-04-03" "2025-04-03" none (some 40000) (some "JPY") none (by rfl)
      (by rfl) (by rfl) (by rfl) (by rfl) (by rfl) (by rfl) (by rfl) (by rfl)
      (by rfl) (by intro r hr; exact absurd hr (List.not_mem_nil r))
    rw [heval]
    rfl

end Travel
